import Mathlib

/-!
Emblem combat resolution engine

A shallow embedding of the combat calculator of the Emblem system
(`module/helpers/combat-calculator.mjs`, `module/helpers/InteractiveCombat.mjs`)
together with the properties proved about it.

Conventions of the embedding:

* JavaScript numbers that the schemas declare `integer: true` are `Int`; all
  arithmetic in the modelled code stays inside the exactly representable range.
  A number that `parseInt` reads from a text can be larger; it is rounded to the
  nearest Number by `toNumber`.
* A value that may be `null` or `undefined` is an `Option`.
* A `TypeError` raised by reading a property of `undefined` is `Except.error`.
* Dice (`new Roll("1d100").evaluate()`) are an explicit stream of outcomes.
* Functions of the hosting application that the repository only calls are
  fields of `Host`.
-/

namespace Emblem

/-! ## Weapon triangle -/

/-- An entry of one of the three triangle tables. -/
structure TriangleEntry where
  beats : String
  losesTo : String
deriving DecidableEq, Repr

/-- Value obtained by reading `table[key]` on an object literal: an own entry,
a member inherited from `Object.prototype` (truthy, but without `beats` and
`losesTo`), or `undefined`. -/
inductive TableValue where
  | undefined
  | inherited
  | entry (e : TriangleEntry)
deriving DecidableEq, Repr

/-- Property names that every object literal inherits from `Object.prototype`. -/
def objectPrototypeKeys : List String :=
  ["constructor", "__defineGetter__", "__defineSetter__", "hasOwnProperty",
   "__lookupGetter__", "__lookupSetter__", "isPrototypeOf", "propertyIsEnumerable",
   "toString", "valueOf", "__proto__", "toLocaleString"]

/-- Read `table[key]` where `table` is an object literal with the given own entries. -/
def tableGet (own : List (String × TriangleEntry)) (key : String) : TableValue :=
  match own.lookup key with
  | some e => .entry e
  | none => if objectPrototypeKeys.contains key then .inherited else .undefined

/-- JavaScript truthiness of a table read. -/
def TableValue.truthy : TableValue → Bool
  | .undefined => false
  | .inherited => true
  | .entry _ => true

/-- The `beats` property of a table read (`undefined` is `none`). -/
def TableValue.beats : TableValue → Option String
  | .entry e => some e.beats
  | _ => none

/-- The `losesTo` property of a table read (`undefined` is `none`). -/
def TableValue.losesTo : TableValue → Option String
  | .entry e => some e.losesTo
  | _ => none

/-- Physical weapon triangle. -/
def physicalTriangle : List (String × TriangleEntry) :=
  [("sword", ⟨"axe", "lance"⟩),
   ("lance", ⟨"sword", "axe"⟩),
   ("axe", ⟨"lance", "sword"⟩)]

/-- Magic triangle level 1 (main). -/
def magicTriangle : List (String × TriangleEntry) :=
  [("light", ⟨"dark", "anima"⟩),
   ("dark", ⟨"anima", "light"⟩),
   ("anima", ⟨"light", "dark"⟩)]

/-- Magic triangle level 2 (anima subtypes). -/
def animaTriangle : List (String × TriangleEntry) :=
  [("thunder", ⟨"fire", "wind"⟩),
   ("fire", ⟨"wind", "thunder"⟩),
   ("wind", ⟨"thunder", "fire"⟩)]

/-- Result record of `getWeaponTriangleAdvantage`. -/
structure TriangleResult where
  advantage : Int
  hitMod : Int
  damageMod : Int
deriving DecidableEq, Repr

/-- `CombatCalculator.getWeaponTriangleAdvantage`. -/
def getWeaponTriangleAdvantage (attackerType defenderType : String) : TriangleResult :=
  -- Check physical triangle
  if (tableGet physicalTriangle attackerType).truthy
      && (tableGet physicalTriangle defenderType).truthy then
    if (tableGet physicalTriangle attackerType).beats = some defenderType then
      { advantage := 1, hitMod := 15, damageMod := 1 }
    else if (tableGet physicalTriangle attackerType).losesTo = some defenderType then
      { advantage := -1, hitMod := -15, damageMod := -1 }
    else
      { advantage := 0, hitMod := 0, damageMod := 0 }
  else
    -- Normalize anima subtypes to "anima" for level 1 comparison
    let normalizedAttacker :=
      if ["fire", "thunder", "wind"].contains attackerType then "anima" else attackerType
    let normalizedDefender :=
      if ["fire", "thunder", "wind"].contains defenderType then "anima" else defenderType
    -- Check magic triangle level 1 (light/dark vs anima)
    if (tableGet magicTriangle normalizedAttacker).truthy
        && (tableGet magicTriangle normalizedDefender).truthy then
      -- If both are anima subtypes, check level 2 triangle
      if normalizedAttacker = "anima" && normalizedDefender = "anima"
          && (tableGet animaTriangle attackerType).truthy
          && (tableGet animaTriangle defenderType).truthy then
        if (tableGet animaTriangle attackerType).beats = some defenderType then
          { advantage := 1, hitMod := 10, damageMod := 1 }
        else if (tableGet animaTriangle attackerType).losesTo = some defenderType then
          { advantage := -1, hitMod := -10, damageMod := -1 }
        else
          { advantage := 0, hitMod := 0, damageMod := 0 }
      -- Level 1 magic triangle
      else if (tableGet magicTriangle normalizedAttacker).beats = some normalizedDefender then
        { advantage := 1, hitMod := 15, damageMod := 1 }
      else if (tableGet magicTriangle normalizedAttacker).losesTo = some normalizedDefender then
        { advantage := -1, hitMod := -15, damageMod := -1 }
      else
        { advantage := 0, hitMod := 0, damageMod := 0 }
    else
      -- No triangle advantage (physical vs magic, or invalid types)
      { advantage := 0, hitMod := 0, damageMod := 0 }

/-! ### Reference table of the weapon triangle (written from the specification) -/

/-- Pairs `(winner, loser)` of the physical triangle. -/
def physicalWins : List (String × String) :=
  [("sword", "axe"), ("axe", "lance"), ("lance", "sword")]

/-- Pairs `(winner, loser)` of the level-1 magic triangle. -/
def magicWins : List (String × String) :=
  [("light", "dark"), ("dark", "anima"), ("anima", "light")]

/-- Pairs `(winner, loser)` of the anima sub-triangle. -/
def animaWins : List (String × String) :=
  [("thunder", "fire"), ("fire", "wind"), ("wind", "thunder")]

/-- Fire, thunder and wind are read as anima at level 1. -/
def readAsAnima (t : String) : String :=
  if t = "fire" ∨ t = "thunder" ∨ t = "wind" then "anima" else t

/-- Score a pair against a list of `(winner, loser)` pairs with the given hit modifier. -/
def scorePair (wins : List (String × String)) (hit : Int) (a b : String) : TriangleResult :=
  if (a, b) ∈ wins then ⟨1, hit, 1⟩
  else if (b, a) ∈ wins then ⟨-1, -hit, -1⟩
  else ⟨0, 0, 0⟩

/-- Reference table: physical triangle with ±15/±1, anima sub-triangle with ±10/±1 when
both types are anima sub-types, level-1 magic triangle with ±15/±1 after reading the
sub-types as anima, and the neutral result for every other pair. -/
def triangleReference (a b : String) : TriangleResult :=
  if a ∈ ["sword", "lance", "axe"] ∧ b ∈ ["sword", "lance", "axe"] then
    scorePair physicalWins 15 a b
  else if a ∈ ["fire", "thunder", "wind"] ∧ b ∈ ["fire", "thunder", "wind"] then
    scorePair animaWins 10 a b
  else if readAsAnima a ∈ ["light", "dark", "anima"]
      ∧ readAsAnima b ∈ ["light", "dark", "anima"] then
    scorePair magicWins 15 (readAsAnima a) (readAsAnima b)
  else ⟨0, 0, 0⟩

/-- The nine names that own an entry in one of the triangle tables. -/
def knownTypes : List String :=
  ["sword", "lance", "axe", "light", "dark", "anima", "fire", "thunder", "wind"]

/-- Field-wise negation of a triangle result. -/
def TriangleResult.neg (r : TriangleResult) : TriangleResult :=
  ⟨-r.advantage, -r.hitMod, -r.damageMod⟩


/-! ## Data model (the fields of the documents that the combat code reads) -/

/-- A `{value, max}` stat pair of the actor schema. -/
structure Stat where
  value : Int
  max : Int
deriving DecidableEq, Repr

/-- Base stats of an actor: `system.stats`. The field `def_` is `def` in the source. -/
structure Stats where
  hp : Stat
  str : Stat
  mag : Stat
  skl : Stat
  spd : Stat
  lck : Stat
  def_ : Stat
  res : Stat
  mov : Stat
deriving DecidableEq, Repr

/-- Derived stats: `system.derived`. Every field is declared `required: false`, so it may
be missing. -/
structure Derived where
  hit : Option Int
  avoid : Option Int
  crit : Option Int
  critAvoid : Option Int
  attackSpeed : Option Int
  attack : Option Int
deriving DecidableEq, Repr

/-- Contents of `actor.system`. -/
structure ActorSystem where
  stats : Stats
  derived : Derived
deriving DecidableEq, Repr

/-- Contents of `item.system`, the union of the fields of the weapon and class schemas that
the combat code reads. Every read in the code is guarded by a test of `item.type`.
`broken` is the derived flag that `EmblemItem._prepareWeaponData` maintains; `magicType`
is the schema field of tomes (initial value "anima"), which no combat function reads. -/
structure ItemSystem where
  weaponType : String
  might : Int
  hit : Int
  crit : Int
  weight : Int
  range : String
  uses : Int
  usesMax : Int
  effective : Option (List String)
  equipped : Bool
  broken : Bool
  classType : String
  magicType : String := "anima"
deriving DecidableEq, Repr

/-- An owned item (weapon, skill, class or consumable). -/
structure Item where
  id : String
  name : String
  type : String
  system : ItemSystem
deriving DecidableEq, Repr

/-- An actor. `ref` stands for the identity of the JavaScript object: `a === b` on actors
is equality of `ref`. -/
structure Actor where
  ref : Nat
  id : String
  name : String
  type : String
  system : ActorSystem
  items : List Item
deriving DecidableEq, Repr

/-- Position part of `token.document`. -/
structure TokenDocument where
  x : Int
  y : Int
deriving DecidableEq, Repr

/-- A token on the canvas. -/
structure Token where
  name : String
  actor : Actor
  document : TokenDocument
deriving DecidableEq, Repr

/-- Grid coordinates returned by `canvas.grid.getOffset`. -/
structure GridOffset where
  i : Int
  j : Int
deriving DecidableEq, Repr

/-- Functions of the host that the combat code calls and that the repository does not
contain: the Unicode case folding of `String.prototype.toLowerCase` and the grid geometry
behind `canvas.grid.getOffset`. -/
structure Host where
  toLowerCase : String → String
  getOffset : Int → Int → GridOffset

/-- Errors thrown by the modelled code. -/
inductive JsError where
  | typeError
deriving DecidableEq, Repr

/-- The predicate `i => i.type === 'weapon' && i.system.equipped`. -/
def isEquippedWeapon (i : Item) : Bool :=
  i.type == "weapon" && i.system.equipped

/-- `x || 0` on a number that may be missing. -/
def orZero (x : Option Int) : Int :=
  match x with
  | some v => v
  | none => 0

/-- `Math.floor` on a value that is already an integer. -/
def mathFloor (x : Int) : Int := x

/-! ## Skill query -/

/-- `String.prototype.includes`. -/
def includes (s sub : String) : Bool :=
  s.toList.tails.any (fun t => sub.toList.isPrefixOf t)

/-- Flags returned by `checkCombatSkills`. -/
structure CombatSkills where
  hasDesperation : Bool
  hasVantage : Bool
  hasQuickRiposte : Bool
  hasBraveWeapon : Bool
  preventsCounterattack : Bool
  preventsFollowup : Bool
  guaranteedFollowup : Bool
deriving DecidableEq, Repr

/-- One iteration of the loop over the skills of `checkCombatSkills`. -/
def checkSkillName (skillName : String) (skills : CombatSkills) : CombatSkills :=
  let skills := if includes skillName "desperation"
    then { skills with hasDesperation := true } else skills
  let skills := if includes skillName "vantage" || includes skillName "ventaja"
    then { skills with hasVantage := true } else skills
  let skills := if includes skillName "quick riposte" || includes skillName "contracorta"
    then { skills with hasQuickRiposte := true } else skills
  let skills := if includes skillName "windsweep" || includes skillName "sin contraataque"
    then { skills with preventsCounterattack := true } else skills
  skills

/-- `CombatCalculator.checkCombatSkills`. -/
def checkCombatSkills (host : Host) (actor : Actor) : CombatSkills :=
  let skills : CombatSkills :=
    { hasDesperation := false, hasVantage := false, hasQuickRiposte := false,
      hasBraveWeapon := false, preventsCounterattack := false, preventsFollowup := false,
      guaranteedFollowup := false }
  -- Buscar skills en el actor
  let actorSkills := actor.items.filter (fun i => i.type == "skill")
  let skills := actorSkills.foldl
    (fun skills skill => checkSkillName (host.toLowerCase skill.name) skills) skills
  -- Buscar arma equipada para efectos especiales
  match actor.items.find? isEquippedWeapon with
  | some weapon =>
    let weaponName := host.toLowerCase weapon.name
    if includes weaponName "brave" || includes weaponName "valor" then
      { skills with hasBraveWeapon := true }
    else skills
  | none => skills

/-! ## Formula engine -/

/-- `CombatCalculator.calculateHitChance`; `weapon` is the optional third argument. -/
def calculateHitChance (attacker defender : Actor) (weapon : Option Item) : Int :=
  let attackerSystem := attacker.system
  let defenderSystem := defender.system
  -- Base hit rate
  let hitRate := orZero attackerSystem.derived.hit
  -- Get weapon triangle modifier
  let hitRate :=
    match weapon with
    | some weapon =>
      let attackerWeapon := weapon.system.weaponType
      match defender.items.find? isEquippedWeapon with
      | some defenderWeapon =>
        hitRate + (getWeaponTriangleAdvantage attackerWeapon
          defenderWeapon.system.weaponType).hitMod
      | none => hitRate
    | none => hitRate
  -- Subtract defender avoid
  let avoid := orZero defenderSystem.derived.avoid
  let finalHit := hitRate - avoid
  max 0 (min 100 finalHit)

/-- `CombatCalculator.calculateDamage`. -/
def calculateDamage (attacker defender : Actor) (weapon : Item) (isCrit : Bool) : Int :=
  let attackerSystem := attacker.system
  let defenderSystem := defender.system
  let weaponSystem := weapon.system
  -- Determine if physical or magical
  let isMagical := ["tome", "staff"].contains weaponSystem.weaponType
  -- Base attack stat
  let attackStat :=
    if isMagical then attackerSystem.stats.mag.value else attackerSystem.stats.str.value
  -- Base damage
  let damage := attackStat + weaponSystem.might
  -- Apply weapon triangle
  let damage :=
    match defender.items.find? isEquippedWeapon with
    | some defenderWeapon =>
      damage + (getWeaponTriangleAdvantage weaponSystem.weaponType
        defenderWeapon.system.weaponType).damageMod
    | none => damage
  -- Check for effectiveness
  let damage :=
    match weaponSystem.effective with
    | some effective =>
      if effective.length > 0 then
        match defender.items.find? (fun i => i.type == "class") with
        | some defenderClass =>
          if effective.contains defenderClass.system.classType then
            mathFloor (damage * 3)
          else damage
        | none => damage
      else damage
    | none => damage
  -- Subtract defense/resistance
  let defense :=
    if isMagical then defenderSystem.stats.res.value else defenderSystem.stats.def_.value
  let damage := max 0 (damage - defense)
  -- Apply critical (x3 damage)
  let damage := if isCrit then mathFloor (damage * 3) else damage
  damage

/-- `CombatCalculator.calculateCritChance`. -/
def calculateCritChance (attacker defender : Actor) : Int :=
  let attackerSystem := attacker.system
  let defenderSystem := defender.system
  let critRate := orZero attackerSystem.derived.crit
  let critAvoid := orZero defenderSystem.derived.critAvoid
  let finalCrit := critRate - critAvoid
  max 0 finalCrit

/-- `CombatCalculator.canDouble`. -/
def canDouble (attacker defender : Actor) : Bool :=
  let attackerAS := orZero attacker.system.derived.attackSpeed
  let defenderAS := orZero defender.system.derived.attackSpeed
  decide (attackerAS - defenderAS ≥ 4)

/-! ### Reference computations of the formula engine (written from the specification) -/

/-- The triangle between a weapon type and the defender's equipped weapon type; the neutral
result when the defender has no equipped weapon. -/
def triangleAgainst (weaponType : String) (defender : Actor) : TriangleResult :=
  match defender.items.find? isEquippedWeapon with
  | some defenderWeapon => getWeaponTriangleAdvantage weaponType defenderWeapon.system.weaponType
  | none => ⟨0, 0, 0⟩

/-- The weapon's effective list contains the defender's class type. -/
def isEffectiveAgainst (weapon : Item) (defender : Actor) : Prop :=
  ∃ l c, weapon.system.effective = some l
    ∧ defender.items.find? (fun i => i.type == "class") = some c ∧ c.system.classType ∈ l

instance (weapon : Item) (defender : Actor) : Decidable (isEffectiveAgainst weapon defender) :=
  match h1 : weapon.system.effective, h2 : defender.items.find? (fun i => i.type == "class") with
  | some l, some c =>
    if h : c.system.classType ∈ l then isTrue ⟨l, c, h1, h2, h⟩
    else isFalse (fun ⟨l', c', e1, e2, h'⟩ => by
      rw [h1] at e1; rw [h2] at e2; cases e1; cases e2; exact h h')
  | none, _ => isFalse (fun ⟨_, _, e1, _, _⟩ => by rw [h1] at e1; cases e1)
  | _, none => isFalse (fun ⟨_, _, _, e2, _⟩ => by rw [h2] at e2; cases e2)

/-- Reference damage computation. -/
def damageReference (attacker defender : Actor) (weapon : Item) (isCrit : Bool) : Int :=
  let magical := weapon.system.weaponType = "tome" ∨ weapon.system.weaponType = "staff"
  let attackStat := if magical then attacker.system.stats.mag.value
    else attacker.system.stats.str.value
  let base := attackStat + weapon.system.might
    + (triangleAgainst weapon.system.weaponType defender).damageMod
  let boosted := if isEffectiveAgainst weapon defender then base * 3 else base
  let defence := if magical then defender.system.stats.res.value
    else defender.system.stats.def_.value
  let reduced := max 0 (boosted - defence)
  if isCrit then reduced * 3 else reduced

/-- `clamp(lo, hi, x)`. -/
def clamp (lo hi x : Int) : Int :=
  if x < lo then lo else if hi < x then hi else x


/-! ## Range parsing and counter eligibility -/

/-- White space skipped by `parseInt` (`StrWhiteSpaceChar`). -/
def isJsWhiteSpace (c : Char) : Bool :=
  [0x9, 0xA, 0xB, 0xC, 0xD, 0x20, 0xA0, 0x1680, 0x2000, 0x2001, 0x2002, 0x2003, 0x2004,
   0x2005, 0x2006, 0x2007, 0x2008, 0x2009, 0x200A, 0x2028, 0x2029, 0x202F, 0x205F, 0x3000,
   0xFEFF].contains c.toNat

/-- Value of a character as a digit of the given radix (10 or 16). -/
def digitValue (radix : Nat) (c : Char) : Option Nat :=
  let n := c.toNat
  if 48 ≤ n ∧ n ≤ 57 then some (n - 48)
  else if radix = 16 ∧ 97 ≤ n ∧ n ≤ 102 then some (n - 87)
  else if radix = 16 ∧ 65 ≤ n ∧ n ≤ 70 then some (n - 55)
  else none

/-- Longest prefix of digits of the given radix, as digit values. -/
def takeDigits (radix : Nat) : List Char → List Nat
  | [] => []
  | c :: cs =>
    match digitValue radix c with
    | some d => d :: takeDigits radix cs
    | none => []

/-- The Number value for a natural number, as an integer: the number itself up to 2^53,
and beyond that the nearest number with 53 significant bits, a tie going to the one whose
last significant bit is 0. Numbers are integers in this development, so `Infinity`, the
Number value from about 2^1024 on (309 decimal digits or more), has no counterpart here. -/
def toNumber (v : Nat) : Nat :=
  if v ≤ 9007199254740992 then v
  else
    let shift := Nat.log2 v - 52
    let q := v / 2 ^ shift
    let r := v % 2 ^ shift
    let half := 2 ^ (shift - 1)
    if r > half ∨ (r = half ∧ q % 2 = 1) then (q + 1) * 2 ^ shift else q * 2 ^ shift

/-- `parseInt(string)` with no radix argument; `none` is `NaN`. The result is the Number
value for the mathematical value of the digits, with the sign applied. -/
def parseInt (string : String) : Option Int :=
  let s := string.toList.dropWhile isJsWhiteSpace
  let (sign, s) : Int × List Char :=
    match s with
    | '-' :: rest => (-1, rest)
    | '+' :: rest => (1, rest)
    | _ => (1, s)
  let (radix, s) : Nat × List Char :=
    match s with
    | '0' :: 'x' :: rest => (16, rest)
    | '0' :: 'X' :: rest => (16, rest)
    | _ => (10, s)
  let z := takeDigits radix s
  if z.isEmpty then none
  else some (sign * ((toNumber (z.foldl (fun acc d => acc * radix + d) 0) : Nat) : Int))

/-- `String.prototype.split` with a one-character separator, on the characters. -/
def splitChars (sep : Char) : List Char → List (List Char)
  | [] => [[]]
  | c :: cs =>
    if c = sep then [] :: splitChars sep cs
    else
      match splitChars sep cs with
      | [] => [[c]]
      | part :: parts => (c :: part) :: parts

/-- `rangeStr.split('-')`. -/
def split (s : String) (sep : Char) : List String :=
  (splitChars sep s.toList).map String.mk

/-- Record returned by `parseRange`; `none` is `NaN`. -/
structure Range where
  min : Option Int
  max : Option Int
deriving DecidableEq, Repr

/-- `parseInt(parts[k])`; an index past the end reads `undefined`, which parses to `NaN`. -/
def parseIntAt (parts : List String) (k : Nat) : Option Int :=
  match parts.get? k with
  | some part => parseInt part
  | none => none

/-- `CombatCalculator.parseRange`. -/
def parseRange (rangeStr : String) : Range :=
  if includes rangeStr "-" then
    let parts := split rangeStr '-'
    { min := parseIntAt parts 0, max := parseIntAt parts 1 }
  else
    let val := parseInt rangeStr
    { min := val, max := val }

/-- `a >= b` where `b` may be `NaN`. -/
def geNum (a : Int) (b : Option Int) : Bool :=
  match b with
  | some v => decide (a ≥ v)
  | none => false

/-- `a <= b` where `b` may be `NaN`. -/
def leNum (a : Int) (b : Option Int) : Bool :=
  match b with
  | some v => decide (a ≤ v)
  | none => false

/-- `CombatCalculator.canCounter`. Reading `attackerWeapon.system` throws when the attacker
weapon is missing. -/
def canCounter (host : Host) (attackerToken defenderToken : Token)
    (attackerWeapon : Option Item) : Except JsError Bool :=
  -- Get defender's equipped weapon
  match defenderToken.actor.items.find? isEquippedWeapon with
  | none => pure false
  | some defenderWeapon =>
    -- Check if defender weapon is broken
    if defenderWeapon.system.broken then pure false
    else
      -- Calculate real distance between tokens
      let attackerPos := host.getOffset attackerToken.document.x attackerToken.document.y
      let defenderPos := host.getOffset defenderToken.document.x defenderToken.document.y
      let distance : Int :=
        |attackerPos.i - defenderPos.i| + |attackerPos.j - defenderPos.j|
      -- Parse ranges (e.g., "1", "1-2", "2-3")
      match attackerWeapon with
      | none => throw JsError.typeError
      | some attackerWeapon =>
        let _attackerRange := parseRange attackerWeapon.system.range
        let defenderRange := parseRange defenderWeapon.system.range
        -- Check if defender's range covers the distance
        pure (geNum distance defenderRange.min && leNum distance defenderRange.max)

/-! ## Sequence builder -/

/-- An entry of the combat sequence. -/
structure CombatAction where
  actor : Actor
  target : Actor
  weapon : Option Item
  type : String
deriving DecidableEq, Repr

/-- `CombatCalculator._buildCombatSequence`. -/
def _buildCombatSequence (host : Host) (attacker defender : Actor)
    (attackerToken defenderToken : Token) : Except JsError (List CombatAction) := do
  let attackerWeapon := attacker.items.find? isEquippedWeapon
  let defenderWeapon := defender.items.find? isEquippedWeapon
  let attackerSkills := checkCombatSkills host attacker
  let defenderSkills := checkCombatSkills host defender
  -- Verificar si el defensor puede contraatacar
  let canCounterResult ← canCounter host attackerToken defenderToken attackerWeapon
  let defenderCanCounter := canCounterResult && defenderWeapon.isSome
  -- Prevención de contraataque (ej: Windsweep)
  let defenderCanCounter :=
    if attackerSkills.preventsCounterattack then false else defenderCanCounter
  -- Verificar si pueden hacer follow-up (double attack)
  let attackerCanDouble := attackerSkills.guaranteedFollowup || canDouble attacker defender
  -- REGLA BASE: Defensor NO hace double al contraatacar
  -- EXCEPCIÓN: Quick Riposte permite al defensor hacer follow-up
  let defenderCanDouble := defenderSkills.hasQuickRiposte && canDouble defender attacker
  let sequence : List CombatAction := []
  -- Vantage: Defender ataca primero
  let defenderAttacksFirst := defenderCanCounter && defenderSkills.hasVantage
  if defenderAttacksFirst then
    -- Contraataque adelantado (Vantage)
    let sequence := sequence ++ [⟨defender, attacker, defenderWeapon, "counter"⟩]
    -- Primer ataque del iniciador
    let sequence := sequence ++ [⟨attacker, defender, attackerWeapon, "attack"⟩]
    -- Brave Weapon: Segundo ataque inmediato
    let sequence := if attackerSkills.hasBraveWeapon
      then sequence ++ [⟨attacker, defender, attackerWeapon, "brave"⟩] else sequence
    -- Follow-up del defensor (solo con Quick Riposte)
    let sequence := if defenderCanDouble
      then sequence ++ [⟨defender, attacker, defenderWeapon, "double"⟩] else sequence
    -- Follow-up del atacante
    let sequence := if attackerCanDouble
      then sequence ++ [⟨attacker, defender, attackerWeapon, "double"⟩] else sequence
    return sequence
  else if attackerSkills.hasDesperation && attackerCanDouble then
    -- Desperation: Todos los ataques del iniciador van seguidos
    let sequence := sequence ++ [⟨attacker, defender, attackerWeapon, "attack"⟩]
    let sequence := if attackerSkills.hasBraveWeapon
      then sequence ++ [⟨attacker, defender, attackerWeapon, "brave"⟩] else sequence
    let sequence := sequence ++ [⟨attacker, defender, attackerWeapon, "double"⟩]
    -- Contraataques después
    let sequence :=
      if defenderCanCounter then
        let sequence := sequence ++ [⟨defender, attacker, defenderWeapon, "counter"⟩]
        let sequence := if defenderSkills.hasBraveWeapon
          then sequence ++ [⟨defender, attacker, defenderWeapon, "brave"⟩] else sequence
        let sequence := if defenderCanDouble
          then sequence ++ [⟨defender, attacker, defenderWeapon, "double"⟩] else sequence
        sequence
      else sequence
    return sequence
  else
    -- Secuencia Normal
    -- Primer ataque del iniciador
    let sequence := sequence ++ [⟨attacker, defender, attackerWeapon, "attack"⟩]
    -- Brave Weapon: Ataque inmediato
    let sequence := if attackerSkills.hasBraveWeapon
      then sequence ++ [⟨attacker, defender, attackerWeapon, "brave"⟩] else sequence
    -- Contraataque
    let sequence :=
      if defenderCanCounter then
        let sequence := sequence ++ [⟨defender, attacker, defenderWeapon, "counter"⟩]
        -- Brave Weapon del defensor
        let sequence := if defenderSkills.hasBraveWeapon
          then sequence ++ [⟨defender, attacker, defenderWeapon, "brave"⟩] else sequence
        sequence
      else sequence
    -- Follow-up del atacante
    let sequence := if attackerCanDouble && !defenderSkills.preventsFollowup
      then sequence ++ [⟨attacker, defender, attackerWeapon, "double"⟩] else sequence
    -- Follow-up del defensor (solo con Quick Riposte)
    let sequence := if defenderCanDouble && !attackerSkills.preventsFollowup
      then sequence ++ [⟨defender, attacker, defenderWeapon, "double"⟩] else sequence
    return sequence

/-- Value of the local `defenderCanCounter` of `_buildCombatSequence` once `canCounter` has
returned `cc`: the defender has an equipped weapon and the attacker does not prevent the
counterattack. -/
def defenderCanCounter (host : Host) (attacker defender : Actor) (cc : Bool) : Bool :=
  if (checkCombatSkills host attacker).preventsCounterattack then false
  else cc && (defender.items.find? isEquippedWeapon).isSome

/-- Value of the local `attackerCanDouble` of `_buildCombatSequence`. -/
def attackerCanDouble (host : Host) (attacker defender : Actor) : Bool :=
  (checkCombatSkills host attacker).guaranteedFollowup || canDouble attacker defender

/-- Value of the local `defenderCanDouble` of `_buildCombatSequence`. -/
def defenderCanDouble (host : Host) (attacker defender : Actor) : Bool :=
  (checkCombatSkills host defender).hasQuickRiposte && canDouble defender attacker

/-- The list `[a]` when `c` holds and the empty list otherwise. -/
def optionalAction (c : Bool) (a : CombatAction) : List CombatAction :=
  if c then [a] else []

/-! ## Round executor -/

/-- The outcomes of the future `1d100` rolls, in the order in which they are drawn. -/
abbrev Dice := Nat → Int

/-- Evaluate one `new Roll("1d100")`: the outcome and the remaining dice. -/
def Dice.roll (dice : Dice) : Int × Dice :=
  (dice 0, fun n => dice (n + 1))

/-- Record returned by `_executeAttack` (without the image, disposition and roll-object
fields, which are only rendered). `critRoll` is `null` when no crit roll was made. -/
structure AttackRound where
  attacker : String
  defender : String
  weapon : String
  weaponUses : Int
  weaponUsesAfter : Option Int
  weaponMaxUses : Int
  hitRoll : Int
  critRoll : Option Int
  hitChance : Int
  didHit : Bool
  isCrit : Bool
  damage : Int
deriving DecidableEq, Repr

/-- `CombatCalculator._executeAttack`, returning the round and the dice left over. Reading
`weapon.system` or `weapon.name` throws when the weapon is missing. -/
def _executeAttack (attacker defender : Actor) (weapon : Option Item) (dice : Dice) :
    Except JsError (AttackRound × Dice) := do
  let hitChance := calculateHitChance attacker defender weapon
  -- Crear Roll de Foundry para el hit check
  let (hitValue, dice) := dice.roll
  let didHit := decide (hitValue ≤ hitChance)
  let (damage, isCrit, critRoll, dice) ←
    if didHit then do
      let critChance := calculateCritChance attacker defender
      let (critValue, dice) := dice.roll
      let isCrit := decide (critValue ≤ critChance)
      match weapon with
      | none => throw JsError.typeError
      | some w => pure (calculateDamage attacker defender w isCrit, isCrit, some critValue, dice)
    else pure ((0 : Int), false, (none : Option Int), dice)
  match weapon with
  | none => throw JsError.typeError
  | some w =>
    return ({ attacker := attacker.name,
              defender := defender.name,
              weapon := w.name,
              weaponUses := w.system.uses,
              weaponUsesAfter := if w.system.uses ≠ 0 then some (w.system.uses - 1) else none,
              weaponMaxUses := w.system.usesMax,
              hitRoll := hitValue,
              critRoll := critRoll,
              hitChance := hitChance,
              didHit := didHit,
              isCrit := isCrit,
              damage := damage }, dice)

/-- A round of an interactive combat, as built by `startCombat` (without the image and
disposition fields, which are only rendered). The fields `hitRoll`, `didHit` and `isCrit`
are absent until the round is resolved. -/
structure InteractiveRound where
  attacker : String
  defender : String
  weapon : String
  hitChance : Int
  damage : Int
  critChance : Int
  defenderHPBefore : Int
  defenderHPAfter : Int
  roundType : String
  resolved : Bool
  isAttackerAttacking : Bool
  hitRoll : Option Int := none
  didHit : Option Bool := none
  isCrit : Option Bool := none
deriving DecidableEq, Repr

/-- The callback of `attacks.map` in `InteractiveCombat.startCombat`: the unresolved round
prepared for one action of the sequence. `attackerWeapon` and `defenderWeapon` are the
weapons handed to `startCombat`; `calculateDamage` throws when the chosen one is missing. -/
def startCombatRound (attacker defender : Actor) (attackerWeapon defenderWeapon : Option Item)
    (currentAttackerHP currentDefenderHP : Int) (attack : CombatAction) :
    Except JsError InteractiveRound := do
  let isAttacker := attack.actor.ref == attacker.ref
  let currentAttacker := if isAttacker then attacker else defender
  let currentDefender := if isAttacker then defender else attacker
  let currentWeapon := if isAttacker then attackerWeapon else defenderWeapon
  -- Calcular stats para este ataque
  let hit := calculateHitChance currentAttacker currentDefender currentWeapon
  let (damage, weaponName) ←
    match currentWeapon with
    | none => throw JsError.typeError
    | some w => pure (calculateDamage currentAttacker currentDefender w false, w.name)
  let crit := calculateCritChance currentAttacker currentDefender
  -- HP actual del defensor ANTES de este ataque
  let defenderHP := if isAttacker then currentDefenderHP else currentAttackerHP
  return { attacker := currentAttacker.name,
           defender := currentDefender.name,
           weapon := weaponName,
           hitChance := hit,
           damage := damage,
           critChance := crit,
           defenderHPBefore := defenderHP,
           defenderHPAfter := defenderHP,
           roundType := attack.type,
           resolved := false,
           isAttackerAttacking := isAttacker }

/-- Record returned by `InteractiveCombat._executeRound` (without the roll object). -/
structure RoundOutcome where
  hitRoll : Int
  didHit : Bool
  isCrit : Bool
  damage : Int
  defenderHPBefore : Int
  defenderHPAfter : Int
deriving DecidableEq, Repr

/-- `InteractiveCombat._executeRound`, returning the outcome and the dice left over. The
second argument of the source, `combatData`, is not read by the body. -/
def _executeRound (round : InteractiveRound) (dice : Dice) : RoundOutcome × Dice :=
  -- Tirar d100 para hit
  let (hitValue, dice) := dice.roll
  let didHit := decide (hitValue ≤ round.hitChance)
  let (isCrit, damage, dice) : Bool × Int × Dice :=
    if didHit then
      -- Verificar crítico
      let (critValue, dice) := dice.roll
      let isCrit := decide (critValue ≤ orZero (some round.critChance))
      -- Calcular daño
      (isCrit, if isCrit then round.damage * 3 else round.damage, dice)
    else (false, 0, dice)
  let defenderHPAfter := max 0 (round.defenderHPBefore - damage)
  ({ hitRoll := hitValue,
     didHit := didHit,
     isCrit := isCrit,
     damage := damage,
     defenderHPBefore := round.defenderHPBefore,
     defenderHPAfter := defenderHPAfter }, dice)

/-! ## Concrete combatants used to evaluate the definitions -/

/-- Stats with the given values of str, mag, def and res, hp 20 of 20 and 5 elsewhere. -/
def statsOf (str mag def_ res : Int) : Stats :=
  { hp := ⟨20, 20⟩, str := ⟨str, 20⟩, mag := ⟨mag, 20⟩, skl := ⟨5, 20⟩, spd := ⟨5, 20⟩,
    lck := ⟨5, 20⟩, def_ := ⟨def_, 20⟩, res := ⟨res, 20⟩, mov := ⟨5, 15⟩ }

/-- Derived stats with the given hit, avoid, crit, crit-avoid and attack speed. -/
def derivedOf (hit avoid crit critAvoid attackSpeed : Int) : Derived :=
  { hit := some hit, avoid := some avoid, crit := some crit, critAvoid := some critAvoid,
    attackSpeed := some attackSpeed, attack := some 0 }

/-- An equipped, unbroken weapon item. -/
def weaponOf (name weaponType : String) (might : Int) (range : String)
    (effective : List String) : Item :=
  { id := name, name := name, type := "weapon",
    system := { weaponType := weaponType, might := might, hit := 80, crit := 0, weight := 5,
                range := range, uses := 45, usesMax := 45, effective := some effective,
                equipped := true, broken := false, classType := "" } }

/-- A skill item with the given name. -/
def skillOf (name : String) : Item :=
  { id := name, name := name, type := "skill",
    system := { weaponType := "", might := 0, hit := 0, crit := 0, weight := 0, range := "",
                uses := 0, usesMax := 0, effective := none, equipped := false,
                broken := false, classType := "" } }

/-- A class item with the given class type. -/
def classOf (classType : String) : Item :=
  { id := classType, name := classType, type := "class",
    system := { weaponType := "", might := 0, hit := 0, crit := 0, weight := 0, range := "",
                uses := 0, usesMax := 0, effective := none, equipped := false,
                broken := false, classType := classType } }

/-- Iron sword: might 8, range 1, no effectiveness. -/
def ironSword : Item := weaponOf "Iron Sword" "sword" 8 "1" []

/-- Hammer-like sword: might 8, range 1, effective against armored classes. -/
def armorslayer : Item := weaponOf "Armorslayer" "sword" 8 "1" ["armored"]

/-- Scenario attacker: str 10, derived hit 102, wielding the iron sword. -/
def scenarioAttacker : Actor :=
  { ref := 1, id := "a", name := "Attacker", type := "character",
    system := { stats := statsOf 10 0 3 0, derived := derivedOf 102 10 5 5 5 },
    items := [ironSword] }

/-- Scenario defender: def 5, derived avoid 30, no weapon, no class. -/
def scenarioDefender : Actor :=
  { ref := 2, id := "d", name := "Defender", type := "enemy",
    system := { stats := statsOf 5 0 5 0, derived := derivedOf 90 30 0 5 5 },
    items := [] }

/-- Scenario defender of an armored class: def 5, no weapon. -/
def armoredDefender : Actor :=
  { scenarioDefender with items := [classOf "armored"] }


/-- A host with ASCII case folding and a square grid of 100 pixels per cell. -/
def sampleHost : Host :=
  { toLowerCase := fun s => String.mk (s.toList.map Char.toLower),
    getOffset := fun x y => ⟨y / 100, x / 100⟩ }

/-- Iron lance: might 7, range 1. -/
def ironLance : Item := weaponOf "Iron Lance" "lance" 7 "1" []

/-- Brave sword: might 9, range 1; the name marks it as a brave weapon. -/
def braveSword : Item := weaponOf "Brave Sword" "sword" 9 "1" []

/-- A combatant with the given attack speed and items. -/
def fighter (ref : Nat) (name : String) (attackSpeed : Int) (items : List Item) : Actor :=
  { ref := ref, id := name, name := name, type := "character",
    system := { stats := statsOf 10 0 5 0, derived := derivedOf 102 30 5 5 attackSpeed },
    items := items }

/-- A token of the given actor at the given pixel position. -/
def tokenAt (actor : Actor) (x y : Int) : Token :=
  { name := actor.name, actor := actor, document := ⟨x, y⟩ }

/-- Dice that always show the same outcome. -/
def constantDice (outcome : Int) : Dice := fun _ => outcome


/-- Brave attacker: attack speed 9, wielding the brave sword. -/
def braveAttacker : Actor := fighter 1 "Alm" 9 [braveSword]

/-- Lance defender: attack speed 5, wielding the iron lance. -/
def lanceDefender : Actor := fighter 2 "Lukas" 5 [ironLance]

/-- Attacker with Desperation: attack speed 9, wielding the iron sword. -/
def desperateAttacker : Actor := fighter 1 "Celica" 9 [skillOf "Desperation", ironSword]

/-- Defender with Vantage: attack speed 5, wielding the iron lance. -/
def vantageDefender : Actor := fighter 2 "Valbar" 5 [skillOf "Vantage", ironLance]

/-- Plain attacker: attack speed 5, wielding the iron sword. -/
def plainAttacker : Actor := fighter 1 "Gray" 5 [ironSword]

/-- Unarmed defender with Quick Riposte: attack speed 10, no weapon. -/
def unarmedRiposteDefender : Actor := fighter 2 "Tobin" 10 [skillOf "Quick Riposte"]

/-- Armed defender with Quick Riposte: attack speed 5, wielding the iron lance. -/
def armedRiposteDefender : Actor := fighter 2 "Kliff" 5 [skillOf "Quick Riposte", ironLance]

/-! ## Contract of the round executor (written from the specification) -/

/-- A round is resolved by the rolls: the hit roll is the first outcome of the dice and the
round hits iff it is at most the hit chance; a crit roll, the second outcome, is drawn only
on a hit, and the round is a crit iff it hit and the crit roll is at most the crit chance;
the damage is 0 on a miss and the formula damage for that crit flag on a hit. -/
def ResolvedByRolls (hitChance critChance : Int) (formula : Bool → Int) (dice : Dice)
    (hitRoll : Int) (didHit isCrit : Bool) (damage : Int) (rest : Dice) : Prop :=
  hitRoll = dice 0
    ∧ (didHit = true ↔ dice 0 ≤ hitChance)
    ∧ rest = (fun n => dice (n + (if didHit then 2 else 1)))
    ∧ (isCrit = true ↔ didHit = true ∧ dice 1 ≤ critChance)
    ∧ damage = (if didHit then formula isCrit else 0)

/-! ## Durability -/

/-- `EmblemItem._prepareWeaponData`: the derived `broken` flag of a weapon (the rendered
`usesPercent` is left out). -/
def _prepareWeaponData (itemData : Item) : Item :=
  if itemData.type ≠ "weapon" then itemData
  else
    { itemData with
      system := { itemData.system with
        broken := decide (itemData.system.uses ≤ 0) && decide (itemData.system.usesMax > 0) } }

/-- `item.update(change)`: the change is stored and the derived data is prepared again. -/
def Item.update (item : Item) (change : ItemSystem → ItemSystem) : Item :=
  _prepareWeaponData { item with system := change item.system }

/-- `DurabilitySystem.onWeaponBroken`: the weapon is unequipped (the notification and the
chat message are left out). -/
def onWeaponBroken (weapon : Item) : Item :=
  weapon.update (fun system => { system with equipped := false })

/-- `DurabilitySystem.consumeWeaponUse`: the returned flag and the weapon afterwards. -/
def consumeWeaponUse (weapon : Option Item) (usesConsumed : Int) : Bool × Option Item :=
  match weapon with
  | none => (false, none)
  | some weapon =>
    if weapon.type ≠ "weapon" then (false, some weapon)
    else
      let currentUses := weapon.system.uses
      let maxUses := weapon.system.usesMax
      -- Si el arma tiene usos infinitos
      if maxUses = 0 then (true, some weapon)
      else
        let newUses := max 0 (currentUses - usesConsumed)
        -- Actualizar usos del arma
        let weapon := weapon.update (fun system => { system with uses := newUses })
        -- Si el arma se rompió
        let weapon := if newUses = 0 then onWeaponBroken weapon else weapon
        (true, some weapon)

/-! ## Reference notions for counter eligibility (written from the specification) -/

/-- Manhattan distance between the grid cells of two tokens. -/
def manhattanDistance (host : Host) (attackerToken defenderToken : Token) : Int :=
  |(host.getOffset attackerToken.document.x attackerToken.document.y).i
      - (host.getOffset defenderToken.document.x defenderToken.document.y).i|
    + |(host.getOffset attackerToken.document.x attackerToken.document.y).j
      - (host.getOffset defenderToken.document.x defenderToken.document.y).j|

/-- The distance is at least the minimum and at most the maximum of the range. -/
def withinRange (distance : Int) (range : Range) : Prop :=
  ∃ lo hi, range.min = some lo ∧ range.max = some hi ∧ lo ≤ distance ∧ distance ≤ hi

/-- A skill item of the actor whose lower-cased name contains the pattern. -/
def hasSkillNamed (host : Host) (actor : Actor) (pattern : String) : Prop :=
  ∃ i ∈ actor.items, i.type = "skill" ∧ includes (host.toLowerCase i.name) pattern = true

/-- A weapon with 1 of 10 uses left. -/
def wornSword : Item :=
  { ironSword with system := { ironSword.system with uses := 1, usesMax := 10 } }

/-- A lance whose range text is malformed but starts with numbers. -/
def oddLance : Item := weaponOf "Odd Lance" "lance" 7 "1-2-3" []

/-- A lance whose range text contains no number. -/
def blankLance : Item := weaponOf "Blank Lance" "lance" 7 "abc" []

/-! ## Decimal text (reference notion for range parsing) -/

/-- The characters `cs` are a non-empty run of decimal digits whose value is `n`. -/
def IsDecimal (cs : List Char) (n : Nat) : Prop :=
  cs ≠ [] ∧ (∀ c ∈ cs, 48 ≤ c.toNat ∧ c.toNat ≤ 57)
    ∧ cs.foldl (fun acc c => acc * 10 + (c.toNat - 48)) 0 = n


/-- Defender wielding the lance with the malformed range "1-2-3". -/
def oddLanceDefender : Actor := fighter 2 "Mae" 5 [oddLance]

/-- Defender wielding the lance whose range contains no number. -/
def blankLanceDefender : Actor := fighter 2 "Boey" 5 [blankLance]

/-- Combatant whose only skill is named in Spanish. -/
def ventajaFighter : Actor := fighter 2 "Genny" 5 [skillOf "Ventaja", ironLance]


/-! ## Combat session, automatic mode -/

/-- A round as pushed to `result.rounds` by `executeCombat`: the record of `_executeAttack`
with the running HP of both sides before and after the round and the kind of action. -/
structure RecordedRound where
  round : AttackRound
  attackerHPBefore : Int
  defenderHPBefore : Int
  roundType : String
  attackerHPAfter : Int
  defenderHPAfter : Int
deriving DecidableEq, Repr

/-- The `result` object of `executeCombat` (without the token references). -/
structure CombatResult where
  rounds : List RecordedRound
  attackerHPStart : Int
  defenderHPStart : Int
  attackerHPEnd : Int
  defenderHPEnd : Int
  attackerWeaponName : String
  defenderWeaponName : Option String
  attackerUsesBefore : Int
  attackerMaxUses : Int
  defenderUsesBefore : Option Int
  defenderMaxUses : Option Int
  winner : Option String
deriving DecidableEq, Repr

/-- `actor.update({'system.stats.hp.value': value})`: `EmblemActor._preUpdate` clamps the
value to the current maximum before it is stored. -/
def Actor.updateHP (actor : Actor) (value : Int) : Actor :=
  let currentMax := actor.system.stats.hp.max
  let value := if value > currentMax then currentMax else value
  { actor with
    system := { actor.system with
      stats := { actor.system.stats with hp := { actor.system.stats.hp with value := value } } } }

/-- Store an updated embedded item in its actor; embedded items are identified by `id`. -/
def Actor.setItem (actor : Actor) (item : Item) : Actor :=
  { actor with items := actor.items.map (fun i => if i.id = item.id then item else i) }

/-- The round loop of `executeCombat`: `for (const action of sequence) { ... }`. -/
def executeCombatLoop (attacker defender : Actor) :
    List CombatAction → CombatResult → Dice → Except JsError (CombatResult × Dice)
  | [], result, dice => pure (result, dice)
  | action :: rest, result, dice => do
    let (round, dice) ← _executeAttack action.actor action.target action.weapon dice
    let attackerHPBefore := result.attackerHPEnd
    let defenderHPBefore := result.defenderHPEnd
    -- Aplicar daño al objetivo correcto
    let result :=
      if action.actor.ref == attacker.ref then
        { result with defenderHPEnd := result.defenderHPEnd - round.damage }
      else
        { result with attackerHPEnd := result.attackerHPEnd - round.damage }
    let recorded : RecordedRound :=
      { round := round,
        attackerHPBefore := attackerHPBefore,
        defenderHPBefore := defenderHPBefore,
        roundType := action.type,
        attackerHPAfter := result.attackerHPEnd,
        defenderHPAfter := result.defenderHPEnd }
    let result := { result with rounds := result.rounds ++ [recorded] }
    -- Check if someone is defeated
    if result.defenderHPEnd ≤ 0 then
      pure ({ result with defenderHPEnd := 0, winner := some attacker.name }, dice)
    else if result.attackerHPEnd ≤ 0 then
      pure ({ result with attackerHPEnd := 0, winner := some defender.name }, dice)
    else
      executeCombatLoop attacker defender rest result dice

/-- `CombatCalculator._applyCombatResults`: the two actors after the HP changes are
applied (the chat message is left out). -/
def _applyCombatResults (attacker defender : Actor) (result : CombatResult) : Actor × Actor :=
  (attacker.updateHP (max 0 result.attackerHPEnd),
   defender.updateHP (max 0 result.defenderHPEnd))

/-- The `results` part of the payload of the hook `EMBLEM.combatExecuted`. -/
structure CombatExecutedResults where
  attackerDoubled : Bool
  defenderDoubled : Bool
  defenderCountered : Bool
deriving DecidableEq, Repr

/-- The actor after `consumeWeaponUse(actor, weapon, usesConsumed)`. -/
def consumeWeaponUseOf (actor : Actor) (weapon : Option Item) (usesConsumed : Int) : Actor :=
  match (consumeWeaponUse weapon usesConsumed).2 with
  | some weapon => actor.setItem weapon
  | none => actor

/-- `DurabilitySystem.onCombatExecuted`, the handler of the hook `EMBLEM.combatExecuted`:
the two actors after the weapon uses are consumed. -/
def onCombatExecuted (attacker defender : Actor) (attackerWeapon defenderWeapon : Option Item)
    (results : CombatExecutedResults) : Actor × Actor :=
  -- Consumir uso del arma del atacante
  let attacker :=
    if attackerWeapon.isSome then
      -- Si el atacante hizo doble ataque, consume 2 usos
      let attackerUses : Int := if results.attackerDoubled then 2 else 1
      consumeWeaponUseOf attacker attackerWeapon attackerUses
    else attacker
  -- Consumir uso del arma del defensor (si contraatacó)
  let defender :=
    if defenderWeapon.isSome && results.defenderCountered then
      -- Si el defensor hizo doble ataque en el contraataque
      let defenderUses : Int := if results.defenderDoubled then 2 else 1
      consumeWeaponUseOf defender defenderWeapon defenderUses
    else defender
  (attacker, defender)

/-- What `executeCombat` returns: `{ error: ... }` or the result object. -/
inductive ExecuteCombatReturn where
  | error (message : String)
  | result (result : CombatResult)
deriving DecidableEq, Repr

/-- Outcome of a run of `executeCombat`: the returned value, the two actors afterwards and
the dice left over. -/
structure CombatRun where
  returned : ExecuteCombatReturn
  attacker : Actor
  defender : Actor
  dice : Dice

/-- `CombatCalculator.executeCombat`, with the handler that `DurabilitySystem.initialize`
registers for the hook `EMBLEM.combatExecuted`. -/
def executeCombat (host : Host) (attackerToken defenderToken : Token) (dice : Dice) :
    Except JsError CombatRun := do
  let attacker := attackerToken.actor
  let defender := defenderToken.actor
  match attacker.items.find? isEquippedWeapon with
  | none =>
    return { returned := .error "No weapon", attacker := attacker, defender := defender,
             dice := dice }
  | some attackerWeapon =>
    -- Guardar usos de armas ANTES del combate
    let defenderWeapon := defender.items.find? isEquippedWeapon
    let result : CombatResult :=
      { rounds := [],
        attackerHPStart := attacker.system.stats.hp.value,
        defenderHPStart := defender.system.stats.hp.value,
        attackerHPEnd := attacker.system.stats.hp.value,
        defenderHPEnd := defender.system.stats.hp.value,
        attackerWeaponName := attackerWeapon.name,
        defenderWeaponName := defenderWeapon.map (fun w => w.name),
        attackerUsesBefore := attackerWeapon.system.uses,
        attackerMaxUses := attackerWeapon.system.usesMax,
        defenderUsesBefore := defenderWeapon.map (fun w => w.system.uses),
        defenderMaxUses := defenderWeapon.map (fun w => w.system.usesMax),
        winner := none }
    -- Construir secuencia de combate
    let sequence ← _buildCombatSequence host attacker defender attackerToken defenderToken
    -- Ejecutar cada acción en secuencia
    let (result, dice) ← executeCombatLoop attacker defender sequence result dice
    let (attacker, defender) := _applyCombatResults attacker defender result
    -- Emitir Hook para que DurabilitySystem y otros sistemas puedan reaccionar
    let defenderWeaponForHook := defender.items.find? isEquippedWeapon
    let defenderCountered ← canCounter host { attackerToken with actor := attacker }
      { defenderToken with actor := defender } (some attackerWeapon)
    let results : CombatExecutedResults :=
      { attackerDoubled := canDouble attacker defender,
        defenderDoubled := canDouble defender attacker,
        defenderCountered := defenderCountered && defenderWeaponForHook.isSome }
    let (attacker, defender) :=
      onCombatExecuted attacker defender (some attackerWeapon) defenderWeaponForHook results
    return { returned := .result result, attacker := attacker, defender := defender,
             dice := dice }

/-- The equipped weapon of an actor. -/
def equippedWeapon (actor : Actor) : Option Item :=
  actor.items.find? isEquippedWeapon

/-- Number of recorded rounds in which the combatant with the given name acted. -/
def roundsActedBy (name : String) (rounds : List RecordedRound) : Nat :=
  (rounds.filter (fun r => r.round.attacker = name)).length

/-- A recorded round belongs to an action of the sequence: same kind, same acting side and
same target. -/
def RecordsAction (recorded : RecordedRound) (action : CombatAction) : Prop :=
  recorded.roundType = action.type ∧ recorded.round.attacker = action.actor.name
    ∧ recorded.round.defender = action.target.name

/-- Defender of the damage scenario with only 10 HP left. -/
def weakDefender : Actor :=
  { scenarioDefender with
    system := { scenarioDefender.system with
      stats := { scenarioDefender.system.stats with hp := ⟨10, 20⟩ } } }


/-- Both running HP values recorded after the round are above 0. -/
def BothStanding (recorded : RecordedRound) : Prop :=
  0 < recorded.attackerHPAfter ∧ 0 < recorded.defenderHPAfter

/-- What a run of the round loop over `sequence` from `before` to `after` guarantees, `new`
being the rounds it recorded: the rounds follow the sequence in order; unless the sequence
is empty there is a last round, every earlier round leaves both sides standing, the loop
stops early only when the last round brought a side to 0 or less, the winner is read off
the last round, and the HP values to be written come from the last round and never exceed
the values at the start. -/
def LoopOutcome (attacker defender : Actor) (sequence : List CombatAction)
    (before after : CombatResult) (new : List RecordedRound) : Prop :=
  after.rounds = before.rounds ++ new
    ∧ new.length ≤ sequence.length
    ∧ List.Forall₂ RecordsAction new (sequence.take new.length)
    ∧ ((sequence = [] ∧ new = [] ∧ after = before)
      ∨ ∃ init last, new = init ++ [last]
          ∧ (∀ r ∈ init, BothStanding r)
          ∧ (new.length < sequence.length
              → last.attackerHPAfter ≤ 0 ∨ last.defenderHPAfter ≤ 0)
          ∧ after.winner =
              (if last.defenderHPAfter ≤ 0 then some attacker.name
               else if last.attackerHPAfter ≤ 0 then some defender.name
               else before.winner)
          ∧ max 0 after.attackerHPEnd = max 0 last.attackerHPAfter
          ∧ max 0 after.defenderHPEnd = max 0 last.defenderHPAfter
          ∧ last.attackerHPAfter ≤ before.attackerHPEnd
          ∧ last.defenderHPAfter ≤ before.defenderHPEnd)


/-! ## Combat session, interactive mode -/

/-- The `attacker` and `defender` entries of the combat data (without the image and
disposition fields). -/
structure CombatantData where
  name : String
  hpStart : Int
  hpEnd : Int
  hpChange : Int
  weapon : Option String
  weaponId : Option String
  weaponUsesAfter : Option Int
  weaponMaxUses : Option Int
  weaponUsesUsed : Int
deriving DecidableEq, Repr

/-- The combat data stored in the flag `interactiveCombat` of the chat message (without the
token and scene ids, whose lookups are part of `InteractiveWorld`). -/
structure CombatData where
  attackerActorId : String
  defenderActorId : String
  attacker : CombatantData
  defender : CombatantData
  rounds : List InteractiveRound
  allResolved : Bool
deriving DecidableEq, Repr

/-- What an interactive step reads and writes: the combat data found on the chat message
(`none` when the message or its flag is missing) and the actors of the two tokens found in
the scene (`none` when the scene, the token or its actor is missing). -/
structure InteractiveWorld where
  combatData : Option CombatData
  attackerActor : Option Actor
  defenderActor : Option Actor
deriving DecidableEq, Repr

/-- The data of `InteractiveCombat.startCombat`: the sequence is built and every action
becomes an unresolved round (the chat message itself is left out). -/
def startCombat (host : Host) (attackerToken defenderToken : Token)
    (attackerWeapon defenderWeapon : Option Item) : Except JsError CombatData := do
  let attacker := attackerToken.actor
  let defender := defenderToken.actor
  -- Build combat sequence (devuelve array directo)
  let attacks ← _buildCombatSequence host attacker defender attackerToken defenderToken
  -- Preparar rounds sin resolver - mantener HP actualizado
  let currentAttackerHP := attacker.system.stats.hp.value
  let currentDefenderHP := defender.system.stats.hp.value
  let rounds ← attacks.mapM
    (startCombatRound attacker defender attackerWeapon defenderWeapon currentAttackerHP
      currentDefenderHP)
  -- Preparar datos del combate
  return {
    attackerActorId := attacker.id,
    defenderActorId := defender.id,
    attacker := {
      name := attacker.name,
      hpStart := attacker.system.stats.hp.value,
      hpEnd := attacker.system.stats.hp.value,
      hpChange := 0,
      weapon := attackerWeapon.map (fun w => w.name),
      weaponId := attackerWeapon.map (fun w => w.id),
      weaponUsesAfter := attackerWeapon.map (fun w => w.system.uses),
      weaponMaxUses := attackerWeapon.map (fun w => w.system.usesMax),
      weaponUsesUsed := 0 },
    defender := {
      name := defender.name,
      hpStart := defender.system.stats.hp.value,
      hpEnd := defender.system.stats.hp.value,
      hpChange := 0,
      weapon := defenderWeapon.map (fun w => w.name),
      weaponId := defenderWeapon.map (fun w => w.id),
      weaponUsesAfter := defenderWeapon.map (fun w => w.system.uses),
      weaponMaxUses := defenderWeapon.map (fun w => w.system.usesMax),
      weaponUsesUsed := 0 },
    rounds := rounds,
    allResolved := false }

/-- Truthiness of an id that may be missing. -/
def truthyId (id : Option String) : Bool :=
  match id with
  | some s => s != ""
  | none => false

/-- The weapon part of `_applyFinalResults` for one side: the aggregated uses are taken from
the weapon with the recorded id. -/
def applyWeaponUses (actor : Actor) (side : CombatantData) : Actor :=
  if truthyId side.weaponId && side.weaponUsesUsed != 0 then
    match actor.items.find? (fun i => some i.id == side.weaponId) with
    | some weapon =>
      let newUses := max 0 (weapon.system.uses - side.weaponUsesUsed)
      actor.setItem (weapon.update (fun system => { system with uses := newUses }))
    | none => actor
  else actor

/-- `InteractiveCombat._applyFinalResults`: the two actors afterwards. Nothing is written
when an actor cannot be found. -/
def _applyFinalResults (combatData : CombatData) (attackerActor defenderActor : Option Actor) :
    Option Actor × Option Actor :=
  match attackerActor, defenderActor with
  | some attackerActor, some defenderActor =>
    -- Actualizar HP directamente en el actor del token
    let attackerActor := attackerActor.updateHP combatData.attacker.hpEnd
    let defenderActor := defenderActor.updateHP combatData.defender.hpEnd
    -- Actualizar durabilidad de armas
    let attackerActor := applyWeaponUses attackerActor combatData.attacker
    let defenderActor := applyWeaponUses defenderActor combatData.defender
    (some attackerActor, some defenderActor)
  | a, d => (a, d)

/-- `combatData.rounds[roundIndex]`. -/
def roundAt (rounds : List InteractiveRound) (roundIndex : Int) : Option InteractiveRound :=
  if roundIndex < 0 then none else rounds.get? roundIndex.toNat

/-- `{ ...round, ...result, resolved: true }`. -/
def mergeResult (round : InteractiveRound) (result : RoundOutcome) : InteractiveRound :=
  { round with
    hitRoll := some result.hitRoll,
    didHit := some result.didHit,
    isCrit := some result.isCrit,
    damage := result.damage,
    defenderHPBefore := result.defenderHPBefore,
    defenderHPAfter := result.defenderHPAfter,
    resolved := true }

/-- `InteractiveCombat._handleRollClick`: the world and the dice after the click on the roll
button of round `roundIndex`. -/
def _handleRollClick (world : InteractiveWorld) (roundIndex : Int) (dice : Dice) :
    InteractiveWorld × Dice :=
  -- Obtener datos del combate
  match world.combatData with
  | none => (world, dice)
  | some combatData =>
    match roundAt combatData.rounds roundIndex with
    | none => (world, dice)
    | some round =>
      if round.resolved then (world, dice)
      else
        let index := roundIndex.toNat
        -- Actualizar HP del defensor ANTES del ataque con rounds previos
        let defenderHPBefore := round.defenderHPBefore
        -- Ejecutar la tirada
        let (result, dice) := _executeRound round dice
        let result := { result with defenderHPBefore := defenderHPBefore }
        -- Actualizar los datos del round
        let rounds := combatData.rounds.set index (mergeResult round result)
        -- Actualizar HP en rounds siguientes
        let rounds := rounds.take (index + 1) ++ (rounds.drop (index + 1)).map
          (fun nextRound =>
            -- Si el siguiente round ataca al mismo defensor
            if nextRound.defender = round.defender then
              { nextRound with defenderHPBefore := result.defenderHPAfter }
            else nextRound)
        let combatData := { combatData with rounds := rounds }
        -- Actualizar HP final en los datos del combatiente
        let attackerActs := round.attacker = combatData.attacker.name
        let hpChange := result.defenderHPBefore - result.defenderHPAfter
        let combatData :=
          if attackerActs then
            { combatData with
              defender := { combatData.defender with
                hpEnd := result.defenderHPAfter,
                hpChange := combatData.defender.hpChange - hpChange } }
          else
            { combatData with
              attacker := { combatData.attacker with
                hpEnd := result.defenderHPAfter,
                hpChange := combatData.attacker.hpChange - hpChange } }
        -- Incrementar usos de arma gastados
        let combatData :=
          if attackerActs then
            if truthyId combatData.attacker.weaponId then
              { combatData with
                attacker := { combatData.attacker with
                  weaponUsesUsed := combatData.attacker.weaponUsesUsed + 1 } }
            else combatData
          else
            if truthyId combatData.defender.weaponId then
              { combatData with
                defender := { combatData.defender with
                  weaponUsesUsed := combatData.defender.weaponUsesUsed + 1 } }
            else combatData
        -- Verificar si todos los rounds están resueltos
        let combatData :=
          { combatData with allResolved := combatData.rounds.all (fun r => r.resolved) }
        -- Si todo está resuelto, aplicar cambios a los actores
        let (attackerActor, defenderActor) :=
          if combatData.allResolved then
            _applyFinalResults combatData world.attackerActor world.defenderActor
          else (world.attackerActor, world.defenderActor)
        -- Actualizar el mensaje
        ({ combatData := some combatData, attackerActor := attackerActor,
           defenderActor := defenderActor }, dice)

/-- Initiator named "Bandit": attack speed 5, wielding the iron sword. -/
def banditAttacker : Actor := fighter 1 "Bandit" 5 [ironSword]

/-- Opponent also named "Bandit": attack speed 5, wielding the iron lance. -/
def banditDefender : Actor := fighter 2 "Bandit" 5 [ironLance]

/-- Attacker fast enough to double: attack speed 9, wielding the iron sword. -/
def swiftAttacker : Actor := fighter 1 "Faye" 9 [ironSword]

/-- Lance defender with only 10 HP left. -/
def weakLanceDefender : Actor :=
  { lanceDefender with
    system := { lanceDefender.system with
      stats := { lanceDefender.system.stats with hp := ⟨10, 20⟩ } } }


/-- A resolved round of a hand-written session. -/
def resolvedSampleRound : InteractiveRound :=
  { attacker := "Gray", defender := "Kliff", weapon := "Iron Sword", hitChance := 57,
    damage := 12, critChance := 0, defenderHPBefore := 20, defenderHPAfter := 8,
    roundType := "attack", resolved := true, isAttackerAttacking := true,
    hitRoll := some 1, didHit := some true, isCrit := some false }

/-- A session whose only round is already resolved. -/
def resolvedSampleSession : CombatData :=
  { attackerActorId := "Gray", defenderActorId := "Kliff",
    attacker := { name := "Gray", hpStart := 20, hpEnd := 20, hpChange := 0,
                  weapon := some "Iron Sword", weaponId := some "Iron Sword",
                  weaponUsesAfter := some 45, weaponMaxUses := some 45, weaponUsesUsed := 1 },
    defender := { name := "Kliff", hpStart := 20, hpEnd := 8, hpChange := -12,
                  weapon := none, weaponId := none, weaponUsesAfter := none,
                  weaponMaxUses := none, weaponUsesUsed := 0 },
    rounds := [resolvedSampleRound],
    allResolved := true }


/-! ## Derived statistics -/

/-- `EmblemActor._calculateDerivedStats`, called on `this.system`: the system data with the
derived block filled in. The equipped weapon is `this._getEquippedWeapon()`. Divisions by 2
are exact rational divisions, as in the source, and `Math.floor` is the floor. -/
def _calculateDerivedStats (actor : Actor) : ActorSystem :=
  let systemData := actor.system
  -- Get equipped weapon
  let weapon := actor.items.find? isEquippedWeapon
  let weaponHit : Int := match weapon with
    | some weapon => weapon.system.hit
    | none => 0
  let weaponCrit : Int := match weapon with
    | some weapon => weapon.system.crit
    | none => 0
  -- Calculate Hit Rate: Skl * 2 + Lck / 2 + Weapon Hit
  let hit : Int := ⌊(systemData.stats.skl.value : ℚ) * 2
    + (systemData.stats.lck.value : ℚ) / 2 + (weaponHit : ℚ)⌋
  -- Calculate Avoid: Spd * 2 + Lck
  let avoid : Int := ⌊(systemData.stats.spd.value : ℚ) * 2 + (systemData.stats.lck.value : ℚ)⌋
  -- Calculate Crit Rate: Skl / 2 + Weapon Crit
  let crit : Int := ⌊(systemData.stats.skl.value : ℚ) / 2 + (weaponCrit : ℚ)⌋
  -- Calculate Crit Avoid: Lck
  let critAvoid := systemData.stats.lck.value
  -- Calculate Attack Speed: Spd - max(0, Weapon Weight - Str/Mag)
  let attackSpeed :=
    match weapon with
    | some weapon =>
      let effectiveStat :=
        if weapon.system.weaponType = "tome" ∨ weapon.system.weaponType = "staff"
        then systemData.stats.mag.value else systemData.stats.str.value
      let weightPenalty := max 0 (weapon.system.weight - effectiveStat)
      systemData.stats.spd.value - weightPenalty
    | none => systemData.stats.spd.value
  -- Calculate Attack Power
  let attack :=
    match weapon with
    | some weapon =>
      let baseStat :=
        if weapon.system.weaponType = "tome" ∨ weapon.system.weaponType = "staff"
        then systemData.stats.mag.value else systemData.stats.str.value
      baseStat + weapon.system.might
    | none => 0
  { systemData with
    derived := { hit := some hit, avoid := some avoid, crit := some crit,
                 critAvoid := some critAvoid, attackSpeed := some attackSpeed,
                 attack := some attack } }

/-- `EmblemActor.prepareDerivedData`: characters, enemies, NPCs and bosses get their derived
block recomputed (`_prepareCharacterData`, `_prepareEnemyData`); other types are left alone. -/
def prepareDerivedData (actor : Actor) : Actor :=
  if actor.type = "character" ∨ actor.type ∈ ["enemy", "npc", "boss"] then
    { actor with system := _calculateDerivedStats actor }
  else actor

/-- Mag for a tome or a staff, str otherwise. -/
def effectiveStat (actor : Actor) (weapon : Item) : Int :=
  if weapon.system.weaponType = "tome" ∨ weapon.system.weaponType = "staff"
  then actor.system.stats.mag.value else actor.system.stats.str.value

/-! ## Combat preview -/

/-- The `attacker` part of a combat preview. -/
structure PreviewAttacker where
  name : String
  weapon : String
  hp : Int
  damage : Int
  hit : Int
  crit : Int
  canDouble : Bool
deriving DecidableEq, Repr

/-- The `defender` part of a combat preview; the counter statistics are present only when
the defender can counter. -/
structure PreviewDefender where
  name : String
  weapon : String
  hp : Int
  canCounter : Bool
  damage : Option Int
  hit : Option Int
  crit : Option Int
  canDouble : Option Bool
deriving DecidableEq, Repr

/-- A combat preview. -/
structure CombatPreview where
  attacker : PreviewAttacker
  defender : PreviewDefender
  weaponTriangle : Option Int
deriving DecidableEq, Repr

/-- What `generateCombatPreview` returns: `{ error: ... }` or the preview. -/
inductive PreviewReturn where
  | error (message : String)
  | preview (preview : CombatPreview)
deriving DecidableEq, Repr

/-- `CombatCalculator.generateCombatPreview`. -/
def generateCombatPreview (host : Host) (attackerToken defenderToken : Token) :
    Except JsError PreviewReturn := do
  let attacker := attackerToken.actor
  let defender := defenderToken.actor
  let defenderWeapon := defender.items.find? isEquippedWeapon
  match attacker.items.find? isEquippedWeapon with
  | none => return .error "Attacker has no weapon equipped"
  | some attackerWeapon =>
    let canCounterResult ← canCounter host attackerToken defenderToken (some attackerWeapon)
    let previewAttacker : PreviewAttacker :=
      { name := attacker.name,
        weapon := attackerWeapon.name,
        hp := attacker.system.stats.hp.value,
        damage := calculateDamage attacker defender attackerWeapon false,
        hit := calculateHitChance attacker defender (some attackerWeapon),
        crit := calculateCritChance attacker defender,
        canDouble := canDouble attacker defender }
    let previewDefender : PreviewDefender :=
      { name := defender.name,
        weapon := match defenderWeapon with
          | some w => w.name
          | none => "None",
        hp := defender.system.stats.hp.value,
        canCounter := canCounterResult,
        damage := none, hit := none, crit := none, canDouble := none }
    -- Calculate defender counter stats if they can counter
    let previewDefender :=
      match canCounterResult, defenderWeapon with
      | true, some defenderWeapon =>
        { previewDefender with
          damage := some (calculateDamage defender attacker defenderWeapon false),
          hit := some (calculateHitChance defender attacker (some defenderWeapon)),
          crit := some (calculateCritChance defender attacker),
          canDouble := some (canDouble defender attacker) }
      | _, _ => previewDefender
    -- Check weapon triangle
    let weaponTriangle := defenderWeapon.map (fun defenderWeapon =>
      (getWeaponTriangleAdvantage attackerWeapon.system.weaponType
        defenderWeapon.system.weaponType).advantage)
    return .preview { attacker := previewAttacker, defender := previewDefender,
                      weaponTriangle := weaponTriangle }

/-- The values that the weapon schema allows for `weaponType`. -/
def weaponTypeChoices : List String :=
  ["sword", "lance", "axe", "bow", "tome", "staff", "dragonstone", "beast"]

/-- The item with its magic type replaced. -/
def Item.withMagicType (item : Item) (magicType : String) : Item :=
  { item with system := { item.system with magicType := magicType } }

/-- The actor with the magic type of every owned item replaced as `magicTypeOf` says. -/
def Actor.withMagicTypes (actor : Actor) (magicTypeOf : Item → String) : Actor :=
  { actor with items := actor.items.map (fun i => i.withMagicType (magicTypeOf i)) }

/-- Actor of scenario 1 before its data is prepared: skl 10, lck 4, weapon hit 80. -/
def scenarioOneActor : Actor :=
  { ref := 1, id := "s1", name := "Scenario", type := "character",
    system := { stats := { statsOf 10 0 3 0 with skl := ⟨10, 20⟩, lck := ⟨4, 20⟩ },
                derived := ⟨none, none, none, none, none, none⟩ },
    items := [ironSword] }

/-- A weapon with the highest crit the schema allows. -/
def killingEdge : Item :=
  { ironSword with
    id := "Killing Edge", name := "Killing Edge",
    system := { ironSword.system with crit := 50 } }

/-- A character with skl 120 of 200, lck 0, wielding the killing edge, after its data is
prepared. -/
def sharpshooter : Actor :=
  prepareDerivedData
    { ref := 1, id := "sh", name := "Sharpshooter", type := "character",
      system := { stats := { statsOf 10 0 3 0 with skl := ⟨120, 200⟩, lck := ⟨0, 20⟩ },
                  derived := ⟨none, none, none, none, none, none⟩ },
      items := [killingEdge] }

/-- An attacker without any weapon. -/
def unarmedAttacker : Actor := fighter 1 "Silque" 5 []


/-! ## Interactive sessions resolved in order -/

/-- The uses of the item with the given id: `actor.items.get(id)?.system.uses`. -/
def usesOfItem (actor : Actor) (id : Option String) : Option Int :=
  (actor.items.find? (fun i => some i.id == id)).map (fun i => i.system.uses)

/-- Clicks on the roll buttons of the rounds 0, 1, ..., count - 1, in this order. -/
def resolveInOrder (world : InteractiveWorld) (dice : Dice) : Nat → InteractiveWorld × Dice
  | 0 => (world, dice)
  | count + 1 =>
    let (world, dice) := resolveInOrder world dice count
    _handleRollClick world (count : Int) dice

/-- Sum of the damage of the rounds that target the combatant with the given name. -/
def damageTaken (name : String) (rounds : List InteractiveRound) : Int :=
  ((rounds.filter (fun r => r.defender = name)).map (fun r => r.damage)).sum

/-- Number of the rounds in which the combatant with the given name acts. -/
def roundsActed (name : String) (rounds : List InteractiveRound) : Int :=
  ((rounds.filter (fun r => r.attacker = name)).length : Int)

/-- The world in which a session between the actors of two tokens has just been started. -/
def worldOf (session : CombatData) (attackerToken defenderToken : Token) : InteractiveWorld :=
  { combatData := some session, attackerActor := some attackerToken.actor,
    defenderActor := some defenderToken.actor }


/-- Invariant of a session between the combatants named `A` (initiator, `hpA` HP at the
start) and `D` (opponent, `hpD` HP at the start) whose rounds are resolved in order: `done`
are the resolved rounds and `todo` the open ones. Every round opposes the two combatants and
its acting side has a recorded weapon id; an open round carries the running HP of its
target; the running HP of a side is its starting HP minus the damage of the resolved rounds
that target it, floored at 0; the use counter of a side counts its resolved rounds. -/
structure SessionInv (A D : String) (hpA hpD : Int) (done todo : List InteractiveRound)
    (data : CombatData) : Prop where
  rounds_eq : data.rounds = done ++ todo
  name_eq : data.attacker.name = A
  sides : ∀ r ∈ done ++ todo,
    (r.attacker = A ∧ r.defender = D ∧ truthyId data.attacker.weaponId = true) ∨
    (r.attacker = D ∧ r.defender = A ∧ truthyId data.defender.weaponId = true)
  done_resolved : ∀ r ∈ done, r.resolved = true ∧ 0 ≤ r.damage
  todo_open : ∀ r ∈ todo, r.resolved = false ∧ 0 ≤ r.damage ∧
    r.defenderHPBefore = if r.defender = D then data.defender.hpEnd else data.attacker.hpEnd
  hpA_eq : data.attacker.hpEnd = max 0 (hpA - damageTaken A done)
  hpD_eq : data.defender.hpEnd = max 0 (hpD - damageTaken D done)
  usesA : data.attacker.weaponUsesUsed = roundsActed A done
  usesD : data.defender.weaponUsesUsed = roundsActed D done


/-- Who acts against whom, round by round. -/
def actingSides (rounds : List InteractiveRound) : List (String × String) :=
  rounds.map (fun r => (r.attacker, r.defender))

/-- The session that `startCombat` prepares for Gray, wielding the iron sword, against
Lukas, who wields the iron lance and has 10 HP left. -/
def duelSession : CombatData :=
  { attackerActorId := "Gray", defenderActorId := "Lukas",
    attacker := { name := "Gray", hpStart := 20, hpEnd := 20, hpChange := 0,
                  weapon := some "Iron Sword", weaponId := some "Iron Sword",
                  weaponUsesAfter := some 45, weaponMaxUses := some 45, weaponUsesUsed := 0 },
    defender := { name := "Lukas", hpStart := 10, hpEnd := 10, hpChange := 0,
                  weapon := some "Iron Lance", weaponId := some "Iron Lance",
                  weaponUsesAfter := some 45, weaponMaxUses := some 45, weaponUsesUsed := 0 },
    rounds :=
      [{ attacker := "Gray", defender := "Lukas", weapon := "Iron Sword", hitChance := 57,
         damage := 12, critChance := 0, defenderHPBefore := 10, defenderHPAfter := 10,
         roundType := "attack", resolved := false, isAttackerAttacking := true },
       { attacker := "Lukas", defender := "Gray", weapon := "Iron Lance", hitChance := 87,
         damage := 13, critChance := 0, defenderHPBefore := 20, defenderHPAfter := 20,
         roundType := "counter", resolved := false, isAttackerAttacking := false }],
    allResolved := false }

end Emblem

namespace Emblem

/-! ## Weapon triangle -/

theorem not_known {k : String} (h : k ∉ knownTypes) :
    k ≠ "sword" ∧ k ≠ "lance" ∧ k ≠ "axe" ∧ k ≠ "light" ∧ k ≠ "dark" ∧ k ≠ "anima"
      ∧ k ≠ "fire" ∧ k ≠ "thunder" ∧ k ≠ "wind" := by
  simpa [knownTypes, not_or] using h

theorem tableGet_beats_unknown (own : List (String × TriangleEntry)) {k : String}
    (h : own.lookup k = none) :
    (tableGet own k).beats = none ∧ (tableGet own k).losesTo = none := by
  simp only [tableGet, h]
  split_ifs <;> exact ⟨rfl, rfl⟩

theorem lookup_unknown {k : String} (h : k ∉ knownTypes) :
    physicalTriangle.lookup k = none ∧ magicTriangle.lookup k = none
      ∧ animaTriangle.lookup k = none := by
  obtain ⟨h1, h2, h3, h4, h5, h6, h7, h8, h9⟩ := not_known h
  have e1 : (k == "sword") = false := beq_eq_false_iff_ne.2 h1
  have e2 : (k == "lance") = false := beq_eq_false_iff_ne.2 h2
  have e3 : (k == "axe") = false := beq_eq_false_iff_ne.2 h3
  have e4 : (k == "light") = false := beq_eq_false_iff_ne.2 h4
  have e5 : (k == "dark") = false := beq_eq_false_iff_ne.2 h5
  have e6 : (k == "anima") = false := beq_eq_false_iff_ne.2 h6
  have e7 : (k == "fire") = false := beq_eq_false_iff_ne.2 h7
  have e8 : (k == "thunder") = false := beq_eq_false_iff_ne.2 h8
  have e9 : (k == "wind") = false := beq_eq_false_iff_ne.2 h9
  simp only [physicalTriangle, magicTriangle, animaTriangle, List.lookup, e1, e2, e3, e4, e5,
    e6, e7, e8, e9, and_self]

theorem triangle_unknown_left {a : String} (b : String) (h : a ∉ knownTypes) :
    getWeaponTriangleAdvantage a b = ⟨0, 0, 0⟩ := by
  obtain ⟨h1, h2, h3, h4, h5, h6, h7, h8, h9⟩ := not_known h
  obtain ⟨l1, l2, l3⟩ := lookup_unknown h
  obtain ⟨p1, p2⟩ := tableGet_beats_unknown physicalTriangle l1
  obtain ⟨m1, m2⟩ := tableGet_beats_unknown magicTriangle l2
  unfold getWeaponTriangleAdvantage
  simp [*]

theorem tableGet_fields_known (a b : String) :
    ((tableGet physicalTriangle a).beats = some b → b ∈ knownTypes)
      ∧ ((tableGet physicalTriangle a).losesTo = some b → b ∈ knownTypes)
      ∧ ((tableGet magicTriangle a).beats = some b → b ∈ knownTypes)
      ∧ ((tableGet magicTriangle a).losesTo = some b → b ∈ knownTypes) := by
  by_cases ha : a ∈ knownTypes
  · simp only [knownTypes, List.mem_cons, List.mem_singleton, List.not_mem_nil, or_false] at ha
    have key : ∀ (v : TableValue) (l : List String),
        (∀ x, v.beats = some x → x ∈ l) → v.beats = some b → b ∈ l := fun v l h => h b
    have key2 : ∀ (v : TableValue) (l : List String),
        (∀ x, v.losesTo = some x → x ∈ l) → v.losesTo = some b → b ∈ l := fun v l h => h b
    rcases ha with rfl | rfl | rfl | rfl | rfl | rfl | rfl | rfl | rfl <;>
      refine ⟨key _ _ ?_, key2 _ _ ?_, key _ _ ?_, key2 _ _ ?_⟩ <;> decide
  · obtain ⟨l1, l2, _⟩ := lookup_unknown ha
    obtain ⟨p1, p2⟩ := tableGet_beats_unknown physicalTriangle l1
    obtain ⟨m1, m2⟩ := tableGet_beats_unknown magicTriangle l2
    simp [p1, p2, m1, m2]

theorem triangle_unknown_right (a : String) {b : String} (h : b ∉ knownTypes) :
    getWeaponTriangleAdvantage a b = ⟨0, 0, 0⟩ := by
  obtain ⟨h1, h2, h3, h4, h5, h6, h7, h8, h9⟩ := not_known h
  have f1 : ∀ x, ¬ (tableGet physicalTriangle x).beats = some b :=
    fun x hx => h ((tableGet_fields_known x b).1 hx)
  have f2 : ∀ x, ¬ (tableGet physicalTriangle x).losesTo = some b :=
    fun x hx => h ((tableGet_fields_known x b).2.1 hx)
  have f3 : ∀ x, ¬ (tableGet magicTriangle x).beats = some b :=
    fun x hx => h ((tableGet_fields_known x b).2.2.1 hx)
  have f4 : ∀ x, ¬ (tableGet magicTriangle x).losesTo = some b :=
    fun x hx => h ((tableGet_fields_known x b).2.2.2 hx)
  unfold getWeaponTriangleAdvantage
  simp [f1, f2, f3, f4, h6, h7, h8, h9]

theorem reference_unknown_left {a : String} (b : String) (h : a ∉ knownTypes) :
    triangleReference a b = ⟨0, 0, 0⟩ := by
  obtain ⟨h1, h2, h3, h4, h5, h6, h7, h8, h9⟩ := not_known h
  simp [triangleReference, readAsAnima, h1, h2, h3, h4, h5, h6, h7, h8, h9]

theorem reference_unknown_right (a : String) {b : String} (h : b ∉ knownTypes) :
    triangleReference a b = ⟨0, 0, 0⟩ := by
  obtain ⟨h1, h2, h3, h4, h5, h6, h7, h8, h9⟩ := not_known h
  simp [triangleReference, readAsAnima, h1, h2, h3, h4, h5, h6, h7, h8, h9]

theorem triangle_eq_reference (a b : String) :
    getWeaponTriangleAdvantage a b = triangleReference a b := by
  by_cases ha : a ∈ knownTypes
  · by_cases hb : b ∈ knownTypes
    · simp only [knownTypes, List.mem_cons, List.mem_singleton, List.not_mem_nil,
        or_false] at ha hb
      rcases ha with rfl | rfl | rfl | rfl | rfl | rfl | rfl | rfl | rfl <;>
      rcases hb with rfl | rfl | rfl | rfl | rfl | rfl | rfl | rfl | rfl <;> decide
    · rw [triangle_unknown_right a hb, reference_unknown_right a hb]
  · rw [triangle_unknown_left b ha, reference_unknown_left b ha]

theorem triangle_neg_swap (a b : String) :
    getWeaponTriangleAdvantage a b = (getWeaponTriangleAdvantage b a).neg := by
  by_cases ha : a ∈ knownTypes
  · by_cases hb : b ∈ knownTypes
    · simp only [knownTypes, List.mem_cons, List.mem_singleton, List.not_mem_nil,
        or_false] at ha hb
      rcases ha with rfl | rfl | rfl | rfl | rfl | rfl | rfl | rfl | rfl <;>
      rcases hb with rfl | rfl | rfl | rfl | rfl | rfl | rfl | rfl | rfl <;> decide
    · rw [triangle_unknown_right a hb, triangle_unknown_left a hb]; rfl
  · rw [triangle_unknown_left b ha, triangle_unknown_right b ha]; rfl

/-- C3: for every pair of type names `getWeaponTriangleAdvantage` equals the reference
table: (1, 15, 1) for the winner and (-1, -15, -1) for the loser among sword, lance and axe
and among light, dark and anima with fire, thunder and wind read as anima; (1, 10, 1) and
(-1, -10, -1) when both types are among fire, thunder and wind; (0, 0, 0) for every other
pair, including equal types, physical against magic and any unmapped name. -/
theorem getWeaponTriangleAdvantage_reference :
    (∀ a b : String, getWeaponTriangleAdvantage a b = triangleReference a b)
    ∧ getWeaponTriangleAdvantage "sword" "axe" = ⟨1, 15, 1⟩
    ∧ getWeaponTriangleAdvantage "sword" "lance" = ⟨-1, -15, -1⟩
    ∧ getWeaponTriangleAdvantage "wind" "light" = ⟨1, 15, 1⟩
    ∧ getWeaponTriangleAdvantage "thunder" "fire" = ⟨1, 10, 1⟩
    ∧ getWeaponTriangleAdvantage "thunder" "wind" = ⟨-1, -10, -1⟩
    ∧ getWeaponTriangleAdvantage "fire" "fire" = ⟨0, 0, 0⟩
    ∧ getWeaponTriangleAdvantage "sword" "dark" = ⟨0, 0, 0⟩
    ∧ getWeaponTriangleAdvantage "bow" "constructor" = ⟨0, 0, 0⟩ :=
  ⟨triangle_eq_reference, by decide, by decide, by decide, by decide, by decide, by decide,
    by decide, by decide⟩

/-- C4: for all type names `a` and `b`, `getWeaponTriangleAdvantage a b` is the negation of
`getWeaponTriangleAdvantage b a` in each of the fields advantage, hitMod and damageMod. -/
theorem getWeaponTriangleAdvantage_antisymmetric (a b : String) :
    (getWeaponTriangleAdvantage a b).advantage = -(getWeaponTriangleAdvantage b a).advantage
    ∧ (getWeaponTriangleAdvantage a b).hitMod = -(getWeaponTriangleAdvantage b a).hitMod
    ∧ (getWeaponTriangleAdvantage a b).damageMod
        = -(getWeaponTriangleAdvantage b a).damageMod := by
  rw [triangle_neg_swap a b]
  exact ⟨rfl, rfl, rfl⟩

/-! ## Formula engine -/

theorem isEffectiveAgainst_some (weapon : Item) (defender : Actor) (l : List String)
    (c : Item) (h1 : weapon.system.effective = some l)
    (h2 : defender.items.find? (fun i => i.type == "class") = some c) :
    isEffectiveAgainst weapon defender ↔ c.system.classType ∈ l := by
  constructor
  · rintro ⟨l', c', e1, e2, h⟩
    rw [h1] at e1; rw [h2] at e2
    cases e1; cases e2; exact h
  · exact fun h => ⟨l, c, h1, h2, h⟩

theorem not_isEffectiveAgainst_of_effective_none (weapon : Item) (defender : Actor)
    (h1 : weapon.system.effective = none) : ¬ isEffectiveAgainst weapon defender := by
  rintro ⟨l', c', e1, _, _⟩
  rw [h1] at e1; cases e1

theorem not_isEffectiveAgainst_of_class_none (weapon : Item) (defender : Actor)
    (h2 : defender.items.find? (fun i => i.type == "class") = none) :
    ¬ isEffectiveAgainst weapon defender := by
  rintro ⟨l', c', _, e2, _⟩
  rw [h2] at e2; cases e2

theorem calculateDamage_eq_damageReference (attacker defender : Actor) (weapon : Item)
    (isCrit : Bool) :
    calculateDamage attacker defender weapon isCrit
      = damageReference attacker defender weapon isCrit := by
  have hm : (["tome", "staff"].contains weapon.system.weaponType = true)
      ↔ (weapon.system.weaponType = "tome" ∨ weapon.system.weaponType = "staff") := by
    simp
  simp only [calculateDamage, damageReference, triangleAgainst, mathFloor, hm]
  rcases h1 : weapon.system.effective with _ | l
  · have hne := not_isEffectiveAgainst_of_effective_none weapon defender h1
    simp only [hne, if_false]
    cases defender.items.find? isEquippedWeapon <;> simp
  · rcases h2 : defender.items.find? (fun i => i.type == "class") with _ | c
    · have hne := not_isEffectiveAgainst_of_class_none weapon defender h2
      simp only [hne, if_false]
      cases defender.items.find? isEquippedWeapon <;> simp [h2]
    · have hiff := isEffectiveAgainst_some weapon defender l c h1 h2
      by_cases hc : c.system.classType ∈ l
      · have hl : l.length > 0 := List.length_pos_of_mem hc
        have hE : isEffectiveAgainst weapon defender := hiff.2 hc
        cases defender.items.find? isEquippedWeapon <;> simp [h2, hc, hl, hE]
      · have hE : ¬ isEffectiveAgainst weapon defender := fun h => hc (hiff.1 h)
        cases defender.items.find? isEquippedWeapon <;> simp [h2, hc, hE]

/-- C1: `calculateDamage` equals the reference computation for every attacker, defender,
weapon and crit flag: attack stat (mag for tome or staff, else str) plus might plus the
triangle damage modifier against the defender's equipped weapon (0 without one), tripled
when the weapon's effective list contains the defender's class type, then reduced by the
defence (res for tome or staff, else def) and floored at 0, then tripled on a crit.
Str 10, might 8 against def 5 gives 13; the same base 18 with effectiveness gives 49. -/
theorem calculateDamage_reference :
    (∀ (attacker defender : Actor) (weapon : Item) (isCrit : Bool),
      calculateDamage attacker defender weapon isCrit
        = damageReference attacker defender weapon isCrit)
    ∧ calculateDamage scenarioAttacker scenarioDefender ironSword false = 13
    ∧ calculateDamage scenarioAttacker armoredDefender armorslayer false = 49 :=
  ⟨calculateDamage_eq_damageReference, by decide, by decide⟩

theorem clamp_eq_max_min (x : Int) : max 0 (min 100 x) = clamp 0 100 x := by
  unfold clamp
  split_ifs <;> omega

/-- C2: `calculateHitChance` is `clamp(0, 100, hit + hitMod - avoid)` with the triangle hit
modifier taken against the defender's equipped weapon (0 without one), and
`calculateCritChance` is `max(0, crit - critAvoid)`; hence the hit chance lies in
`[0, 100]` and the crit chance is at least 0. Derived hit 102 against avoid 30 with no
triangle gives 72. -/
theorem calculateHitChance_critChance_reference :
    (∀ (attacker defender : Actor) (weapon : Item),
      calculateHitChance attacker defender (some weapon)
          = clamp 0 100 (orZero attacker.system.derived.hit
              + (triangleAgainst weapon.system.weaponType defender).hitMod
              - orZero defender.system.derived.avoid)
        ∧ 0 ≤ calculateHitChance attacker defender (some weapon)
        ∧ calculateHitChance attacker defender (some weapon) ≤ 100)
    ∧ (∀ (attacker defender : Actor),
      calculateCritChance attacker defender
          = max 0 (orZero attacker.system.derived.crit
              - orZero defender.system.derived.critAvoid)
        ∧ 0 ≤ calculateCritChance attacker defender)
    ∧ calculateHitChance scenarioAttacker scenarioDefender (some ironSword) = 72 := by
  refine ⟨fun attacker defender weapon => ⟨?_, ?_, ?_⟩, fun attacker defender => ⟨rfl, ?_⟩, ?_⟩
  · simp only [calculateHitChance, triangleAgainst, clamp_eq_max_min]
    cases defender.items.find? isEquippedWeapon <;> simp
  · simp only [calculateHitChance]; omega
  · simp only [calculateHitChance]; omega
  · simp only [calculateCritChance]; omega
  · decide

/-! ## Sequence builder -/

theorem buildCombatSequence_eq (host : Host) (attacker defender : Actor)
    (attackerToken defenderToken : Token) (cc : Bool)
    (hcc : canCounter host attackerToken defenderToken
      (attacker.items.find? isEquippedWeapon) = .ok cc) :
    _buildCombatSequence host attacker defender attackerToken defenderToken
      = .ok (
        let aw := attacker.items.find? isEquippedWeapon
        let dw := defender.items.find? isEquippedWeapon
        let aS := checkCombatSkills host attacker
        let dS := checkCombatSkills host defender
        let dcc := defenderCanCounter host attacker defender cc
        let acd := attackerCanDouble host attacker defender
        let dcd := defenderCanDouble host attacker defender
        if dcc && dS.hasVantage then
          [⟨defender, attacker, dw, "counter"⟩, ⟨attacker, defender, aw, "attack"⟩]
            ++ optionalAction aS.hasBraveWeapon ⟨attacker, defender, aw, "brave"⟩
            ++ optionalAction dcd ⟨defender, attacker, dw, "double"⟩
            ++ optionalAction acd ⟨attacker, defender, aw, "double"⟩
        else if aS.hasDesperation && acd then
          [⟨attacker, defender, aw, "attack"⟩]
            ++ optionalAction aS.hasBraveWeapon ⟨attacker, defender, aw, "brave"⟩
            ++ [⟨attacker, defender, aw, "double"⟩]
            ++ (if dcc then
                  [⟨defender, attacker, dw, "counter"⟩]
                    ++ optionalAction dS.hasBraveWeapon ⟨defender, attacker, dw, "brave"⟩
                    ++ optionalAction dcd ⟨defender, attacker, dw, "double"⟩
                else [])
        else
          [⟨attacker, defender, aw, "attack"⟩]
            ++ optionalAction aS.hasBraveWeapon ⟨attacker, defender, aw, "brave"⟩
            ++ (if dcc then
                  [⟨defender, attacker, dw, "counter"⟩]
                    ++ optionalAction dS.hasBraveWeapon ⟨defender, attacker, dw, "brave"⟩
                else [])
            ++ optionalAction (acd && !dS.preventsFollowup) ⟨attacker, defender, aw, "double"⟩
            ++ optionalAction (dcd && !aS.preventsFollowup)
                ⟨defender, attacker, dw, "double"⟩) := by
  unfold _buildCombatSequence defenderCanCounter attackerCanDouble defenderCanDouble
  simp only [hcc]
  generalize checkCombatSkills host attacker = aS
  generalize checkCombatSkills host defender = dS
  generalize canDouble attacker defender = x
  generalize canDouble defender attacker = y
  generalize List.find? isEquippedWeapon defender.items = dw
  generalize List.find? isEquippedWeapon attacker.items = aw
  simp only [bind, Except.bind, pure, Except.pure]
  generalize (if aS.preventsCounterattack = true then false else cc && dw.isSome) = dcc
  generalize (aS.guaranteedFollowup || x) = acd
  generalize (dS.hasQuickRiposte && y) = dcd
  generalize aS.hasBraveWeapon = ab
  generalize dS.hasBraveWeapon = db
  generalize aS.hasDesperation = ad
  generalize dS.hasVantage = dv
  generalize aS.preventsFollowup = ap
  generalize dS.preventsFollowup = dp
  cases dcc <;> cases dv <;> cases ad <;> cases acd <;> cases ab <;> cases db <;> cases dcd
    <;> cases ap <;> cases dp <;> rfl

theorem canCounter_ok_of_weapon (host : Host) (attackerToken defenderToken : Token)
    (attackerWeapon : Item) :
    ∃ cc, canCounter host attackerToken defenderToken (some attackerWeapon) = .ok cc := by
  unfold canCounter
  split
  · exact ⟨false, rfl⟩
  · split
    · exact ⟨false, rfl⟩
    · exact ⟨_, rfl⟩

/-- C5: when neither the Vantage nor the Desperation path applies, the sequence is, in
order: the attacker's attack; the attacker's brave action iff the attacker has a brave
weapon; the defender's counter iff the defender is counter-eligible, immediately followed
by the defender's brave action iff the defender has a brave weapon; the attacker's double
iff the attacker is double-eligible and the defender has no follow-up-prevention; and last
the defender's follow-up double (due when `defenderCanDouble` holds), omitted if the
attacker has follow-up-prevention. -/
theorem buildCombatSequence_normal (host : Host) (attacker defender : Actor)
    (attackerToken defenderToken : Token) (cc : Bool)
    (hcc : canCounter host attackerToken defenderToken
      (attacker.items.find? isEquippedWeapon) = .ok cc)
    (hV : (defenderCanCounter host attacker defender cc
      && (checkCombatSkills host defender).hasVantage) = false)
    (hD : ((checkCombatSkills host attacker).hasDesperation
      && attackerCanDouble host attacker defender) = false) :
    _buildCombatSequence host attacker defender attackerToken defenderToken
      = .ok (
        [⟨attacker, defender, attacker.items.find? isEquippedWeapon, "attack"⟩]
          ++ optionalAction (checkCombatSkills host attacker).hasBraveWeapon
              ⟨attacker, defender, attacker.items.find? isEquippedWeapon, "brave"⟩
          ++ (if defenderCanCounter host attacker defender cc then
                [⟨defender, attacker, defender.items.find? isEquippedWeapon, "counter"⟩]
                  ++ optionalAction (checkCombatSkills host defender).hasBraveWeapon
                      ⟨defender, attacker, defender.items.find? isEquippedWeapon, "brave"⟩
              else [])
          ++ optionalAction (attackerCanDouble host attacker defender
                && !(checkCombatSkills host defender).preventsFollowup)
              ⟨attacker, defender, attacker.items.find? isEquippedWeapon, "double"⟩
          ++ optionalAction (defenderCanDouble host attacker defender
                && !(checkCombatSkills host attacker).preventsFollowup)
              ⟨defender, attacker, defender.items.find? isEquippedWeapon, "double"⟩) := by
  rw [buildCombatSequence_eq host attacker defender attackerToken defenderToken cc hcc]
  simp only [hV, hD, Bool.false_eq_true, if_false]

theorem buildCombatSequence_normal_witness :
    _buildCombatSequence sampleHost braveAttacker lanceDefender
        (tokenAt braveAttacker 0 0) (tokenAt lanceDefender 100 0)
      = .ok [⟨braveAttacker, lanceDefender, some braveSword, "attack"⟩,
             ⟨braveAttacker, lanceDefender, some braveSword, "brave"⟩,
             ⟨lanceDefender, braveAttacker, some ironLance, "counter"⟩,
             ⟨braveAttacker, lanceDefender, some braveSword, "double"⟩] :=
  (buildCombatSequence_normal sampleHost braveAttacker lanceDefender
    (tokenAt braveAttacker 0 0) (tokenAt lanceDefender 100 0) true rfl rfl rfl).trans rfl

/-- C6: whenever the defender has the Vantage flag, can counter, and the attacker does not
prevent counterattacks, the sequence starts with the defender's counter followed by the
attacker's attack, whatever the attacker's Desperation flag and double eligibility are;
the remaining actions, when present, are in the order attacker brave, defender double,
attacker double. -/
theorem buildCombatSequence_vantage (host : Host) (attacker defender : Actor)
    (attackerToken defenderToken : Token) (dw : Item)
    (hcc : canCounter host attackerToken defenderToken
      (attacker.items.find? isEquippedWeapon) = .ok true)
    (hdw : defender.items.find? isEquippedWeapon = some dw)
    (hV : (checkCombatSkills host defender).hasVantage = true)
    (hP : (checkCombatSkills host attacker).preventsCounterattack = false) :
    _buildCombatSequence host attacker defender attackerToken defenderToken
      = .ok (
        [⟨defender, attacker, some dw, "counter"⟩,
         ⟨attacker, defender, attacker.items.find? isEquippedWeapon, "attack"⟩]
          ++ optionalAction (checkCombatSkills host attacker).hasBraveWeapon
              ⟨attacker, defender, attacker.items.find? isEquippedWeapon, "brave"⟩
          ++ optionalAction (defenderCanDouble host attacker defender)
              ⟨defender, attacker, some dw, "double"⟩
          ++ optionalAction (attackerCanDouble host attacker defender)
              ⟨attacker, defender, attacker.items.find? isEquippedWeapon, "double"⟩) := by
  rw [buildCombatSequence_eq host attacker defender attackerToken defenderToken true hcc]
  have hdcc : defenderCanCounter host attacker defender true = true := by
    simp [defenderCanCounter, hP, hdw]
  simp only [hdcc, hV, hdw, Bool.and_self, if_true]

theorem buildCombatSequence_vantage_witness :
    _buildCombatSequence sampleHost desperateAttacker vantageDefender
        (tokenAt desperateAttacker 0 0) (tokenAt vantageDefender 100 0)
      = .ok [⟨vantageDefender, desperateAttacker, some ironLance, "counter"⟩,
             ⟨desperateAttacker, vantageDefender, some ironSword, "attack"⟩,
             ⟨desperateAttacker, vantageDefender, some ironSword, "double"⟩] :=
  (buildCombatSequence_vantage sampleHost desperateAttacker vantageDefender
    (tokenAt desperateAttacker 0 0) (tokenAt vantageDefender 100 0) ironLance
    rfl rfl rfl rfl).trans rfl

/-- C7: whenever Vantage does not trigger and the attacker has Desperation and is
double-eligible, the sequence begins with the attacker's attack, the attacker's brave
action iff the attacker has a brave weapon, and the attacker's double, consecutively;
the defender's actions (counter, brave, double) all come after them and are present only
if the defender is counter-eligible. -/
theorem buildCombatSequence_desperation (host : Host) (attacker defender : Actor)
    (attackerToken defenderToken : Token) (cc : Bool)
    (hcc : canCounter host attackerToken defenderToken
      (attacker.items.find? isEquippedWeapon) = .ok cc)
    (hV : (defenderCanCounter host attacker defender cc
      && (checkCombatSkills host defender).hasVantage) = false)
    (hD : (checkCombatSkills host attacker).hasDesperation = true)
    (hA : attackerCanDouble host attacker defender = true) :
    _buildCombatSequence host attacker defender attackerToken defenderToken
      = .ok (
        ([⟨attacker, defender, attacker.items.find? isEquippedWeapon, "attack"⟩]
          ++ optionalAction (checkCombatSkills host attacker).hasBraveWeapon
              ⟨attacker, defender, attacker.items.find? isEquippedWeapon, "brave"⟩
          ++ [⟨attacker, defender, attacker.items.find? isEquippedWeapon, "double"⟩])
          ++ (if defenderCanCounter host attacker defender cc then
                [⟨defender, attacker, defender.items.find? isEquippedWeapon, "counter"⟩]
                  ++ optionalAction (checkCombatSkills host defender).hasBraveWeapon
                      ⟨defender, attacker, defender.items.find? isEquippedWeapon, "brave"⟩
                  ++ optionalAction (defenderCanDouble host attacker defender)
                      ⟨defender, attacker, defender.items.find? isEquippedWeapon, "double"⟩
              else [])) := by
  rw [buildCombatSequence_eq host attacker defender attackerToken defenderToken cc hcc]
  simp only [hV, hD, hA, Bool.and_self, Bool.false_eq_true, if_false, if_true]

theorem buildCombatSequence_desperation_witness :
    _buildCombatSequence sampleHost desperateAttacker lanceDefender
        (tokenAt desperateAttacker 0 0) (tokenAt lanceDefender 100 0)
      = .ok [⟨desperateAttacker, lanceDefender, some ironSword, "attack"⟩,
             ⟨desperateAttacker, lanceDefender, some ironSword, "double"⟩,
             ⟨lanceDefender, desperateAttacker, some ironLance, "counter"⟩] :=
  (buildCombatSequence_desperation sampleHost desperateAttacker lanceDefender
    (tokenAt desperateAttacker 0 0) (tokenAt lanceDefender 100 0) true rfl rfl rfl rfl).trans rfl

theorem executeAttack_none (attacker defender : Actor) (dice : Dice) :
    _executeAttack attacker defender none dice = .error .typeError := by
  by_cases hit : dice 0 ≤ calculateHitChance attacker defender none
  · simp only [_executeAttack, Dice.roll, hit, decide_True, if_true, bind, Except.bind,
      pure, Except.pure]
  · simp only [_executeAttack, Dice.roll, hit, decide_False, Bool.false_eq_true, if_false,
      bind, Except.bind, pure, Except.pure]
    rfl

/-- C8 (the code departs from the claim): the defender below has no equipped weapon, so
`canCounter` returns false, yet the normal branch appends the follow-up of the defender,
who has Quick Riposte and is 5 points faster; the action carries no weapon, and executing
it throws. -/
theorem buildCombatSequence_unarmed_defender_acts :
    canCounter sampleHost (tokenAt plainAttacker 0 0) (tokenAt unarmedRiposteDefender 100 0)
        (plainAttacker.items.find? isEquippedWeapon) = .ok false
    ∧ unarmedRiposteDefender.items.find? isEquippedWeapon = none
    ∧ _buildCombatSequence sampleHost plainAttacker unarmedRiposteDefender
        (tokenAt plainAttacker 0 0) (tokenAt unarmedRiposteDefender 100 0)
      = .ok [⟨plainAttacker, unarmedRiposteDefender, some ironSword, "attack"⟩,
             ⟨unarmedRiposteDefender, plainAttacker, none, "double"⟩]
    ∧ ∀ dice : Dice,
        _executeAttack unarmedRiposteDefender plainAttacker none dice = .error .typeError :=
  ⟨rfl, rfl, rfl, executeAttack_none unarmedRiposteDefender plainAttacker⟩

/-- C9 (the code departs from the claim): the defender below has Quick Riposte and is
counter-eligible, the attacker prevents nothing, and both attack speeds are 5; the
sequence is the attack and the counter only, without a defender double. -/
theorem buildCombatSequence_quickRiposte_needs_speed :
    (checkCombatSkills sampleHost armedRiposteDefender).hasQuickRiposte = true
    ∧ defenderCanCounter sampleHost plainAttacker armedRiposteDefender true = true
    ∧ canCounter sampleHost (tokenAt plainAttacker 0 0) (tokenAt armedRiposteDefender 100 0)
        (plainAttacker.items.find? isEquippedWeapon) = .ok true
    ∧ _buildCombatSequence sampleHost plainAttacker armedRiposteDefender
        (tokenAt plainAttacker 0 0) (tokenAt armedRiposteDefender 100 0)
      = .ok [⟨plainAttacker, armedRiposteDefender, some ironSword, "attack"⟩,
             ⟨armedRiposteDefender, plainAttacker, some ironLance, "counter"⟩] :=
  ⟨rfl, rfl, rfl, rfl⟩

/-! ## Round executor -/

theorem calculateDamage_crit (attacker defender : Actor) (weapon : Item) :
    calculateDamage attacker defender weapon true
      = calculateDamage attacker defender weapon false * 3 := by
  simp only [calculateDamage, mathFloor, if_true, Bool.false_eq_true, if_false]

theorem executeAttack_some (attacker defender : Actor) (weapon : Item) (dice : Dice) :
    _executeAttack attacker defender (some weapon) dice
      = .ok ({ attacker := attacker.name,
               defender := defender.name,
               weapon := weapon.name,
               weaponUses := weapon.system.uses,
               weaponUsesAfter :=
                 if weapon.system.uses ≠ 0 then some (weapon.system.uses - 1) else none,
               weaponMaxUses := weapon.system.usesMax,
               hitRoll := dice 0,
               critRoll :=
                 if dice 0 ≤ calculateHitChance attacker defender (some weapon)
                 then some (dice 1) else none,
               hitChance := calculateHitChance attacker defender (some weapon),
               didHit := decide (dice 0 ≤ calculateHitChance attacker defender (some weapon)),
               isCrit :=
                 decide (dice 0 ≤ calculateHitChance attacker defender (some weapon))
                   && decide (dice 1 ≤ calculateCritChance attacker defender),
               damage :=
                 if dice 0 ≤ calculateHitChance attacker defender (some weapon)
                 then calculateDamage attacker defender weapon
                   (decide (dice 1 ≤ calculateCritChance attacker defender))
                 else 0 },
             fun n => dice (n + (if dice 0 ≤ calculateHitChance attacker defender (some weapon)
               then 2 else 1))) := by
  by_cases hit : dice 0 ≤ calculateHitChance attacker defender (some weapon)
  · simp only [_executeAttack, Dice.roll, hit, decide_True, if_true, bind, Except.bind,
      pure, Except.pure, Bool.true_and]
  · simp only [_executeAttack, Dice.roll, hit, decide_False, Bool.false_eq_true, if_false,
      bind, Except.bind, pure, Except.pure, Bool.false_and]

theorem executeAttack_resolved (attacker defender : Actor) (weapon : Item) (dice : Dice) :
    ∃ round rest, _executeAttack attacker defender (some weapon) dice = .ok (round, rest)
      ∧ ResolvedByRolls (calculateHitChance attacker defender (some weapon))
          (calculateCritChance attacker defender) (calculateDamage attacker defender weapon)
          dice round.hitRoll round.didHit round.isCrit round.damage rest
      ∧ round.hitChance = calculateHitChance attacker defender (some weapon)
      ∧ round.critRoll = (if round.didHit then some (dice 1) else none) := by
  refine ⟨_, _, executeAttack_some attacker defender weapon dice, ?_, rfl, ?_⟩
  · by_cases hit : dice 0 ≤ calculateHitChance attacker defender (some weapon)
    · simp [ResolvedByRolls, hit]
    · simp [ResolvedByRolls, hit]
  · simp

theorem executeRound_resolved (round : InteractiveRound) (dice : Dice) (formula : Bool → Int)
    (hf : formula false = round.damage) (ht : formula true = round.damage * 3) :
    ResolvedByRolls round.hitChance round.critChance formula dice
      (_executeRound round dice).1.hitRoll (_executeRound round dice).1.didHit
      (_executeRound round dice).1.isCrit (_executeRound round dice).1.damage
      (_executeRound round dice).2 := by
  by_cases hit : dice 0 ≤ round.hitChance
  · by_cases crit : dice 1 ≤ round.critChance
    · simp [ResolvedByRolls, _executeRound, Dice.roll, orZero, hit, crit, ht]
    · simp [ResolvedByRolls, _executeRound, Dice.roll, orZero, hit, crit, hf]
  · simp [ResolvedByRolls, _executeRound, Dice.roll, orZero, hit]

theorem startCombatRound_some (initiator opponent : Actor)
    (attackerWeapon defenderWeapon : Option Item) (hpA hpD : Int) (attack : CombatAction)
    (weapon : Item)
    (hw : (if attack.actor.ref == initiator.ref then attackerWeapon else defenderWeapon)
      = some weapon) :
    startCombatRound initiator opponent attackerWeapon defenderWeapon hpA hpD attack
      = .ok
        (let isAttacker := attack.actor.ref == initiator.ref
         let currentAttacker := if isAttacker then initiator else opponent
         let currentDefender := if isAttacker then opponent else initiator
         { attacker := currentAttacker.name,
           defender := currentDefender.name,
           weapon := weapon.name,
           hitChance := calculateHitChance currentAttacker currentDefender (some weapon),
           damage := calculateDamage currentAttacker currentDefender weapon false,
           critChance := calculateCritChance currentAttacker currentDefender,
           defenderHPBefore := if isAttacker then hpD else hpA,
           defenderHPAfter := if isAttacker then hpD else hpA,
           roundType := attack.type,
           resolved := false,
           isAttackerAttacking := isAttacker }) := by
  simp only [startCombatRound, hw, bind, Except.bind, pure, Except.pure]

/-- C10: both round executors resolve an action by the rolls. For `_executeAttack` and for
`_executeRound` run on the round that `startCombat` prepares for the action: the round
hits iff the hit roll is at most the hit chance; the crit roll is drawn only on a hit;
the round is a crit iff it hit and the crit roll is at most the crit chance; the damage is
0 on a miss and the formula damage for that crit flag on a hit. With a hit roll in 1..100,
a hit chance of 0 never hits and a hit chance of 100 always hits. -/
theorem executors_resolved_by_rolls (attacker defender : Actor) (weapon : Item) (dice : Dice)
    (hroll : 1 ≤ dice 0 ∧ dice 0 ≤ 100) :
    (∃ round rest, _executeAttack attacker defender (some weapon) dice = .ok (round, rest)
      ∧ ResolvedByRolls (calculateHitChance attacker defender (some weapon))
          (calculateCritChance attacker defender) (calculateDamage attacker defender weapon)
          dice round.hitRoll round.didHit round.isCrit round.damage rest
      ∧ round.critRoll = (if round.didHit then some (dice 1) else none)
      ∧ (calculateHitChance attacker defender (some weapon) = 0 → round.didHit = false)
      ∧ (calculateHitChance attacker defender (some weapon) = 100 → round.didHit = true))
    ∧ (∀ (initiator opponent : Actor) (attackerWeapon defenderWeapon : Option Item)
        (hpA hpD : Int) (attack : CombatAction),
        (if attack.actor.ref == initiator.ref then initiator else opponent) = attacker →
        (if attack.actor.ref == initiator.ref then opponent else initiator) = defender →
        (if attack.actor.ref == initiator.ref then attackerWeapon else defenderWeapon)
          = some weapon →
        ∃ round,
          startCombatRound initiator opponent attackerWeapon defenderWeapon hpA hpD attack
            = .ok round
          ∧ ResolvedByRolls (calculateHitChance attacker defender (some weapon))
              (calculateCritChance attacker defender)
              (calculateDamage attacker defender weapon) dice
              (_executeRound round dice).1.hitRoll (_executeRound round dice).1.didHit
              (_executeRound round dice).1.isCrit (_executeRound round dice).1.damage
              (_executeRound round dice).2
          ∧ (calculateHitChance attacker defender (some weapon) = 0
              → (_executeRound round dice).1.didHit = false)
          ∧ (calculateHitChance attacker defender (some weapon) = 100
              → (_executeRound round dice).1.didHit = true)) := by
  constructor
  · obtain ⟨round, rest, h1, h2, _, h4⟩ := executeAttack_resolved attacker defender weapon dice
    refine ⟨round, rest, h1, h2, h4, ?_, ?_⟩
    · intro h0
      have := h2.2.1
      rw [h0] at this
      cases hd : round.didHit
      · rfl
      · have := this.1 hd; omega
    · intro h100
      have := h2.2.1
      rw [h100] at this
      exact this.2 hroll.2
  · intro initiator opponent attackerWeapon defenderWeapon hpA hpD attack hA hD hw
    refine ⟨_, startCombatRound_some initiator opponent attackerWeapon defenderWeapon hpA hpD
      attack weapon hw, ?_⟩
    simp only [hA, hD]
    have key := executeRound_resolved
      { attacker := attacker.name, defender := defender.name, weapon := weapon.name,
        hitChance := calculateHitChance attacker defender (some weapon),
        damage := calculateDamage attacker defender weapon false,
        critChance := calculateCritChance attacker defender,
        defenderHPBefore := if (attack.actor.ref == initiator.ref) = true then hpD else hpA,
        defenderHPAfter := if (attack.actor.ref == initiator.ref) = true then hpD else hpA,
        roundType := attack.type, resolved := false,
        isAttackerAttacking := attack.actor.ref == initiator.ref } dice
      (calculateDamage attacker defender weapon) rfl
      (calculateDamage_crit attacker defender weapon)
    have hk := key.2.1
    change _ ↔ dice 0 ≤ calculateHitChance attacker defender (some weapon) at hk
    refine ⟨key, ?_, ?_⟩
    · intro h0
      cases hd : (_executeRound _ dice).1.didHit
      · rfl
      · have := hk.1 hd
        omega
    · intro h100
      apply hk.2
      omega

theorem executors_resolved_by_rolls_witness :
    (1 ≤ constantDice 50 0 ∧ constantDice 50 0 ≤ 100)
    ∧ ∃ round rest,
        _executeAttack scenarioAttacker scenarioDefender (some ironSword) (constantDice 50)
          = .ok (round, rest)
        ∧ ResolvedByRolls 72 0 (calculateDamage scenarioAttacker scenarioDefender ironSword)
            (constantDice 50) round.hitRoll round.didHit round.isCrit round.damage rest := by
  refine ⟨by decide, ?_⟩
  obtain ⟨round, rest, h1, h2, _⟩ :=
    (executors_resolved_by_rolls scenarioAttacker scenarioDefender ironSword (constantDice 50)
      (by decide)).1
  exact ⟨round, rest, h1, h2⟩

/-! ## Double and counter eligibility -/

/-- C16: `canDouble attacker defender` is true iff the attacker's attack speed minus the
defender's is at least 4, a missing attack speed counting as 0; 10 against 5 is true and
a difference of 3 (8 against 5) is false. -/
theorem canDouble_iff :
    (∀ attacker defender : Actor,
      canDouble attacker defender = true
        ↔ orZero attacker.system.derived.attackSpeed
            - orZero defender.system.derived.attackSpeed ≥ 4)
    ∧ orZero none = 0
    ∧ canDouble (fighter 1 "A" 10 []) (fighter 2 "D" 5 []) = true
    ∧ canDouble (fighter 1 "A" 8 []) (fighter 2 "D" 5 []) = false := by
  refine ⟨fun attacker defender => ?_, rfl, by decide, by decide⟩
  simp [canDouble]

theorem geNum_leNum_iff (d : Int) (r : Range) :
    (geNum d r.min && leNum d r.max) = true ↔ withinRange d r := by
  rcases r with ⟨_ | lo, _ | hi⟩ <;> simp [geNum, leNum, withinRange]

/-- C15: `canCounter` (called with an attacker weapon) returns false when the defender has
no equipped weapon or the equipped weapon is broken, and otherwise returns true iff the
Manhattan distance between the two grid positions is at least the minimum and at most the
maximum of the defender weapon's parsed range; the result does not depend on the attacker's
weapon. -/
theorem canCounter_spec (host : Host) (attackerToken defenderToken : Token)
    (attackerWeapon : Item) :
    (∃ b, canCounter host attackerToken defenderToken (some attackerWeapon) = .ok b
      ∧ (b = true ↔ ∃ dw, defenderToken.actor.items.find? isEquippedWeapon = some dw
          ∧ dw.system.broken = false
          ∧ withinRange (manhattanDistance host attackerToken defenderToken)
              (parseRange dw.system.range)))
    ∧ ∀ other : Item,
        canCounter host attackerToken defenderToken (some other)
          = canCounter host attackerToken defenderToken (some attackerWeapon) := by
  refine ⟨?_, fun other => ?_⟩
  · unfold canCounter
    rcases hdw : List.find? isEquippedWeapon defenderToken.actor.items with _ | dw
    · exact ⟨false, rfl, by simp⟩
    · by_cases hb : dw.system.broken = true
      · refine ⟨false, by simp [hb]; rfl, by simp [hb]⟩
      · simp only [Bool.not_eq_true] at hb
        refine ⟨_, by simp only [hb, Bool.false_eq_true, if_false]; rfl, ?_⟩
        rw [geNum_leNum_iff]
        simp [hb, manhattanDistance]
  · unfold canCounter
    rcases List.find? isEquippedWeapon defenderToken.actor.items with _ | dw
    · rfl
    · by_cases hb : dw.system.broken = true <;> simp [hb]

/-! ## Durability -/

theorem consumeWeaponUse_finite (weapon : Item) (n : Int) (hw : weapon.type = "weapon")
    (hmax : weapon.system.usesMax ≠ 0) :
    consumeWeaponUse (some weapon) n
      = (true, some
          { weapon with
            system := { weapon.system with
              uses := max 0 (weapon.system.uses - n),
              equipped :=
                if max 0 (weapon.system.uses - n) = 0 then false else weapon.system.equipped,
              broken := decide (max 0 (weapon.system.uses - n) ≤ 0)
                && decide (weapon.system.usesMax > 0) } }) := by
  by_cases h0 : max 0 (weapon.system.uses - n) = 0
  · simp [consumeWeaponUse, onWeaponBroken, Item.update, _prepareWeaponData, hw, hmax, h0]
  · simp [consumeWeaponUse, onWeaponBroken, Item.update, _prepareWeaponData, hw, hmax, h0]

/-- C14: for a weapon and a consumed count `n ≥ 0`, `consumeWeaponUse` leaves a weapon
with `usesMax = 0` unchanged; otherwise it sets `uses` to `max(0, uses - n)`, which stays
within `[0, usesMax]` when it started there, and the equipped flag is set to false exactly
when the new value is 0 (it is left as it was otherwise). -/
theorem consumeWeaponUse_spec (weapon : Item) (n : Int) (hw : weapon.type = "weapon")
    (hn : 0 ≤ n) :
    (weapon.system.usesMax = 0 → consumeWeaponUse (some weapon) n = (true, some weapon))
    ∧ (weapon.system.usesMax ≠ 0 →
        ∃ after, consumeWeaponUse (some weapon) n = (true, some after)
          ∧ after.system.uses = max 0 (weapon.system.uses - n)
          ∧ after.system.usesMax = weapon.system.usesMax
          ∧ (0 ≤ weapon.system.uses ∧ weapon.system.uses ≤ weapon.system.usesMax
              → 0 ≤ after.system.uses ∧ after.system.uses ≤ after.system.usesMax)
          ∧ (after.system.uses = 0 → after.system.equipped = false)
          ∧ (after.system.uses ≠ 0 → after.system.equipped = weapon.system.equipped)) := by
  constructor
  · intro hmax
    simp [consumeWeaponUse, hw, hmax]
  · intro hmax
    refine ⟨_, consumeWeaponUse_finite weapon n hw hmax, rfl, rfl, ?_, ?_, ?_⟩
    · rintro ⟨h1, h2⟩
      simp only
      omega
    · intro h
      simp only at h
      simp [h]
    · intro h
      simp only at h
      simp [h]

theorem consumeWeaponUse_spec_witness :
    wornSword.type = "weapon" ∧ (0 : Int) ≤ 1 ∧ wornSword.system.usesMax ≠ 0
    ∧ ∃ after, consumeWeaponUse (some wornSword) 1 = (true, some after)
        ∧ after.system.uses = 0 ∧ after.system.equipped = false := by
  obtain ⟨after, h1, h2, _, _, h5, _⟩ :=
    (consumeWeaponUse_spec wornSword 1 (by decide) (by decide)).2 (by decide)
  have h0 : after.system.uses = 0 := by rw [h2]; decide
  exact ⟨by decide, by decide, by decide, after, h1, h0, h5 h0⟩

/-! ## Range parsing -/

theorem digitChar_toNat (k : Nat) (hk : k < 10) : (Nat.digitChar k).toNat = 48 + k := by
  interval_cases k <;> rfl

theorem toDigitsCore_isDecimal (fuel : Nat) :
    ∀ (n : Nat) (ds : List Char), n < fuel →
      ∃ pre, Nat.toDigitsCore 10 fuel n ds = pre ++ ds ∧ IsDecimal pre n := by
  induction fuel with
  | zero => intro n ds h; omega
  | succ fuel ih =>
    intro n ds h
    have hd : (Nat.digitChar (n % 10)).toNat = 48 + n % 10 :=
      digitChar_toNat (n % 10) (Nat.mod_lt _ (by decide))
    by_cases h0 : n / 10 = 0
    · refine ⟨[Nat.digitChar (n % 10)], by simp [Nat.toDigitsCore, h0], by simp, ?_, ?_⟩
      · intro c hc
        simp only [List.mem_singleton] at hc
        subst hc
        omega
      · simp only [List.foldl, hd]
        omega
    · obtain ⟨pre, hpre, hne, hall, hval⟩ :=
        ih (n / 10) (Nat.digitChar (n % 10) :: ds) (by omega)
      refine ⟨pre ++ [Nat.digitChar (n % 10)], ?_, by simp, ?_, ?_⟩
      · simp [Nat.toDigitsCore, h0, hpre]
      · intro c hc
        rcases List.mem_append.1 hc with hc | hc
        · exact hall c hc
        · simp only [List.mem_singleton] at hc
          subst hc
          omega
      · rw [List.foldl_append, hval]
        simp only [List.foldl, hd]
        omega

theorem repr_isDecimal (n : Nat) : IsDecimal (toString n).toList n := by
  obtain ⟨pre, hpre, h⟩ := toDigitsCore_isDecimal (n + 1) n [] (by omega)
  have : (toString n).toList = pre := by
    show (Nat.toDigits 10 n).asString.toList = pre
    simp [Nat.toDigits, hpre, List.asString]
  rw [this]
  exact h

theorem takeDigits_decimal (cs : List Char) (h : ∀ c ∈ cs, 48 ≤ c.toNat ∧ c.toNat ≤ 57) :
    takeDigits 10 cs = cs.map (fun c => c.toNat - 48) := by
  induction cs with
  | nil => rfl
  | cons c cs ih =>
    have hc := h c (List.mem_cons_self c cs)
    have hrest : ∀ c' ∈ cs, 48 ≤ c'.toNat ∧ c'.toNat ≤ 57 :=
      fun c' hc' => h c' (List.mem_cons_of_mem c hc')
    simp [takeDigits, digitValue, hc.1, hc.2, ih hrest]

theorem foldl_map_digits (cs : List Char) (acc : Nat) :
    (cs.map (fun c => c.toNat - 48)).foldl (fun acc d => acc * 10 + d) acc
      = cs.foldl (fun acc c => acc * 10 + (c.toNat - 48)) acc := by
  induction cs generalizing acc with
  | nil => rfl
  | cons c cs ih => simp [List.foldl, ih]

theorem parseInt_of_decimal (cs : List Char) (n : Nat) (h : IsDecimal cs n) :
    parseInt (String.mk cs) = some ((toNumber n : Nat) : Int) := by
  obtain ⟨hne, hall, hval⟩ := h
  cases cs with
  | nil => exact absurd rfl hne
  | cons c rest =>
    have hc := hall c (List.mem_cons_self c rest)
    have hws : isJsWhiteSpace c = false := by
      simp only [isJsWhiteSpace, List.contains_eq_any_beq, List.any_cons, List.any_nil,
        Bool.or_false, Bool.or_eq_false_iff, beq_eq_false_iff_ne, ne_eq]
      omega
    have hminus : c ≠ '-' := by rintro rfl; exact absurd hc.1 (by decide)
    have hplus : c ≠ '+' := by rintro rfl; exact absurd hc.1 (by decide)
    have hdrop : (String.mk (c :: rest)).toList.dropWhile isJsWhiteSpace = c :: rest := by
      simp [List.dropWhile, hws]
    have hx : ∀ tail, rest ≠ 'x' :: tail ∧ rest ≠ 'X' :: tail := by
      intro tail
      constructor <;> rintro rfl
      · exact absurd (hall 'x' (by simp)).2 (by decide)
      · exact absurd (hall 'X' (by simp)).2 (by decide)
    have htake := takeDigits_decimal (c :: rest) hall
    have h0x : ∀ tail, c :: rest ≠ '0' :: 'x' :: tail := by
      intro tail heq
      cases heq
      exact (hx tail).1 rfl
    have h0X : ∀ tail, c :: rest ≠ '0' :: 'X' :: tail := by
      intro tail heq
      cases heq
      exact (hx tail).2 rfl
    have hS : (match c :: rest with
        | '-' :: rest => ((-1 : Int), rest)
        | '+' :: rest => (1, rest)
        | _ => (1, c :: rest)) = (1, c :: rest) := by
      split
      · rename_i heq; cases heq; exact absurd rfl hminus
      · rename_i heq; cases heq; exact absurd rfl hplus
      · rfl
    have hR : (match c :: rest with
        | '0' :: 'x' :: rest => (16, rest)
        | '0' :: 'X' :: rest => (16, rest)
        | _ => (10, c :: rest)) = (10, c :: rest) := by
      split
      · rename_i heq; exact absurd heq (h0x _)
      · rename_i heq; exact absurd heq (h0X _)
      · rfl
    simp only [parseInt, hdrop, hS, hR, htake, List.map_cons, List.isEmpty_cons,
      Bool.false_eq_true, if_false, one_mul]
    rw [← List.map_cons (fun c => c.toNat - 48) c rest, foldl_map_digits, hval]

theorem includes_hyphen (s : String) : includes s "-" = true ↔ '-' ∈ s.toList := by
  have key : ∀ l : List Char,
      (l.tails.any (fun t => ['-'].isPrefixOf t)) = true ↔ '-' ∈ l := by
    intro l
    induction l with
    | nil => simp [List.isPrefixOf]
    | cons c l ih =>
      simp only [List.tails, List.any_cons, Bool.or_eq_true, ih, List.mem_cons]
      simp [List.isPrefixOf]
  exact key s.toList

theorem splitChars_no_sep (sep : Char) (cs : List Char) (h : sep ∉ cs) :
    splitChars sep cs = [cs] := by
  induction cs with
  | nil => rfl
  | cons c cs ih =>
    have hc : c ≠ sep := fun e => h (by simp [e])
    have hcs : sep ∉ cs := fun e => h (List.mem_cons_of_mem c e)
    simp [splitChars, hc, ih hcs]

theorem splitChars_append (sep : Char) (pre rest : List Char) (h : sep ∉ pre) :
    splitChars sep (pre ++ sep :: rest) = pre :: splitChars sep rest := by
  induction pre with
  | nil => simp [splitChars]
  | cons c pre ih =>
    have hc : c ≠ sep := fun e => h (by simp [e])
    have hpre : sep ∉ pre := fun e => h (List.mem_cons_of_mem c e)
    simp [splitChars, hc, ih hpre]

theorem hyphen_not_mem_decimal (cs : List Char) (n : Nat) (h : IsDecimal cs n) :
    '-' ∉ cs := by
  intro hmem
  exact absurd (h.2.1 '-' hmem).1 (by decide)

/-- Numbers up to 2^53 are their own Number value. -/
theorem toNumber_of_le (v : Nat) (h : v ≤ 2 ^ 53) : toNumber v = v := by
  have h2 : v ≤ 9007199254740992 := by norm_num at h; exact h
  simp only [toNumber, h2, if_true]

/-- The record `parseRange` returns on decimal texts, for all natural numbers: the bounds
are the Number values of the numbers written. -/
theorem parseRange_toNumber (n m : Nat) :
    parseRange (toString n) = ⟨some ((toNumber n : Nat) : Int), some ((toNumber n : Nat) : Int)⟩
    ∧ parseRange (toString n ++ "-" ++ toString m)
      = ⟨some ((toNumber n : Nat) : Int), some ((toNumber m : Nat) : Int)⟩ := by
  have hn := repr_isDecimal n
  have hm := repr_isDecimal m
  have hnn := hyphen_not_mem_decimal _ n hn
  have hmm := hyphen_not_mem_decimal _ m hm
  have pn : parseInt (toString n) = some ((toNumber n : Nat) : Int) :=
    parseInt_of_decimal _ n hn
  constructor
  · have hinc : includes (toString n) "-" = false := by
      rw [Bool.eq_false_iff, Ne, includes_hyphen]
      exact hnn
    simp [parseRange, hinc, pn]
  · have hlist : (toString n ++ "-" ++ toString m).toList
        = (toString n).toList ++ '-' :: (toString m).toList := by
      simp [String.toList]
    have hinc : includes (toString n ++ "-" ++ toString m) "-" = true := by
      rw [includes_hyphen, hlist]
      simp
    have hsplit : split (toString n ++ "-" ++ toString m) '-'
        = [String.mk (toString n).toList, String.mk (toString m).toList] := by
      simp only [split, hlist, splitChars_append '-' _ _ hnn,
        splitChars_no_sep '-' _ hmm, List.map_cons, List.map_nil]
    simp only [parseRange, hinc, if_true, hsplit, parseIntAt, List.get?]
    rw [parseInt_of_decimal _ n hn, parseInt_of_decimal _ m hm]

/-- The Number value for 2^53 + 1 is 2^53. -/
theorem toNumber_two_pow_53_succ : toNumber 9007199254740993 = 9007199254740992 := by
  have hlog : Nat.log2 9007199254740993 = 53 := by
    have h1 : 53 ≤ Nat.log2 9007199254740993 := (Nat.le_log2 (by norm_num)).2 (by norm_num)
    have h2 : Nat.log2 9007199254740993 < 54 := (Nat.log2_lt (by norm_num)).2 (by norm_num)
    omega
  have hgt : ¬ (9007199254740993 ≤ 9007199254740992) := by norm_num
  simp only [toNumber, hgt, if_false, hlog]
  norm_num

/-- C17 (counterexample): the claim fails for numbers above 2^53, which `parseInt` cannot
return exactly. For n = 9007199254740993 = 2^53 + 1, whose decimal text is
"9007199254740993", `parseRange` returns `{min: 9007199254740992, max: 9007199254740992}`,
not `{min: n, max: n}`; the same happens to the maximum of the text
"1-9007199254740993". -/
theorem parseRange_rounds_large :
    toString (9007199254740993 : Nat) = "9007199254740993"
    ∧ parseRange (toString (9007199254740993 : Nat))
      = ⟨some 9007199254740992, some 9007199254740992⟩
    ∧ parseRange (toString (1 : Nat) ++ "-" ++ toString (9007199254740993 : Nat))
      = ⟨some 1, some 9007199254740992⟩
    ∧ parseRange (toString (9007199254740993 : Nat))
      ≠ ⟨some ((9007199254740993 : Nat) : Int), some ((9007199254740993 : Nat) : Int)⟩ := by
  have h := parseRange_toNumber 9007199254740993 9007199254740993
  have h1 := parseRange_toNumber 1 9007199254740993
  rw [toNumber_two_pow_53_succ] at h h1
  rw [toNumber_of_le 1 (by norm_num)] at h1
  refine ⟨by decide, h.1, h1.2, ?_⟩
  rw [h.1]
  decide

/-- C17 (amended): for all natural numbers `n` and `m` up to 2^53, `parseRange` applied to
the decimal text of `n` returns `{min: n, max: n}`, and applied to the decimal text of `n`,
a hyphen and the decimal text of `m` returns `{min: n, max: m}`. -/
theorem parseRange_decimal (n m : Nat) (hn : n ≤ 2 ^ 53) (hm : m ≤ 2 ^ 53) :
    parseRange (toString n) = ⟨some (n : Int), some (n : Int)⟩
    ∧ parseRange (toString n ++ "-" ++ toString m) = ⟨some (n : Int), some (m : Int)⟩ := by
  have h := parseRange_toNumber n m
  rw [toNumber_of_le n hn, toNumber_of_le m hm] at h
  exact h

/-- Witness for C17: the range texts "1", "1-2" and the largest exact bound 2^53. -/
theorem parseRange_decimal_witness :
    (parseRange "1" = ⟨some 1, some 1⟩ ∧ parseRange "1-2" = ⟨some 1, some 2⟩)
    ∧ (parseRange "9007199254740992" = ⟨some 9007199254740992, some 9007199254740992⟩
      ∧ parseRange "9007199254740992-9007199254740992"
        = ⟨some 9007199254740992, some 9007199254740992⟩) :=
  ⟨parseRange_decimal 1 2 (by norm_num) (by norm_num),
    parseRange_decimal 9007199254740992 9007199254740992 (by norm_num) (by norm_num)⟩

/-- C18 (counterexample): the range text "1-2-3" is not of the form N or N-M, yet
`parseRange` returns the record `{min: 1, max: 2}` and `canCounter` answers true for a
defender wielding such a weapon at distance 1. -/
theorem parseRange_malformed_accepted :
    parseRange "1-2-3" = ⟨some 1, some 2⟩
    ∧ parseRange "1a" = ⟨some 1, some 1⟩
    ∧ canCounter sampleHost (tokenAt plainAttacker 0 0) (tokenAt oddLanceDefender 100 0)
        (some ironSword) = .ok true :=
  ⟨by decide, by decide, rfl⟩

/-- C18 (amended): `parseRange` never fails; when it reads no number for the minimum or
for the maximum of the defender weapon's range, that bound is NaN and `canCounter` returns
false at every distance. -/
theorem canCounter_nan_range (host : Host) (attackerToken defenderToken : Token)
    (attackerWeapon defenderWeapon : Item)
    (hdw : defenderToken.actor.items.find? isEquippedWeapon = some defenderWeapon)
    (hnan : (parseRange defenderWeapon.system.range).min = none
      ∨ (parseRange defenderWeapon.system.range).max = none) :
    canCounter host attackerToken defenderToken (some attackerWeapon) = .ok false := by
  unfold canCounter
  rw [hdw]
  by_cases hb : defenderWeapon.system.broken = true
  · simp [hb]; rfl
  · rcases hnan with h | h <;> simp [hb, h, geNum, leNum] <;> rfl

theorem canCounter_nan_range_witness :
    parseRange "abc" = ⟨none, none⟩
    ∧ canCounter sampleHost (tokenAt plainAttacker 0 0) (tokenAt blankLanceDefender 100 0)
        (some ironSword) = .ok false :=
  ⟨by decide,
    canCounter_nan_range sampleHost (tokenAt plainAttacker 0 0)
      (tokenAt blankLanceDefender 100 0) ironSword blankLance rfl (Or.inl (by decide))⟩

/-! ## Skill query -/

/-- C19 (counterexample): a combatant whose only skill is named "Ventaja" gets the
counter-priority flag although no skill name contains "vantage". -/
theorem checkCombatSkills_spanish_alias :
    (checkCombatSkills sampleHost ventajaFighter).hasVantage = true
    ∧ ¬ hasSkillNamed sampleHost ventajaFighter "vantage" := by
  constructor
  · decide
  · unfold hasSkillNamed
    decide

theorem checkSkillName_eq (n : String) (s : CombatSkills) :
    checkSkillName n s
      = { hasDesperation := s.hasDesperation || includes n "desperation",
          hasVantage := s.hasVantage || (includes n "vantage" || includes n "ventaja"),
          hasQuickRiposte :=
            s.hasQuickRiposte || (includes n "quick riposte" || includes n "contracorta"),
          hasBraveWeapon := s.hasBraveWeapon,
          preventsCounterattack :=
            s.preventsCounterattack
              || (includes n "windsweep" || includes n "sin contraataque"),
          preventsFollowup := s.preventsFollowup,
          guaranteedFollowup := s.guaranteedFollowup } := by
  rcases s with ⟨a, b, c, d, e, f, g⟩
  unfold checkSkillName
  generalize includes n "desperation" = x1
  generalize includes n "vantage" = x2
  generalize includes n "ventaja" = x3
  generalize includes n "quick riposte" = x4
  generalize includes n "contracorta" = x5
  generalize includes n "windsweep" = x6
  generalize includes n "sin contraataque" = x7
  cases x1 <;> cases x2 <;> cases x3 <;> cases x4 <;> cases x5 <;> cases x6 <;> cases x7
    <;> simp

theorem foldl_checkSkillName (lower : String → String) (l : List Item) (s : CombatSkills) :
    l.foldl (fun skills skill => checkSkillName (lower skill.name) skills) s
      = { hasDesperation :=
            s.hasDesperation || l.any (fun i => includes (lower i.name) "desperation"),
          hasVantage :=
            s.hasVantage || l.any (fun i => includes (lower i.name) "vantage"
              || includes (lower i.name) "ventaja"),
          hasQuickRiposte :=
            s.hasQuickRiposte || l.any (fun i => includes (lower i.name) "quick riposte"
              || includes (lower i.name) "contracorta"),
          hasBraveWeapon := s.hasBraveWeapon,
          preventsCounterattack :=
            s.preventsCounterattack || l.any (fun i => includes (lower i.name) "windsweep"
              || includes (lower i.name) "sin contraataque"),
          preventsFollowup := s.preventsFollowup,
          guaranteedFollowup := s.guaranteedFollowup } := by
  induction l generalizing s with
  | nil => simp
  | cons i l ih =>
    rw [List.foldl_cons, ih, checkSkillName_eq]
    simp [Bool.or_assoc]

/-- C19 (amended): `checkCombatSkills` sets the priority-attack flag iff some owned item of
type skill has a lower-cased name containing "desperation"; the counter-priority flag iff
one contains "vantage" or "ventaja"; the guaranteed-defender-followup flag iff one contains
"quick riposte" or "contracorta"; the counter-prevention flag iff one contains "windsweep"
or "sin contraataque". Items of other types never set these flags; the brave flag comes
from the name of the equipped weapon, the two remaining flags are always false, so all
flags are false when nothing matches. -/
theorem checkCombatSkills_flags (host : Host) (actor : Actor) :
    ((checkCombatSkills host actor).hasDesperation = true
        ↔ hasSkillNamed host actor "desperation")
    ∧ ((checkCombatSkills host actor).hasVantage = true
        ↔ hasSkillNamed host actor "vantage" ∨ hasSkillNamed host actor "ventaja")
    ∧ ((checkCombatSkills host actor).hasQuickRiposte = true
        ↔ hasSkillNamed host actor "quick riposte"
          ∨ hasSkillNamed host actor "contracorta")
    ∧ ((checkCombatSkills host actor).preventsCounterattack = true
        ↔ hasSkillNamed host actor "windsweep"
          ∨ hasSkillNamed host actor "sin contraataque")
    ∧ ((checkCombatSkills host actor).hasBraveWeapon = true
        ↔ ∃ w, actor.items.find? isEquippedWeapon = some w
            ∧ (includes (host.toLowerCase w.name) "brave" = true
              ∨ includes (host.toLowerCase w.name) "valor" = true))
    ∧ (checkCombatSkills host actor).preventsFollowup = false
    ∧ (checkCombatSkills host actor).guaranteedFollowup = false := by
  unfold checkCombatSkills hasSkillNamed
  simp only [foldl_checkSkillName]
  rcases hw : List.find? isEquippedWeapon actor.items with _ | w
  · simp only [Bool.false_or, List.any_eq_true, List.mem_filter, beq_iff_eq, Bool.or_eq_true]
    refine ⟨?_, ?_, ?_, ?_, by simp, trivial, trivial⟩
    · constructor
      · rintro ⟨i, ⟨h1, h2⟩, h3⟩; exact ⟨i, h1, h2, h3⟩
      · rintro ⟨i, h1, h2, h3⟩; exact ⟨i, ⟨h1, h2⟩, h3⟩
    all_goals
      constructor
      · rintro ⟨i, ⟨h1, h2⟩, h3 | h3⟩
        · exact Or.inl ⟨i, h1, h2, h3⟩
        · exact Or.inr ⟨i, h1, h2, h3⟩
      · rintro (⟨i, h1, h2, h3⟩ | ⟨i, h1, h2, h3⟩)
        · exact ⟨i, ⟨h1, h2⟩, Or.inl h3⟩
        · exact ⟨i, ⟨h1, h2⟩, Or.inr h3⟩
  · by_cases hb : (includes (host.toLowerCase w.name) "brave"
        || includes (host.toLowerCase w.name) "valor") = true
    · simp only [hb, if_true, Bool.false_or, List.any_eq_true, List.mem_filter, beq_iff_eq,
        Bool.or_eq_true]
      refine ⟨?_, ?_, ?_, ?_, ?_, trivial, trivial⟩
      · constructor
        · rintro ⟨i, ⟨h1, h2⟩, h3⟩; exact ⟨i, h1, h2, h3⟩
        · rintro ⟨i, h1, h2, h3⟩; exact ⟨i, ⟨h1, h2⟩, h3⟩
      iterate 3
        constructor
        · rintro ⟨i, ⟨h1, h2⟩, h3 | h3⟩
          · exact Or.inl ⟨i, h1, h2, h3⟩
          · exact Or.inr ⟨i, h1, h2, h3⟩
        · rintro (⟨i, h1, h2, h3⟩ | ⟨i, h1, h2, h3⟩)
          · exact ⟨i, ⟨h1, h2⟩, Or.inl h3⟩
          · exact ⟨i, ⟨h1, h2⟩, Or.inr h3⟩
      · simpa using hb
    · simp only [hb, Bool.false_eq_true, if_false, Bool.false_or, List.any_eq_true,
        List.mem_filter, beq_iff_eq, Bool.or_eq_true]
      refine ⟨?_, ?_, ?_, ?_, ?_, trivial, trivial⟩
      · constructor
        · rintro ⟨i, ⟨h1, h2⟩, h3⟩; exact ⟨i, h1, h2, h3⟩
        · rintro ⟨i, h1, h2, h3⟩; exact ⟨i, ⟨h1, h2⟩, h3⟩
      iterate 3
        constructor
        · rintro ⟨i, ⟨h1, h2⟩, h3 | h3⟩
          · exact Or.inl ⟨i, h1, h2, h3⟩
          · exact Or.inr ⟨i, h1, h2, h3⟩
        · rintro (⟨i, h1, h2, h3⟩ | ⟨i, h1, h2, h3⟩)
          · exact ⟨i, ⟨h1, h2⟩, Or.inl h3⟩
          · exact ⟨i, ⟨h1, h2⟩, Or.inr h3⟩
      · simpa using hb

/-! ## Combat session, automatic mode -/

theorem calculateDamage_nonneg (attacker defender : Actor) (weapon : Item) (isCrit : Bool) :
    0 ≤ calculateDamage attacker defender weapon isCrit := by
  simp only [calculateDamage, mathFloor]
  split_ifs <;> omega

theorem executeAttack_damage_nonneg (attacker defender : Actor) (weapon : Item) (dice : Dice)
    (round : AttackRound) (rest : Dice)
    (h : _executeAttack attacker defender (some weapon) dice = .ok (round, rest)) :
    0 ≤ round.damage ∧ round.attacker = attacker.name ∧ round.defender = defender.name := by
  rw [executeAttack_some] at h
  cases h
  refine ⟨?_, rfl, rfl⟩
  simp only
  split_ifs
  · exact calculateDamage_nonneg _ _ _ _
  · exact le_refl 0

theorem executeCombatLoop_step (attacker defender : Actor) (action : CombatAction)
    (tail : List CombatAction) (before : CombatResult) (dice : Dice) (w : Item)
    (hwa : action.weapon = some w) :
    ∃ (round : AttackRound) (dice1 : Dice) (a1 d1 : Int),
      a1 ≤ before.attackerHPEnd ∧ d1 ≤ before.defenderHPEnd
      ∧ round.attacker = action.actor.name ∧ round.defender = action.target.name
      ∧ executeCombatLoop attacker defender (action :: tail) before dice
        = (if d1 ≤ 0 then
            .ok ({ before with
                    rounds := before.rounds ++
                      [⟨round, before.attackerHPEnd, before.defenderHPEnd, action.type, a1, d1⟩],
                    attackerHPEnd := a1, defenderHPEnd := 0,
                    winner := some attacker.name }, dice1)
          else if a1 ≤ 0 then
            .ok ({ before with
                    rounds := before.rounds ++
                      [⟨round, before.attackerHPEnd, before.defenderHPEnd, action.type, a1, d1⟩],
                    attackerHPEnd := 0, defenderHPEnd := d1,
                    winner := some defender.name }, dice1)
          else
            executeCombatLoop attacker defender tail
              { before with
                rounds := before.rounds ++
                  [⟨round, before.attackerHPEnd, before.defenderHPEnd, action.type, a1, d1⟩],
                attackerHPEnd := a1, defenderHPEnd := d1 } dice1) := by
  obtain ⟨round, dice1, hround, -⟩ := executeAttack_resolved action.actor action.target w dice
  obtain ⟨hdmg, hatt, hdef⟩ :=
    executeAttack_damage_nonneg action.actor action.target w dice round dice1 hround
  by_cases hside : (action.actor.ref == attacker.ref) = true
  · refine ⟨round, dice1, before.attackerHPEnd, before.defenderHPEnd - round.damage,
      le_refl _, by omega, hatt, hdef, ?_⟩
    simp only [executeCombatLoop, hwa, hround, hside, bind, Except.bind, pure, Except.pure,
      if_true]
  · refine ⟨round, dice1, before.attackerHPEnd - round.damage, before.defenderHPEnd,
      by omega, le_refl _, hatt, hdef, ?_⟩
    simp only [executeCombatLoop, hwa, hround, hside, bind, Except.bind, pure, Except.pure,
      Bool.false_eq_true, if_false]

theorem executeCombatLoop_cases (attacker defender : Actor) :
    ∀ (sequence : List CombatAction) (before : CombatResult) (dice : Dice),
      (∃ after rest new, executeCombatLoop attacker defender sequence before dice
          = .ok (after, rest)
        ∧ LoopOutcome attacker defender sequence before after new)
      ∨ (∃ e, executeCombatLoop attacker defender sequence before dice = .error e
        ∧ ∃ a ∈ sequence, a.weapon = none) := by
  intro sequence
  induction sequence with
  | nil =>
    intro before dice
    exact Or.inl ⟨before, dice, [], rfl, by simp, by simp, by simp, Or.inl ⟨rfl, rfl, rfl⟩⟩
  | cons action tail ih =>
    intro before dice
    rcases hwa : action.weapon with _ | w
    · refine Or.inr ⟨JsError.typeError, ?_, action, List.mem_cons_self _ _, hwa⟩
      simp only [executeCombatLoop, hwa, executeAttack_none, bind, Except.bind]
    obtain ⟨round, dice1, a1, d1, ha1, hd1, hatt, hdef, hstep⟩ :=
      executeCombatLoop_step attacker defender action tail before dice w hwa
    rw [hstep]
    by_cases hD : d1 ≤ 0
    · refine Or.inl ⟨_, _, [_], by rw [if_pos hD], rfl, by simp, ?_, Or.inr ⟨[], _, rfl, ?_⟩⟩
      · simp only [List.length_singleton, List.take_succ_cons, List.take_zero]
        exact List.Forall₂.cons ⟨rfl, hatt, hdef⟩ List.Forall₂.nil
      · refine ⟨by simp, fun _ => Or.inr hD, by simp [hD], ?_, ?_, ha1, hd1⟩
        · rfl
        · simp only
          omega
    · by_cases hA : a1 ≤ 0
      · refine Or.inl ⟨_, _, [_], by rw [if_neg hD, if_pos hA], rfl, by simp, ?_,
          Or.inr ⟨[], _, rfl, ?_⟩⟩
        · simp only [List.length_singleton, List.take_succ_cons, List.take_zero]
          exact List.Forall₂.cons ⟨rfl, hatt, hdef⟩ List.Forall₂.nil
        · refine ⟨by simp, fun _ => Or.inl hA, by simp [hD, hA], ?_, ?_, ha1, hd1⟩
          · simp only
            omega
          · rfl
      · rw [if_neg hD, if_neg hA]
        rcases ih { before with
               rounds := before.rounds ++
                 [⟨round, before.attackerHPEnd, before.defenderHPEnd, action.type, a1, d1⟩],
               attackerHPEnd := a1, defenderHPEnd := d1 } dice1
          with ⟨after, rest, new, hrun, hrounds, hlen, hrec, hcase⟩ | ⟨e, herr, a, ha, hnone⟩
        · refine Or.inl ⟨after, rest,
            ⟨round, before.attackerHPEnd, before.defenderHPEnd, action.type, a1, d1⟩ :: new,
            hrun, ?_, ?_, ?_, Or.inr ?_⟩
          · rw [hrounds]; simp
          · simp only [List.length_cons]; omega
          · simp only [List.length_cons, List.take_succ_cons]
            exact List.Forall₂.cons ⟨rfl, hatt, hdef⟩ hrec
          · have hstand : BothStanding
                ⟨round, before.attackerHPEnd, before.defenderHPEnd, action.type, a1, d1⟩ :=
              ⟨by simp only; omega, by simp only; omega⟩
            rcases hcase with ⟨hnil, hnew, hafter⟩ | ⟨init, last, hnew, hinit, hstop, hwin,
              hmaxA, hmaxD, hlastA, hlastD⟩
            · subst hnew hafter
              refine ⟨[], _, rfl, by simp, ?_, by simp [hD, hA], rfl, rfl, ha1, hd1⟩
              intro hlt
              simp [hnil] at hlt
            · refine ⟨_ :: init, last, by rw [hnew]; rfl, ?_, ?_, ?_, hmaxA, hmaxD, ?_, ?_⟩
              · intro r hr
                rcases List.mem_cons.1 hr with rfl | hr
                · exact hstand
                · exact hinit r hr
              · intro hlt
                apply hstop
                simp only [List.length_cons] at hlt
                omega
              · rw [hwin]
              · exact le_trans hlastA ha1
              · exact le_trans hlastD hd1
        · exact Or.inr ⟨e, herr, a, List.mem_cons_of_mem _ ha, hnone⟩

theorem executeCombatLoop_outcome (attacker defender : Actor)
    (sequence : List CombatAction) (before : CombatResult) (dice : Dice)
    (hw : ∀ a ∈ sequence, a.weapon.isSome = true) :
    ∃ after rest new, executeCombatLoop attacker defender sequence before dice
        = .ok (after, rest)
      ∧ LoopOutcome attacker defender sequence before after new := by
  rcases executeCombatLoop_cases attacker defender sequence before dice with h | ⟨e, -, a, ha, hn⟩
  · exact h
  · have := hw a ha
    rw [hn] at this
    cases this

theorem buildCombatSequence_ne_nil (host : Host) (attacker defender : Actor)
    (attackerToken defenderToken : Token) (sequence : List CombatAction)
    (h : _buildCombatSequence host attacker defender attackerToken defenderToken
      = .ok sequence) : sequence ≠ [] := by
  cases hcc : canCounter host attackerToken defenderToken
      (attacker.items.find? isEquippedWeapon) with
  | error e =>
    simp only [_buildCombatSequence, hcc, bind, Except.bind] at h
    cases h
  | ok cc =>
    rw [buildCombatSequence_eq host attacker defender attackerToken defenderToken cc hcc] at h
    cases h
    simp only
    split_ifs <;> simp

theorem updateHP_value (actor : Actor) (value : Int) :
    (actor.updateHP value).system.stats.hp.value
      = if value > actor.system.stats.hp.max then actor.system.stats.hp.max else value := rfl

theorem consumeWeaponUseOf_system (actor : Actor) (weapon : Option Item) (n : Int) :
    (consumeWeaponUseOf actor weapon n).system = actor.system := by
  unfold consumeWeaponUseOf
  split <;> rfl

theorem onCombatExecuted_system (attacker defender : Actor)
    (attackerWeapon defenderWeapon : Option Item) (results : CombatExecutedResults) :
    (onCombatExecuted attacker defender attackerWeapon defenderWeapon results).1.system
        = attacker.system
    ∧ (onCombatExecuted attacker defender attackerWeapon defenderWeapon results).2.system
        = defender.system := by
  unfold onCombatExecuted
  constructor
  · simp only
    split_ifs <;> simp [consumeWeaponUseOf_system]
  · simp only
    split_ifs <;> simp [consumeWeaponUseOf_system]

theorem executeCombat_run (host : Host) (attackerToken defenderToken : Token) (dice : Dice)
    (attackerWeapon : Item) (sequence : List CombatAction) (after : CombatResult) (rest : Dice)
    (haw : attackerToken.actor.items.find? isEquippedWeapon = some attackerWeapon)
    (hseq : _buildCombatSequence host attackerToken.actor defenderToken.actor attackerToken
      defenderToken = .ok sequence)
    (hloop : executeCombatLoop attackerToken.actor defenderToken.actor sequence
      { rounds := [],
        attackerHPStart := attackerToken.actor.system.stats.hp.value,
        defenderHPStart := defenderToken.actor.system.stats.hp.value,
        attackerHPEnd := attackerToken.actor.system.stats.hp.value,
        defenderHPEnd := defenderToken.actor.system.stats.hp.value,
        attackerWeaponName := attackerWeapon.name,
        defenderWeaponName :=
          (defenderToken.actor.items.find? isEquippedWeapon).map (fun w => w.name),
        attackerUsesBefore := attackerWeapon.system.uses,
        attackerMaxUses := attackerWeapon.system.usesMax,
        defenderUsesBefore :=
          (defenderToken.actor.items.find? isEquippedWeapon).map (fun w => w.system.uses),
        defenderMaxUses :=
          (defenderToken.actor.items.find? isEquippedWeapon).map (fun w => w.system.usesMax),
        winner := none } dice = .ok (after, rest)) :
    ∃ run, executeCombat host attackerToken defenderToken dice = .ok run
      ∧ run.returned = .result after
      ∧ run.attacker.system
          = (attackerToken.actor.updateHP (max 0 after.attackerHPEnd)).system
      ∧ run.defender.system
          = (defenderToken.actor.updateHP (max 0 after.defenderHPEnd)).system := by
  obtain ⟨cc, hcc⟩ := canCounter_ok_of_weapon host
    { attackerToken with
      actor := (_applyCombatResults attackerToken.actor defenderToken.actor after).1 }
    { defenderToken with
      actor := (_applyCombatResults attackerToken.actor defenderToken.actor after).2 }
    attackerWeapon
  simp only [executeCombat, haw, hseq, hloop, hcc, bind, Except.bind, pure, Except.pure]
  refine ⟨_, rfl, rfl, ?_, ?_⟩
  · simp only [onCombatExecuted_system, _applyCombatResults]
  · simp only [onCombatExecuted_system, _applyCombatResults]

/-- C11: in automatic mode `executeCombat` runs the actions in sequence order and stops at
the first round after which a side's running HP is 0 or less. Whenever the attacker has an
equipped weapon and both HP values start within `[0, max]`, the sequence is built, the
call returns if every action of the sequence carries a weapon, and whenever it returns:
the recorded rounds follow a prefix of the sequence; every recorded round but the last
leaves both running HP values above 0; the loop stops before the end of the sequence only
if the last round brought a side to 0 or less; the winner is the side whose opponent
reached 0; and both HP values written back lie between 0 and that side's starting HP. -/
theorem executeCombat_stops_at_defeat (host : Host) (attackerToken defenderToken : Token)
    (dice : Dice) (attackerWeapon : Item)
    (haw : attackerToken.actor.items.find? isEquippedWeapon = some attackerWeapon)
    (hA : 0 ≤ attackerToken.actor.system.stats.hp.value
      ∧ attackerToken.actor.system.stats.hp.value ≤ attackerToken.actor.system.stats.hp.max)
    (hD : 0 ≤ defenderToken.actor.system.stats.hp.value
      ∧ defenderToken.actor.system.stats.hp.value
          ≤ defenderToken.actor.system.stats.hp.max) :
    ∃ sequence,
      _buildCombatSequence host attackerToken.actor defenderToken.actor attackerToken
        defenderToken = .ok sequence
      ∧ ((∀ a ∈ sequence, a.weapon.isSome = true)
          → ∃ run, executeCombat host attackerToken defenderToken dice = .ok run)
      ∧ ∀ run, executeCombat host attackerToken defenderToken dice = .ok run →
        ∃ result init last,
          run.returned = .result result
          ∧ result.rounds = init ++ [last]
          ∧ result.rounds.length ≤ sequence.length
          ∧ List.Forall₂ RecordsAction result.rounds (sequence.take result.rounds.length)
          ∧ (∀ r ∈ init, BothStanding r)
          ∧ (result.rounds.length < sequence.length
              → last.attackerHPAfter ≤ 0 ∨ last.defenderHPAfter ≤ 0)
          ∧ result.winner =
              (if last.defenderHPAfter ≤ 0 then some attackerToken.actor.name
               else if last.attackerHPAfter ≤ 0 then some defenderToken.actor.name
               else none)
          ∧ run.attacker.system.stats.hp.value = max 0 last.attackerHPAfter
          ∧ run.defender.system.stats.hp.value = max 0 last.defenderHPAfter
          ∧ (0 ≤ run.attacker.system.stats.hp.value
              ∧ run.attacker.system.stats.hp.value
                  ≤ attackerToken.actor.system.stats.hp.value)
          ∧ (0 ≤ run.defender.system.stats.hp.value
              ∧ run.defender.system.stats.hp.value
                  ≤ defenderToken.actor.system.stats.hp.value) := by
  obtain ⟨cc, hcc⟩ := canCounter_ok_of_weapon host attackerToken defenderToken attackerWeapon
  rw [← haw] at hcc
  obtain ⟨sequence, hseq⟩ : ∃ s, _buildCombatSequence host attackerToken.actor
      defenderToken.actor attackerToken defenderToken = .ok s :=
    ⟨_, buildCombatSequence_eq host _ _ attackerToken defenderToken cc hcc⟩
  refine ⟨sequence, hseq, ?_⟩
  rcases executeCombatLoop_cases attackerToken.actor defenderToken.actor sequence
      { rounds := [],
        attackerHPStart := attackerToken.actor.system.stats.hp.value,
        defenderHPStart := defenderToken.actor.system.stats.hp.value,
        attackerHPEnd := attackerToken.actor.system.stats.hp.value,
        defenderHPEnd := defenderToken.actor.system.stats.hp.value,
        attackerWeaponName := attackerWeapon.name,
        defenderWeaponName :=
          (defenderToken.actor.items.find? isEquippedWeapon).map (fun w => w.name),
        attackerUsesBefore := attackerWeapon.system.uses,
        attackerMaxUses := attackerWeapon.system.usesMax,
        defenderUsesBefore :=
          (defenderToken.actor.items.find? isEquippedWeapon).map (fun w => w.system.uses),
        defenderMaxUses :=
          (defenderToken.actor.items.find? isEquippedWeapon).map (fun w => w.system.usesMax),
        winner := none } dice
    with ⟨after, rest, new, hloop, hrounds, hlen, hrec, hcase⟩ | ⟨e, herr, a, ha, hnone⟩
  · obtain ⟨run, hrun, hret, hsysA, hsysD⟩ :=
      executeCombat_run host attackerToken defenderToken dice attackerWeapon sequence after
        rest haw hseq hloop
    refine ⟨fun _ => ⟨run, hrun⟩, ?_⟩
    intro run' hrun'
    rw [hrun] at hrun'
    cases hrun'
    have hne := buildCombatSequence_ne_nil host _ _ _ _ sequence hseq
    simp only [List.nil_append] at hrounds
    rcases hcase with ⟨hnil, -, -⟩ | ⟨init, last, hnew, hinit, hstop, hwin, hmaxA, hmaxD,
      hlastA, hlastD⟩
    · exact absurd hnil hne
    · simp only at hlastA hlastD hwin
      have hvalA : run.attacker.system.stats.hp.value = max 0 last.attackerHPAfter := by
        rw [hsysA, updateHP_value, hmaxA]
        split_ifs with h
        · omega
        · rfl
      have hvalD : run.defender.system.stats.hp.value = max 0 last.defenderHPAfter := by
        rw [hsysD, updateHP_value, hmaxD]
        split_ifs with h
        · omega
        · rfl
      refine ⟨after, init, last, hret, by rw [hrounds, hnew], by rw [hrounds]; exact hlen,
        by rw [hrounds]; exact hrec, hinit, by rw [hrounds]; exact hstop, hwin, hvalA, hvalD,
        ?_, ?_⟩
      · rw [hvalA]; omega
      · rw [hvalD]; omega
  · refine ⟨fun hweapons => ?_, ?_⟩
    · have := hweapons a ha
      rw [hnone] at this
      cases this
    · intro run hrun
      simp only [executeCombat, haw, hseq, herr, bind, Except.bind] at hrun
      cases hrun

theorem executeCombat_stops_at_defeat_witness :
    ∃ run result,
      executeCombat sampleHost (tokenAt scenarioAttacker 0 0) (tokenAt weakDefender 100 0)
        (constantDice 50) = .ok run
      ∧ run.returned = .result result
      ∧ result.rounds.length ≤ 1
      ∧ 0 ≤ run.defender.system.stats.hp.value
      ∧ run.defender.system.stats.hp.value ≤ 10 := by
  obtain ⟨sequence, hseq, hreturns, hprops⟩ :=
    executeCombat_stops_at_defeat sampleHost (tokenAt scenarioAttacker 0 0)
      (tokenAt weakDefender 100 0) (constantDice 50) ironSword rfl (by decide) (by decide)
  have hconcrete : _buildCombatSequence sampleHost (tokenAt scenarioAttacker 0 0).actor
      (tokenAt weakDefender 100 0).actor (tokenAt scenarioAttacker 0 0)
      (tokenAt weakDefender 100 0)
        = .ok [⟨scenarioAttacker, weakDefender, some ironSword, "attack"⟩] := rfl
  rw [hconcrete] at hseq
  cases hseq
  obtain ⟨run, hrun⟩ := hreturns (by decide)
  obtain ⟨result, init, last, h2, -, h4, -, -, -, -, -, -, -, h12⟩ := hprops run hrun
  exact ⟨run, result, hrun, h2, h4, h12⟩

/-- C12 (the code departs from the claim): in automatic mode the defender below has 10 HP
and takes 13 damage; the round is recorded with HP after = -3, not max(0, 10 - 13) = 0,
because the clamp to 0 is applied to the running total only after the round is recorded.
The interactive executor records max(0, HP before - damage). -/
theorem executeCombat_records_negative_hp :
    (∃ run result,
      executeCombat sampleHost (tokenAt scenarioAttacker 0 0) (tokenAt weakDefender 100 0)
        (constantDice 50) = .ok run
      ∧ run.returned = .result result
      ∧ result.rounds.map (fun r => (r.defenderHPBefore, r.round.damage, r.defenderHPAfter))
          = [(10, 13, -3)]
      ∧ result.defenderHPEnd = 0)
    ∧ ∀ (round : InteractiveRound) (dice : Dice),
        (_executeRound round dice).1.defenderHPAfter
          = max 0 ((_executeRound round dice).1.defenderHPBefore
              - (_executeRound round dice).1.damage) :=
  ⟨⟨_, _, rfl, rfl, by decide, by decide⟩, fun _ _ => rfl⟩

/-- C13 (the code departs from the claim): the durability handler consumes 1 use, or 2
when `canDouble` holds, whatever the number of rounds; all weapons below have 45 of 45
uses. With four missed rounds the first attacker acts in three of them (attack, brave,
double) and its weapon loses 2 uses. The second attacker defeats the defender in the first
round: it acts once and its weapon loses 2 uses, and the defender never acts and its weapon
loses 1 use. -/
theorem executeCombat_uses_not_per_round :
    (∃ run result,
      executeCombat sampleHost (tokenAt braveAttacker 0 0) (tokenAt lanceDefender 100 0)
        (constantDice 100) = .ok run
      ∧ run.returned = .result result
      ∧ result.rounds.map (fun r => (r.round.attacker, r.roundType))
          = [("Alm", "attack"), ("Alm", "brave"), ("Lukas", "counter"), ("Alm", "double")]
      ∧ roundsActedBy braveAttacker.name result.rounds = 3
      ∧ (equippedWeapon braveAttacker).map (fun w => (w.system.uses, w.system.usesMax))
          = some (45, 45)
      ∧ (equippedWeapon run.attacker).map (fun w => w.system.uses) = some 43
      ∧ roundsActedBy lanceDefender.name result.rounds = 1
      ∧ (equippedWeapon run.defender).map (fun w => w.system.uses) = some 44)
    ∧ (∃ run result,
      executeCombat sampleHost (tokenAt swiftAttacker 0 0) (tokenAt weakLanceDefender 100 0)
        (constantDice 50) = .ok run
      ∧ run.returned = .result result
      ∧ result.rounds.map (fun r => (r.round.attacker, r.roundType)) = [("Faye", "attack")]
      ∧ roundsActedBy swiftAttacker.name result.rounds = 1
      ∧ (equippedWeapon swiftAttacker).map (fun w => (w.system.uses, w.system.usesMax))
          = some (45, 45)
      ∧ (equippedWeapon run.attacker).map (fun w => w.system.uses) = some 43
      ∧ roundsActedBy weakLanceDefender.name result.rounds = 0
      ∧ (equippedWeapon weakLanceDefender).map (fun w => (w.system.uses, w.system.usesMax))
          = some (45, 45)
      ∧ (equippedWeapon run.defender).map (fun w => w.system.uses) = some 44) :=
  ⟨⟨_, _, rfl, rfl, by decide, by decide, by decide, by decide, by decide, by decide⟩,
    ⟨_, _, rfl, rfl, by decide, by decide, by decide, by decide, by decide, by decide,
      by decide⟩⟩

/-! ## Combat session, interactive mode -/

/-- C20 (the code departs from the claim): both combatants below are named "Bandit". The
session has two rounds, the initiator's attack and the opponent's counter, each starting
from 20 HP. Resolving round 0 (a hit for 12) resolves it with HP after = max(0, 20 - 12)
= 8, but it also overwrites the HP before of round 1 with 8, although round 1 targets the
other combatant (it is the opponent who acts there): later rounds are matched by the name
of the target. -/
theorem handleRollClick_same_name :
    ∃ combatData,
      startCombat sampleHost (tokenAt banditAttacker 0 0) (tokenAt banditDefender 100 0)
        (some ironSword) (some ironLance) = .ok combatData
      ∧ combatData.rounds.map
          (fun r => (r.isAttackerAttacking, r.resolved, r.defenderHPBefore))
          = [(true, false, 20), (false, false, 20)]
      ∧ ((_handleRollClick ⟨some combatData, some banditAttacker, some banditDefender⟩ 0
            (constantDice 1)).1.combatData.map
          (fun after => after.rounds.map
            (fun r => (r.isAttackerAttacking, r.resolved, r.defenderHPBefore, r.damage,
              r.defenderHPAfter))))
          = some [(true, true, 20, 12, 8), (false, false, 8, 13, 20)] :=
  ⟨_, rfl, by decide, by decide⟩

theorem roundAt_eq_none (rounds : List InteractiveRound) (roundIndex : Int) :
    roundAt rounds roundIndex = none ↔ roundIndex < 0 ∨ (rounds.length : Int) ≤ roundIndex := by
  unfold roundAt
  by_cases h : roundIndex < 0
  · simp [h]
  · simp only [h, if_false, false_or, List.get?_eq_none]
    omega

/-- C21: an interactive step for a round index that does not exist, or whose round is
already resolved, is a no-op: the session data is unchanged, no roll is drawn from the dice
and nothing is written to an actor or a weapon. The same holds when the session data is
missing. -/
theorem handleRollClick_noop (world : InteractiveWorld) (roundIndex : Int) (dice : Dice)
    (h : ∀ combatData, world.combatData = some combatData →
      roundIndex < 0 ∨ (combatData.rounds.length : Int) ≤ roundIndex
        ∨ ∃ round, roundAt combatData.rounds roundIndex = some round
            ∧ round.resolved = true) :
    _handleRollClick world roundIndex dice = (world, dice) := by
  unfold _handleRollClick
  rcases hcd : world.combatData with _ | combatData
  · rfl
  · rcases h combatData hcd with h1 | h1 | ⟨round, h1, h2⟩
    · have := (roundAt_eq_none combatData.rounds roundIndex).2 (Or.inl h1)
      simp [this]
    · have := (roundAt_eq_none combatData.rounds roundIndex).2 (Or.inr h1)
      simp [this]
    · simp [h1, h2]

theorem handleRollClick_noop_witness :
    _handleRollClick ⟨some resolvedSampleSession, some plainAttacker, some armedRiposteDefender⟩
        0 (constantDice 1)
      = (⟨some resolvedSampleSession, some plainAttacker, some armedRiposteDefender⟩,
          constantDice 1)
    ∧ _handleRollClick
        ⟨some resolvedSampleSession, some plainAttacker, some armedRiposteDefender⟩
        7 (constantDice 1)
      = (⟨some resolvedSampleSession, some plainAttacker, some armedRiposteDefender⟩,
          constantDice 1) := by
  constructor
  · apply handleRollClick_noop
    intro combatData hcd
    cases hcd
    exact Or.inr (Or.inr ⟨resolvedSampleRound, rfl, rfl⟩)
  · apply handleRollClick_noop
    intro combatData hcd
    cases hcd
    exact Or.inr (Or.inl (by decide))

/-- C26: for every attacker, defender and weapon, `calculateDamage` with `isCrit = true`
is exactly 3 times `calculateDamage` with `isCrit = false`; hence, on a round whose
precomputed damage is the non-crit damage, the crit damage of the interactive executor
(the precomputed damage times 3) equals the crit damage of the automatic executor.
The scenario damage 13 becomes 39. -/
theorem calculateDamage_crit_triples :
    (∀ (attacker defender : Actor) (weapon : Item),
      calculateDamage attacker defender weapon true
        = 3 * calculateDamage attacker defender weapon false)
    ∧ (∀ (attacker defender : Actor) (weapon : Item) (round : InteractiveRound)
        (dice : Dice),
        round.damage = calculateDamage attacker defender weapon false →
        (_executeRound round dice).1.isCrit = true →
        (_executeRound round dice).1.damage
          = calculateDamage attacker defender weapon true)
    ∧ calculateDamage scenarioAttacker scenarioDefender ironSword false = 13
    ∧ calculateDamage scenarioAttacker scenarioDefender ironSword true = 39 := by
  refine ⟨fun a d w => ?_, fun a d w round dice hd hc => ?_, by decide, by decide⟩
  · rw [calculateDamage_crit]; ring
  · have key := executeRound_resolved round dice (calculateDamage a d w) hd.symm
      (by rw [calculateDamage_crit, hd])
    obtain ⟨-, -, -, hcrit, hdmg⟩ := key
    rw [hdmg, hc]
    have hhit := (hcrit.1 hc).1
    simp [hhit]

theorem checkCombatSkills_followup_false (host : Host) (actor : Actor) :
    (checkCombatSkills host actor).preventsFollowup = false
    ∧ (checkCombatSkills host actor).guaranteedFollowup = false := by
  unfold checkCombatSkills
  simp only [foldl_checkSkillName]
  split
  · split_ifs <;> exact ⟨rfl, rfl⟩
  · exact ⟨rfl, rfl⟩

theorem canDouble_not_both (attacker defender : Actor) :
    ¬ (canDouble attacker defender = true ∧ canDouble defender attacker = true) := by
  simp only [canDouble, decide_eq_true_eq]
  omega

theorem canDouble_self (actor : Actor) : canDouble actor actor = false := by
  simp [canDouble]

/-- C29: for every actor `checkCombatSkills` returns `preventsFollowup = false` and
`guaranteedFollowup = false`; consequently, in `_buildCombatSequence`, the attacker is
double-eligible iff `canDouble attacker defender`, no follow-up is skipped by
follow-up-prevention, the attacker and the defender are never both follow-up-eligible, and
no built sequence contains both an attacker double and a defender double. -/
theorem followup_flags_never_set (host : Host) (attacker defender : Actor)
    (attackerToken defenderToken : Token) :
    (checkCombatSkills host attacker).preventsFollowup = false
    ∧ (checkCombatSkills host attacker).guaranteedFollowup = false
    ∧ attackerCanDouble host attacker defender = canDouble attacker defender
    ∧ (attackerCanDouble host attacker defender
          && !(checkCombatSkills host defender).preventsFollowup)
        = attackerCanDouble host attacker defender
    ∧ (defenderCanDouble host attacker defender
          && !(checkCombatSkills host attacker).preventsFollowup)
        = defenderCanDouble host attacker defender
    ∧ ¬ (attackerCanDouble host attacker defender = true
          ∧ defenderCanDouble host attacker defender = true)
    ∧ ∀ sequence,
        _buildCombatSequence host attacker defender attackerToken defenderToken
          = .ok sequence →
        ¬ ((⟨attacker, defender, attacker.items.find? isEquippedWeapon, "double"⟩
              : CombatAction) ∈ sequence
          ∧ (⟨defender, attacker, defender.items.find? isEquippedWeapon, "double"⟩
              : CombatAction) ∈ sequence) := by
  obtain ⟨hpa, hga⟩ := checkCombatSkills_followup_false host attacker
  obtain ⟨hpd, -⟩ := checkCombatSkills_followup_false host defender
  have hacd : attackerCanDouble host attacker defender = canDouble attacker defender := by
    simp [attackerCanDouble, hga]
  have hnot : ¬ (attackerCanDouble host attacker defender = true
      ∧ defenderCanDouble host attacker defender = true) := by
    rintro ⟨h1, h2⟩
    rw [hacd] at h1
    simp only [defenderCanDouble, Bool.and_eq_true] at h2
    exact canDouble_not_both attacker defender ⟨h1, h2.2⟩
  refine ⟨hpa, hga, hacd, by simp [hpd], by simp [hpa], hnot, ?_⟩
  intro sequence hseq
  cases hcc : canCounter host attackerToken defenderToken
      (attacker.items.find? isEquippedWeapon) with
  | error e =>
    simp only [_buildCombatSequence, hcc, bind, Except.bind] at hseq
    cases hseq
  | ok cc =>
    rw [buildCombatSequence_eq host attacker defender attackerToken defenderToken cc hcc]
      at hseq
    cases hseq
    rintro ⟨hA, hD⟩
    simp only [optionalAction, hpa, hpd, Bool.not_false, Bool.and_true] at hA hD
    generalize defenderCanCounter host attacker defender cc = dcc at hA hD
    generalize (checkCombatSkills host defender).hasVantage = dv at hA hD
    generalize (checkCombatSkills host attacker).hasBraveWeapon = ab at hA hD
    generalize (checkCombatSkills host defender).hasBraveWeapon = db at hA hD
    generalize (checkCombatSkills host attacker).hasDesperation = ad at hA hD
    by_cases hx : attackerCanDouble host attacker defender = true
    · have hy : defenderCanDouble host attacker defender = false := by
        rcases Bool.eq_false_or_eq_true (defenderCanDouble host attacker defender) with h | h
        · exact absurd ⟨hx, h⟩ hnot
        · exact h
      have hne : defender ≠ attacker := by
        intro he
        rw [hacd, he, canDouble_self] at hx
        cases hx
      simp only [hx, hy] at hD
      cases dcc <;> cases dv <;> cases ab <;> cases db <;> cases ad <;>
        simp [hne, hne.symm] at hD
    · simp only [Bool.not_eq_true] at hx
      by_cases hy : defenderCanDouble host attacker defender = true
      · have hne : attacker ≠ defender := by
          intro he
          simp only [defenderCanDouble, Bool.and_eq_true] at hy
          rw [he, canDouble_self] at hy
          cases hy.2
        simp only [hx, hy] at hA
        cases dcc <;> cases dv <;> cases ab <;> cases db <;> cases ad <;>
          simp [hne, hne.symm] at hA
      · simp only [Bool.not_eq_true] at hy
        by_cases hne : attacker = defender
        · simp only [hx, hy] at hA
          cases dcc <;> cases dv <;> cases ab <;> cases db <;> cases ad <;> simp at hA
        · simp only [hx, hy] at hA
          cases dcc <;> cases dv <;> cases ab <;> cases db <;> cases ad <;>
            simp [hne] at hA

/-! ## Derived statistics -/

/-- Floor of twice an integer plus half an integer plus an integer. -/
theorem floor_double_half_add (a b c : Int) :
    ⌊(a : ℚ) * 2 + (b : ℚ) / 2 + (c : ℚ)⌋ = 2 * a + ⌊(b : ℚ) / 2⌋ + c := by
  have h : (a : ℚ) * 2 + (b : ℚ) / 2 + (c : ℚ) = (b : ℚ) / 2 + ((2 * a + c : Int) : ℚ) := by
    push_cast; ring
  rw [h, Int.floor_add_int]; ring

/-- Floor of half an integer plus an integer. -/
theorem floor_half_add (a c : Int) :
    ⌊(a : ℚ) / 2 + (c : ℚ)⌋ = ⌊(a : ℚ) / 2⌋ + c := by
  rw [Int.floor_add_int]

/-- Floor of an integer combination. -/
theorem floor_double_add (a b : Int) : ⌊(a : ℚ) * 2 + (b : ℚ)⌋ = 2 * a + b := by
  have h : (a : ℚ) * 2 + (b : ℚ) = ((2 * a + b : Int) : ℚ) := by push_cast; ring
  rw [h, Int.floor_intCast]

/-- The floor of half an integer is the integer division by 2. -/
theorem floor_half (a : Int) : ⌊(a : ℚ) / 2⌋ = a / 2 := by
  have h := Rat.floor_intCast_div_natCast a 2
  simpa using h

/-- C24: for every actor, `_calculateDerivedStats` sets, with an equipped weapon,
hit = 2*skl + floor(lck/2) + weapon hit, avoid = 2*spd + lck, crit = floor(skl/2) + weapon
crit, critAvoid = lck, attackSpeed = spd - max(0, weight - effectiveStat) and
attack = effectiveStat + might (effectiveStat being mag for tome or staff, str otherwise);
without an equipped weapon the weapon terms are 0, attackSpeed = spd and attack = 0; the
base stats are left as they were; and skl 10, lck 4, weapon hit 80 give hit 102. -/
theorem calculateDerivedStats_formulas :
    (∀ (actor : Actor) (weapon : Item),
      actor.items.find? isEquippedWeapon = some weapon →
      (_calculateDerivedStats actor).stats = actor.system.stats ∧
      (_calculateDerivedStats actor).derived =
        { hit := some (2 * actor.system.stats.skl.value
                  + ⌊(actor.system.stats.lck.value : ℚ) / 2⌋ + weapon.system.hit),
          avoid := some (2 * actor.system.stats.spd.value + actor.system.stats.lck.value),
          crit := some (⌊(actor.system.stats.skl.value : ℚ) / 2⌋ + weapon.system.crit),
          critAvoid := some actor.system.stats.lck.value,
          attackSpeed := some (actor.system.stats.spd.value
                  - max 0 (weapon.system.weight - effectiveStat actor weapon)),
          attack := some (effectiveStat actor weapon + weapon.system.might) } ∧
      (effectiveStat actor weapon =
        if weapon.system.weaponType = "tome" ∨ weapon.system.weaponType = "staff"
        then actor.system.stats.mag.value else actor.system.stats.str.value)) ∧
    (∀ actor : Actor,
      actor.items.find? isEquippedWeapon = none →
      (_calculateDerivedStats actor).stats = actor.system.stats ∧
      (_calculateDerivedStats actor).derived =
        { hit := some (2 * actor.system.stats.skl.value
                  + ⌊(actor.system.stats.lck.value : ℚ) / 2⌋),
          avoid := some (2 * actor.system.stats.spd.value + actor.system.stats.lck.value),
          crit := some ⌊(actor.system.stats.skl.value : ℚ) / 2⌋,
          critAvoid := some actor.system.stats.lck.value,
          attackSpeed := some actor.system.stats.spd.value,
          attack := some 0 }) ∧
    (∀ a : Int, ⌊(a : ℚ) / 2⌋ = a / 2 ∧ 2 * (a / 2) ≤ a ∧ a < 2 * (a / 2) + 2) ∧
    (scenarioOneActor.system.stats.skl.value = 10 ∧
      scenarioOneActor.system.stats.lck.value = 4 ∧
      scenarioOneActor.items.find? isEquippedWeapon = some ironSword ∧
      ironSword.system.hit = 80 ∧
      (_calculateDerivedStats scenarioOneActor).derived.hit = some 102) := by
  refine ⟨?_, ?_, ?_, ?_⟩
  · intro actor weapon hw
    refine ⟨rfl, ?_, rfl⟩
    simp only [_calculateDerivedStats, hw, effectiveStat, floor_double_half_add,
      floor_half_add, floor_double_add]
  · intro actor hw
    refine ⟨rfl, ?_⟩
    have h := floor_double_half_add actor.system.stats.skl.value actor.system.stats.lck.value 0
    simp only [Int.cast_zero, add_zero] at h
    simp only [_calculateDerivedStats, hw, floor_double_add, Int.cast_zero, add_zero, h]
  · intro a
    refine ⟨floor_half a, ?_, ?_⟩ <;> omega
  · refine ⟨by decide, by decide, by decide, by decide, ?_⟩
    have hw : scenarioOneActor.items.find? isEquippedWeapon = some ironSword := by decide
    simp only [_calculateDerivedStats, hw, floor_double_half_add, floor_half]
    decide

/-! ## Crit chance range, missing weapon, schema weapon types -/

/-- C27: `calculateCritChance` is never negative, but it has no upper clamp: a prepared
character with skl 120 (of 200) wielding a weapon of crit 50 has derived crit 110, and its
crit chance against the scenario defender (crit avoid 5) is 105, above the 100 of the
docstring; the hit chance of the same pair is clamped to 100. -/
theorem calculateCritChance_exceeds_100 :
    (∀ attacker defender : Actor, 0 ≤ calculateCritChance attacker defender) ∧
    sharpshooter.system.stats.skl = ⟨120, 200⟩ ∧
    sharpshooter.items = [killingEdge] ∧
    killingEdge.system.crit = 50 ∧
    sharpshooter.system.derived.crit = some 110 ∧
    scenarioDefender.system.derived.critAvoid = some 5 ∧
    calculateCritChance sharpshooter scenarioDefender = 105 ∧
    calculateHitChance sharpshooter scenarioDefender (some killingEdge) = 100 := by
  have hw : List.find? isEquippedWeapon [killingEdge] = some killingEdge := by decide
  have hs : sharpshooter.system.derived =
      { hit := some 320, avoid := some 10, crit := some 110, critAvoid := some 0,
        attackSpeed := some 5, attack := some 18 } := by
    simp only [sharpshooter, prepareDerivedData, _calculateDerivedStats, hw,
      floor_double_half_add, floor_half_add, floor_double_add, floor_half]
    decide
  refine ⟨?_, by decide, by decide, by decide, ?_, by decide, ?_, ?_⟩
  · intro attacker defender
    simp only [calculateCritChance]
    exact le_max_left _ _
  · rw [hs]
  · simp only [calculateCritChance, hs]
    decide
  · simp only [calculateHitChance, hs]
    decide

/-- C25: when the attacker has no equipped weapon, `executeCombat` returns the error result
with both actors (HP, items and uses) and the dice exactly as they were, also where
building the sequence would have thrown, and `generateCombatPreview` returns an error record
instead of a preview. -/
theorem no_weapon_is_an_error (host : Host) (attackerToken defenderToken : Token)
    (dice : Dice)
    (h : attackerToken.actor.items.find? isEquippedWeapon = none) :
    executeCombat host attackerToken defenderToken dice =
      .ok { returned := .error "No weapon", attacker := attackerToken.actor,
            defender := defenderToken.actor, dice := dice } ∧
    generateCombatPreview host attackerToken defenderToken =
      .ok (.error "Attacker has no weapon equipped") := by
  constructor
  · simp only [executeCombat, h]; rfl
  · simp only [generateCombatPreview, h]; rfl

/-- Witness for C25: an unarmed attacker against the lance defender; building the sequence
for this pair throws, `executeCombat` does not get that far. -/
theorem no_weapon_is_an_error_witness :
    (tokenAt unarmedAttacker 0 0).actor.items.find? isEquippedWeapon = none ∧
    (∃ e, _buildCombatSequence sampleHost unarmedAttacker lanceDefender
      (tokenAt unarmedAttacker 0 0) (tokenAt lanceDefender 100 0) = .error e) ∧
    executeCombat sampleHost (tokenAt unarmedAttacker 0 0) (tokenAt lanceDefender 100 0)
        (constantDice 1) =
      .ok { returned := .error "No weapon", attacker := unarmedAttacker,
            defender := lanceDefender, dice := constantDice 1 } ∧
    generateCombatPreview sampleHost (tokenAt unarmedAttacker 0 0)
        (tokenAt lanceDefender 100 0) =
      .ok (.error "Attacker has no weapon equipped") :=
  ⟨by decide, ⟨_, rfl⟩,
    no_weapon_is_an_error sampleHost (tokenAt unarmedAttacker 0 0)
      (tokenAt lanceDefender 100 0) (constantDice 1) (by decide)⟩

/-- The equipped-weapon test does not read the magic type. -/
theorem isEquippedWeapon_withMagicType (i : Item) (m : String) :
    isEquippedWeapon (i.withMagicType m) = isEquippedWeapon i := rfl

/-- Looking up an item by a predicate that does not read the magic type commutes with
replacing the magic types. -/
theorem find?_withMagicTypes (p : Item → Bool) (f : Item → String)
    (hp : ∀ i m, p (i.withMagicType m) = p i) (items : List Item) :
    (items.map (fun i => i.withMagicType (f i))).find? p =
      (items.find? p).map (fun i => i.withMagicType (f i)) := by
  induction items with
  | nil => rfl
  | cons i rest ih =>
    simp only [List.map_cons, List.find?_cons, hp]
    cases p i
    · simpa using ih
    · rfl

/-- C30: on the eight weapon types of the schema the triangle is non-zero only between two
different types among sword, lance and axe, its hit modifier is -15, 0 or 15 and its damage
modifier -1, 0 or 1 (never the 10 of the anima triangle); outside the physical triangle the
hit chance is the one computed without a weapon; and neither `calculateHitChance` nor
`calculateDamage` changes when the magic types of all items involved are replaced. -/
theorem triangle_on_schema_types :
    (∀ a ∈ weaponTypeChoices, ∀ b ∈ weaponTypeChoices,
      ((getWeaponTriangleAdvantage a b).hitMod ∈ [(-15 : Int), 0, 15]) ∧
      ((getWeaponTriangleAdvantage a b).damageMod ∈ [(-1 : Int), 0, 1]) ∧
      (((getWeaponTriangleAdvantage a b).hitMod ≠ 0 ∨
          (getWeaponTriangleAdvantage a b).damageMod ≠ 0 ∨
          (getWeaponTriangleAdvantage a b).advantage ≠ 0) ↔
        (a ∈ ["sword", "lance", "axe"] ∧ b ∈ ["sword", "lance", "axe"] ∧ a ≠ b))) ∧
    (∀ (attacker defender : Actor) (weapon defenderWeapon : Item),
      defender.items.find? isEquippedWeapon = some defenderWeapon →
      weapon.system.weaponType ∈ weaponTypeChoices →
      defenderWeapon.system.weaponType ∈ weaponTypeChoices →
      ¬ (weapon.system.weaponType ∈ ["sword", "lance", "axe"] ∧
          defenderWeapon.system.weaponType ∈ ["sword", "lance", "axe"] ∧
          weapon.system.weaponType ≠ defenderWeapon.system.weaponType) →
      calculateHitChance attacker defender (some weapon) =
        calculateHitChance attacker defender none) ∧
    (∀ (attacker defender : Actor) (weapon : Option Item) (f g : Item → String)
        (m : String),
      calculateHitChance (attacker.withMagicTypes f) (defender.withMagicTypes g)
          (weapon.map (fun w => w.withMagicType m)) =
        calculateHitChance attacker defender weapon) ∧
    (∀ (attacker defender : Actor) (weapon : Item) (isCrit : Bool) (f g : Item → String)
        (m : String),
      calculateDamage (attacker.withMagicTypes f) (defender.withMagicTypes g)
          (weapon.withMagicType m) isCrit =
        calculateDamage attacker defender weapon isCrit) := by
  have key : ∀ a ∈ weaponTypeChoices, ∀ b ∈ weaponTypeChoices,
      ((getWeaponTriangleAdvantage a b).hitMod ∈ [(-15 : Int), 0, 15]) ∧
      ((getWeaponTriangleAdvantage a b).damageMod ∈ [(-1 : Int), 0, 1]) ∧
      (((getWeaponTriangleAdvantage a b).hitMod ≠ 0 ∨
          (getWeaponTriangleAdvantage a b).damageMod ≠ 0 ∨
          (getWeaponTriangleAdvantage a b).advantage ≠ 0) ↔
        (a ∈ ["sword", "lance", "axe"] ∧ b ∈ ["sword", "lance", "axe"] ∧ a ≠ b)) := by
    decide
  refine ⟨key, ?_, ?_, ?_⟩
  · intro attacker defender weapon defenderWeapon hd ha hb hn
    have h0 : (getWeaponTriangleAdvantage weapon.system.weaponType
        defenderWeapon.system.weaponType).hitMod = 0 := by
      by_contra hne
      exact hn ((key _ ha _ hb).2.2.mp (Or.inl hne))
    simp only [calculateHitChance, hd, h0, add_zero]
  · intro attacker defender weapon f g m
    have hfind := find?_withMagicTypes isEquippedWeapon g isEquippedWeapon_withMagicType
      defender.items
    cases weapon with
    | none => rfl
    | some w =>
      simp only [calculateHitChance, Actor.withMagicTypes, Option.map_some, hfind]
      cases defender.items.find? isEquippedWeapon <;> rfl
  · intro attacker defender weapon isCrit f g m
    have hfind := find?_withMagicTypes isEquippedWeapon g isEquippedWeapon_withMagicType
      defender.items
    have hclass := find?_withMagicTypes (fun i => i.type == "class") g (fun _ _ => rfl)
      defender.items
    simp only [calculateDamage, Actor.withMagicTypes, hfind, hclass]
    cases defender.items.find? isEquippedWeapon <;>
      cases defender.items.find? (fun i => i.type == "class") <;> rfl

/-! ## Finalizing an interactive session -/

/-- Mapping a list by a function that keeps a predicate commutes with the lookup by that
predicate. -/
theorem find?_map_of_invariant (p : Item → Bool) (g : Item → Item)
    (hp : ∀ i, p (g i) = p i) (items : List Item) :
    (items.map g).find? p = (items.find? p).map g := by
  induction items with
  | nil => rfl
  | cons i rest ih =>
    simp only [List.map_cons, List.find?_cons, hp]
    cases p i
    · simpa using ih
    · rfl

/-- An item update keeps the id. -/
theorem Item.update_id (item : Item) (change : ItemSystem → ItemSystem) :
    (item.update change).id = item.id := by
  simp only [Item.update, _prepareWeaponData]
  split <;> rfl

/-- An update of the uses stores them. -/
theorem Item.update_uses (item : Item) (n : Int) :
    (item.update (fun system => { system with uses := n })).system.uses = n := by
  simp only [Item.update, _prepareWeaponData]
  split <;> rfl

/-- The weapon write of the finalize step does not touch the actor's own data. -/
theorem applyWeaponUses_system (actor : Actor) (side : CombatantData) :
    (applyWeaponUses actor side).system = actor.system := by
  simp only [applyWeaponUses]
  split
  · split <;> rfl
  · rfl

/-- The HP write reads only the actor's own data. -/
theorem updateHP_system_congr (x y : Actor) (v : Int) (h : x.system = y.system) :
    (x.updateHP v).system = (y.updateHP v).system := by
  simp only [Actor.updateHP, h]

/-- The HP write is idempotent. -/
theorem updateHP_idem (x : Actor) (v : Int) :
    ((x.updateHP v).updateHP v).system = (x.updateHP v).system := by
  simp only [Actor.updateHP]

/-- The weapon write of the finalize step, when it finds the weapon: the weapon found
afterwards is the updated one, with the counter subtracted from its uses. -/
theorem applyWeaponUses_found (actor : Actor) (side : CombatantData) (w : Item)
    (hid : truthyId side.weaponId = true) (hk : side.weaponUsesUsed ≠ 0)
    (hw : actor.items.find? (fun i => some i.id == side.weaponId) = some w) :
    (applyWeaponUses actor side).items.find? (fun i => some i.id == side.weaponId) =
      some (w.update (fun system =>
        { system with uses := max 0 (w.system.uses - side.weaponUsesUsed) })) := by
  have hwid : (some w.id == side.weaponId) = true := by
    have := List.find?_some hw
    simpa using this
  have hcond : (truthyId side.weaponId && side.weaponUsesUsed != 0) = true := by
    simp [hid, hk]
  simp only [applyWeaponUses, hcond, if_true, hw, Actor.setItem]
  rw [find?_map_of_invariant]
  · simp only [hw, Option.map_some', Item.update_id, if_true]
  · intro i
    by_cases h : i.id = w.id
    · simp only [Item.update_id, h, if_true]
    · simp only [Item.update_id, h, if_false]

/-- C22 (counterexample): the finalize step is not idempotent on weapon uses. With a use
counter of 1 and an iron sword of 45 uses, one application leaves 44 uses and a second
application with the same session data leaves 43, while the HP of both actors is the same
after both. -/
theorem applyFinalResults_not_idempotent :
    ∃ a1 d1 a2 d2,
      resolvedSampleSession.attacker.weaponUsesUsed = 1 ∧
      usesOfItem plainAttacker resolvedSampleSession.attacker.weaponId = some 45 ∧
      _applyFinalResults resolvedSampleSession (some plainAttacker)
        (some armedRiposteDefender) = (some a1, some d1) ∧
      _applyFinalResults resolvedSampleSession (some a1) (some d1) = (some a2, some d2) ∧
      usesOfItem a1 resolvedSampleSession.attacker.weaponId = some 44 ∧
      usesOfItem a2 resolvedSampleSession.attacker.weaponId = some 43 ∧
      a1 ≠ a2 ∧
      a1.system.stats.hp.value = 20 ∧ a2.system.stats.hp.value = 20 ∧
      d1.system.stats.hp.value = 8 ∧ d2.system.stats.hp.value = 8 :=
  ⟨_, _, _, _, by decide, by decide, rfl, rfl, by decide, by decide, by decide, by decide,
    by decide, by decide, by decide⟩

/-- C22 (amended): applying `_applyFinalResults` a second time with the same session data
leaves the own data of both actors, HP included, as the first application left it, because
the HP write sets an absolute value; the weapon write is relative: a weapon found by its
recorded id, with a non-zero use counter k, has max(0, uses - k) uses after one application
and max(0, max(0, uses - k) - k) after two. -/
theorem applyFinalResults_twice (combatData : CombatData)
    (attackerActor defenderActor : Actor) :
    ∃ a1 d1 a2 d2,
      _applyFinalResults combatData (some attackerActor) (some defenderActor) =
        (some a1, some d1) ∧
      _applyFinalResults combatData (some a1) (some d1) = (some a2, some d2) ∧
      a2.system = a1.system ∧ d2.system = d1.system ∧
      (∀ w, truthyId combatData.attacker.weaponId = true →
        combatData.attacker.weaponUsesUsed ≠ 0 →
        attackerActor.items.find? (fun i => some i.id == combatData.attacker.weaponId)
          = some w →
        usesOfItem a1 combatData.attacker.weaponId =
          some (max 0 (w.system.uses - combatData.attacker.weaponUsesUsed)) ∧
        usesOfItem a2 combatData.attacker.weaponId =
          some (max 0 (max 0 (w.system.uses - combatData.attacker.weaponUsesUsed)
            - combatData.attacker.weaponUsesUsed))) ∧
      (∀ w, truthyId combatData.defender.weaponId = true →
        combatData.defender.weaponUsesUsed ≠ 0 →
        defenderActor.items.find? (fun i => some i.id == combatData.defender.weaponId)
          = some w →
        usesOfItem d1 combatData.defender.weaponId =
          some (max 0 (w.system.uses - combatData.defender.weaponUsesUsed)) ∧
        usesOfItem d2 combatData.defender.weaponId =
          some (max 0 (max 0 (w.system.uses - combatData.defender.weaponUsesUsed)
            - combatData.defender.weaponUsesUsed))) := by
  have sys : ∀ (x : Actor) (side : CombatantData),
      (applyWeaponUses ((applyWeaponUses (x.updateHP side.hpEnd) side).updateHP side.hpEnd)
        side).system = (applyWeaponUses (x.updateHP side.hpEnd) side).system := by
    intro x side
    rw [applyWeaponUses_system, applyWeaponUses_system,
      updateHP_system_congr _ (x.updateHP side.hpEnd) _ (applyWeaponUses_system _ _),
      updateHP_idem]
  have uses : ∀ (x : Actor) (side : CombatantData) (w : Item),
      truthyId side.weaponId = true → side.weaponUsesUsed ≠ 0 →
      x.items.find? (fun i => some i.id == side.weaponId) = some w →
      usesOfItem (applyWeaponUses (x.updateHP side.hpEnd) side) side.weaponId =
        some (max 0 (w.system.uses - side.weaponUsesUsed)) ∧
      usesOfItem (applyWeaponUses
          ((applyWeaponUses (x.updateHP side.hpEnd) side).updateHP side.hpEnd) side)
          side.weaponId =
        some (max 0 (max 0 (w.system.uses - side.weaponUsesUsed) - side.weaponUsesUsed)) := by
    intro x side w hid hk hw
    have h1 := applyWeaponUses_found (x.updateHP side.hpEnd) side w hid hk hw
    have h2 := applyWeaponUses_found
      ((applyWeaponUses (x.updateHP side.hpEnd) side).updateHP side.hpEnd) side _ hid hk h1
    constructor
    · simp only [usesOfItem, h1, Option.map_some', Item.update_uses]
    · simp only [usesOfItem, h2, Option.map_some', Item.update_uses]
  exact ⟨_, _, _, _, rfl, rfl, sys attackerActor combatData.attacker,
    sys defenderActor combatData.defender, uses attackerActor combatData.attacker,
    uses defenderActor combatData.defender⟩

/-- C23: the interactive mode does not prune the rounds of a defeated combatant. Gray
attacks Lukas, who has 10 HP left; with every die showing 1 the first round deals 12 damage
and brings Lukas to 0 HP, yet the session is not finalized and the actors are untouched;
the counter round of the defeated Lukas is still resolved, hits for 13, and only then the
session finalizes, writing 7 HP for Gray. The automatic mode, on the same tokens and dice,
stops after the first round and leaves Gray at 20 HP. -/
theorem handleRollClick_defeated_still_acts :
    ∃ session world1 dice1 data1 world2 dice2 data2 counter run result,
      startCombat sampleHost (tokenAt plainAttacker 0 0) (tokenAt weakLanceDefender 100 0)
        (some ironSword) (some ironLance) = .ok session ∧
      session.rounds.length = 2 ∧
      _handleRollClick
        (worldOf session (tokenAt plainAttacker 0 0) (tokenAt weakLanceDefender 100 0))
        0 (constantDice 1) = (world1, dice1) ∧
      world1.combatData = some data1 ∧
      data1.defender.hpEnd = 0 ∧
      data1.allResolved = false ∧
      world1.attackerActor = some plainAttacker ∧
      world1.defenderActor = some weakLanceDefender ∧
      _handleRollClick world1 1 dice1 = (world2, dice2) ∧
      world2.combatData = some data2 ∧
      data2.rounds.get? 1 = some counter ∧
      counter.attacker = "Lukas" ∧ counter.defender = "Gray" ∧
      counter.resolved = true ∧ counter.didHit = some true ∧ counter.damage = 13 ∧
      data2.attacker.hpEnd = 7 ∧
      data2.allResolved = true ∧
      world2.attackerActor.map (fun a => a.system.stats.hp.value) = some 7 ∧
      world2.defenderActor.map (fun a => a.system.stats.hp.value) = some 0 ∧
      executeCombat sampleHost (tokenAt plainAttacker 0 0) (tokenAt weakLanceDefender 100 0)
        (constantDice 1) = .ok run ∧
      run.returned = .result result ∧
      result.rounds.length = 1 ∧
      run.attacker.system.stats.hp.value = 20 ∧
      run.defender.system.stats.hp.value = 0 :=
  ⟨_, _, _, _, _, _, _, _, _, _, rfl, by decide, rfl, rfl, by decide, by decide, by decide,
    by decide, rfl, rfl, rfl, by decide, by decide, by decide, by decide, by decide,
    by decide, by decide, by decide, by decide, rfl, rfl, by decide, by decide, by decide⟩

/-! ## Interactive sessions resolved in order -/

/-- What `_executeRound` returns, as far as the HP bookkeeping is concerned. -/
theorem executeRound_hp (round : InteractiveRound) (dice : Dice) (h : 0 ≤ round.damage) :
    (_executeRound round dice).1.defenderHPBefore = round.defenderHPBefore ∧
    (_executeRound round dice).1.defenderHPAfter =
      max 0 (round.defenderHPBefore - (_executeRound round dice).1.damage) ∧
    0 ≤ (_executeRound round dice).1.damage := by
  refine ⟨rfl, rfl, ?_⟩
  simp only [_executeRound, Dice.roll]
  split_ifs <;> simp <;> omega

/-- The round at the position after `done`. -/
theorem roundAt_append (done todo : List InteractiveRound) (r : InteractiveRound) :
    roundAt (done ++ r :: todo) (done.length : Int) = some r := by
  have h : ¬ ((done.length : Int) < 0) := by omega
  simp only [roundAt, h, if_false, Int.toNat_ofNat, List.get?_eq_getElem?]
  rw [List.getElem?_append_right (le_refl _)]
  simp

/-- Damage taken over an appended round. -/
theorem damageTaken_append (name : String) (done : List InteractiveRound)
    (r : InteractiveRound) :
    damageTaken name (done ++ [r]) =
      damageTaken name done + (if r.defender = name then r.damage else 0) := by
  simp only [damageTaken, List.filter_append, List.map_append, List.sum_append]
  by_cases h : r.defender = name <;> simp [List.filter, h]

/-- Rounds acted over an appended round. -/
theorem roundsActed_append (name : String) (done : List InteractiveRound)
    (r : InteractiveRound) :
    roundsActed name (done ++ [r]) =
      roundsActed name done + (if r.attacker = name then 1 else 0) := by
  simp only [roundsActed, List.filter_append, List.length_append]
  by_cases h : r.attacker = name <;> simp [List.filter, h]

/-- Replacing the round after `done` and passing over the later rounds. -/
theorem rounds_set_take_drop (done todo : List InteractiveRound) (r x : InteractiveRound)
    (f : InteractiveRound → InteractiveRound) :
    ((done ++ r :: todo).set done.length x).take (done.length + 1) ++
      (((done ++ r :: todo).set done.length x).drop (done.length + 1)).map f =
    done ++ x :: todo.map f := by
  induction done with
  | nil => simp
  | cons d rest ih => simpa using ih

/-- Whether all rounds are resolved once the round after `done` is. -/
theorem all_resolved_iff (done todo : List InteractiveRound) (x : InteractiveRound)
    (hdone : ∀ r ∈ done, r.resolved = true) (hx : x.resolved = true)
    (htodo : ∀ r ∈ todo, r.resolved = false) :
    (done ++ x :: todo).all (fun r => r.resolved) = decide (todo = []) := by
  cases todo with
  | nil =>
    simp only [List.all_append, List.all_cons, List.all_nil, hx, Bool.and_true, decide_True]
    simpa using hdone
  | cons t rest =>
    have ht := htodo t (List.mem_cons_self _ _)
    simp [ht]

/-- The step of `_handleRollClick` on the first open round, when the initiator acts. -/
theorem handleRollClick_attacker_acts (data : CombatData) (oa od : Option Actor)
    (done todo : List InteractiveRound) (r : InteractiveRound) (dice : Dice)
    (hrounds : data.rounds = done ++ r :: todo) (hres : r.resolved = false)
    (hact : r.attacker = data.attacker.name)
    (hid : truthyId data.attacker.weaponId = true) :
    ∃ data',
      _handleRollClick ⟨some data, oa, od⟩ (done.length : Int) dice =
        (⟨some data',
          (if data'.allResolved then _applyFinalResults data' oa od else (oa, od)).1,
          (if data'.allResolved then _applyFinalResults data' oa od else (oa, od)).2⟩,
          (_executeRound r dice).2) ∧
      data'.rounds = done ++ mergeResult r (_executeRound r dice).1 ::
        todo.map (fun next =>
          if next.defender = r.defender then
            { next with defenderHPBefore := (_executeRound r dice).1.defenderHPAfter }
          else next) ∧
      data'.allResolved = data'.rounds.all (fun x => x.resolved) ∧
      data'.attacker = { data.attacker with
        weaponUsesUsed := data.attacker.weaponUsesUsed + 1 } ∧
      data'.defender = { data.defender with
        hpEnd := (_executeRound r dice).1.defenderHPAfter,
        hpChange := data.defender.hpChange -
          (r.defenderHPBefore - (_executeRound r dice).1.defenderHPAfter) } := by
  unfold _handleRollClick
  simp only [hrounds, roundAt_append, hres, hact, hid, Bool.false_eq_true, if_false, if_true,
    Int.toNat_ofNat, rounds_set_take_drop]
  exact ⟨_, rfl, rfl, rfl, rfl, rfl⟩

/-- The step of `_handleRollClick` on the first open round, when the opponent acts. -/
theorem handleRollClick_defender_acts (data : CombatData) (oa od : Option Actor)
    (done todo : List InteractiveRound) (r : InteractiveRound) (dice : Dice)
    (hrounds : data.rounds = done ++ r :: todo) (hres : r.resolved = false)
    (hact : r.attacker ≠ data.attacker.name)
    (hid : truthyId data.defender.weaponId = true) :
    ∃ data',
      _handleRollClick ⟨some data, oa, od⟩ (done.length : Int) dice =
        (⟨some data',
          (if data'.allResolved then _applyFinalResults data' oa od else (oa, od)).1,
          (if data'.allResolved then _applyFinalResults data' oa od else (oa, od)).2⟩,
          (_executeRound r dice).2) ∧
      data'.rounds = done ++ mergeResult r (_executeRound r dice).1 ::
        todo.map (fun next =>
          if next.defender = r.defender then
            { next with defenderHPBefore := (_executeRound r dice).1.defenderHPAfter }
          else next) ∧
      data'.allResolved = data'.rounds.all (fun x => x.resolved) ∧
      data'.defender = { data.defender with
        weaponUsesUsed := data.defender.weaponUsesUsed + 1 } ∧
      data'.attacker = { data.attacker with
        hpEnd := (_executeRound r dice).1.defenderHPAfter,
        hpChange := data.attacker.hpChange -
          (r.defenderHPBefore - (_executeRound r dice).1.defenderHPAfter) } := by
  unfold _handleRollClick
  simp only [hrounds, roundAt_append, hres, hact, hid, Bool.false_eq_true, if_false, if_true,
    Int.toNat_ofNat, rounds_set_take_drop]
  exact ⟨_, rfl, rfl, rfl, rfl, rfl⟩

/-- Two successive floors at 0 are one. -/
theorem max_sub_sub (s t d : Int) (hd : 0 ≤ d) :
    max 0 (max 0 (s - t) - d) = max 0 (s - (t + d)) := by
  omega

/-- Resolving a round and passing its outcome on keeps who acts against whom. -/
theorem actingSides_step (done todo : List InteractiveRound) (r : InteractiveRound)
    (out : RoundOutcome) (after : Int) :
    actingSides (done ++ [mergeResult r out] ++ todo.map (fun next =>
      if next.defender = r.defender then { next with defenderHPBefore := after }
      else next)) = actingSides (done ++ r :: todo) := by
  have hmap : (todo.map (fun next =>
      if next.defender = r.defender then { next with defenderHPBefore := after }
      else next)).map (fun x => (x.attacker, x.defender)) =
        todo.map (fun x => (x.attacker, x.defender)) := by
    rw [List.map_map]
    apply List.map_congr_left
    intro y _
    simp only [Function.comp]
    split <;> rfl
  simp only [actingSides, List.map_append, List.map_cons, List.map_nil, hmap,
    List.append_assoc, List.singleton_append]
  rfl

/-- One step of a session resolved in order: the click on the first open round resolves it,
keeps the invariant, and finalizes exactly when no open round is left. -/
theorem handleRollClick_step (A D : String) (hAD : A ≠ D) (hpA hpD : Int)
    (done todo : List InteractiveRound) (r : InteractiveRound) (data : CombatData)
    (oa od : Option Actor) (dice : Dice)
    (inv : SessionInv A D hpA hpD done (r :: todo) data) :
    ∃ r' todo' data' dice',
      _handleRollClick ⟨some data, oa, od⟩ (done.length : Int) dice =
        (⟨some data',
          (if todo = [] then _applyFinalResults data' oa od else (oa, od)).1,
          (if todo = [] then _applyFinalResults data' oa od else (oa, od)).2⟩, dice') ∧
      todo'.length = todo.length ∧
      data'.allResolved = decide (todo = []) ∧
      actingSides (done ++ [r'] ++ todo') = actingSides (done ++ r :: todo) ∧
      SessionInv A D hpA hpD (done ++ [r']) todo' data' := by
  have hres := (inv.todo_open r (List.mem_cons_self _ _)).1
  have hdmg := (inv.todo_open r (List.mem_cons_self _ _)).2.1
  have hbefore := (inv.todo_open r (List.mem_cons_self _ _)).2.2
  obtain ⟨-, ha, hd⟩ := executeRound_hp r dice hdmg
  have hname := inv.name_eq
  have hdone : ∀ x ∈ done, x.resolved = true := fun x hx => (inv.done_resolved x hx).1
  have hmerged : (mergeResult r (_executeRound r dice).1).resolved = true := rfl
  have htodo : ∀ x ∈ todo.map (fun next =>
      if next.defender = r.defender then
        { next with defenderHPBefore := (_executeRound r dice).1.defenderHPAfter }
      else next), x.resolved = false := by
    intro x hx
    obtain ⟨y, hy, rfl⟩ := List.mem_map.1 hx
    have := (inv.todo_open y (List.mem_cons_of_mem _ hy)).1
    split <;> exact this
  have hall := all_resolved_iff done _ _ hdone hmerged htodo
  rcases inv.sides r (by simp) with ⟨h1, h2, h3⟩ | ⟨h1, h2, h3⟩
  · obtain ⟨data', heq, hr, hallr, hatt, hdef⟩ :=
      handleRollClick_attacker_acts data oa od done todo r dice inv.rounds_eq hres
        (h1.trans hname.symm) h3
    have hallv : data'.allResolved = decide (todo = []) := by
      rw [hallr, hr, hall]; simp
    refine ⟨mergeResult r (_executeRound r dice).1,
      todo.map (fun next =>
        if next.defender = r.defender then
          { next with defenderHPBefore := (_executeRound r dice).1.defenderHPAfter }
        else next), data', (_executeRound r dice).2, ?_, List.length_map _ _, hallv,
        actingSides_step done todo r _ _, ?_⟩
    · rw [heq, hallv]; simp
    · have hb2 : r.defenderHPBefore = data.defender.hpEnd := by rw [hbefore, if_pos h2]
      refine ⟨by rw [hr]; simp, by rw [hatt]; exact hname, ?_, ?_, ?_, ?_, ?_, ?_, ?_⟩
      · intro x hx
        have hids : truthyId data'.attacker.weaponId = truthyId data.attacker.weaponId ∧
            truthyId data'.defender.weaponId = truthyId data.defender.weaponId := by
          rw [hatt, hdef]; exact ⟨rfl, rfl⟩
        rw [hids.1, hids.2]
        simp only [List.mem_append, List.mem_singleton, List.mem_map] at hx
        rcases hx with (hx | rfl) | ⟨y, hy, rfl⟩
        · exact inv.sides x (by simp [hx])
        · exact Or.inl ⟨h1, h2, h3⟩
        · have := inv.sides y (by simp [hy])
          split <;> exact this
      · intro x hx
        simp only [List.mem_append, List.mem_singleton] at hx
        rcases hx with hx | rfl
        · exact inv.done_resolved x hx
        · exact ⟨rfl, hd⟩
      · intro x hx
        obtain ⟨y, hy, rfl⟩ := List.mem_map.1 hx
        obtain ⟨o1, o2, o3⟩ := inv.todo_open y (List.mem_cons_of_mem _ hy)
        rw [hatt, hdef]
        by_cases hy2 : y.defender = r.defender
        · simp only [hy2, if_true, h2]
          exact ⟨o1, o2, trivial⟩
        · have hyD : ¬ y.defender = D := fun h => hy2 (h.trans h2.symm)
          simp only [hy2, if_false, hyD]
          refine ⟨o1, o2, ?_⟩
          rw [o3, if_neg hyD]
      · rw [hatt, damageTaken_append]
        have : ¬ (mergeResult r (_executeRound r dice).1).defender = A := by
          show ¬ r.defender = A
          rw [h2]; exact hAD.symm
        simp only [this, if_false, add_zero]
        exact inv.hpA_eq
      · rw [hdef, damageTaken_append]
        have : (mergeResult r (_executeRound r dice).1).defender = D := h2
        simp only [this, if_true]
        show (_executeRound r dice).1.defenderHPAfter = _
        rw [ha, hb2, inv.hpD_eq]
        exact max_sub_sub _ _ _ hd
      · rw [hatt, roundsActed_append]
        have : (mergeResult r (_executeRound r dice).1).attacker = A := h1
        simp only [this, if_true]
        show data.attacker.weaponUsesUsed + 1 = _
        rw [inv.usesA]
      · rw [hdef, roundsActed_append]
        have : ¬ (mergeResult r (_executeRound r dice).1).attacker = D := by
          show ¬ r.attacker = D
          rw [h1]; exact hAD
        simp only [this, if_false, add_zero]
        exact inv.usesD
  · have hne : r.attacker ≠ data.attacker.name := by
      rw [h1, hname]; exact hAD.symm
    obtain ⟨data', heq, hr, hallr, hdef, hatt⟩ :=
      handleRollClick_defender_acts data oa od done todo r dice inv.rounds_eq hres hne h3
    have hallv : data'.allResolved = decide (todo = []) := by
      rw [hallr, hr, hall]; simp
    refine ⟨mergeResult r (_executeRound r dice).1,
      todo.map (fun next =>
        if next.defender = r.defender then
          { next with defenderHPBefore := (_executeRound r dice).1.defenderHPAfter }
        else next), data', (_executeRound r dice).2, ?_, List.length_map _ _, hallv,
        actingSides_step done todo r _ _, ?_⟩
    · rw [heq, hallv]; simp
    · have hAD2 : ¬ A = D := hAD
      have hb2 : r.defenderHPBefore = data.attacker.hpEnd := by
        rw [hbefore, h2, if_neg hAD2]
      refine ⟨by rw [hr]; simp, by rw [hatt]; exact hname, ?_, ?_, ?_, ?_, ?_, ?_, ?_⟩
      · intro x hx
        have hids : truthyId data'.attacker.weaponId = truthyId data.attacker.weaponId ∧
            truthyId data'.defender.weaponId = truthyId data.defender.weaponId := by
          rw [hatt, hdef]; exact ⟨rfl, rfl⟩
        rw [hids.1, hids.2]
        simp only [List.mem_append, List.mem_singleton, List.mem_map] at hx
        rcases hx with (hx | rfl) | ⟨y, hy, rfl⟩
        · exact inv.sides x (by simp [hx])
        · exact Or.inr ⟨h1, h2, h3⟩
        · have := inv.sides y (by simp [hy])
          split <;> exact this
      · intro x hx
        simp only [List.mem_append, List.mem_singleton] at hx
        rcases hx with hx | rfl
        · exact inv.done_resolved x hx
        · exact ⟨rfl, hd⟩
      · intro x hx
        obtain ⟨y, hy, rfl⟩ := List.mem_map.1 hx
        obtain ⟨o1, o2, o3⟩ := inv.todo_open y (List.mem_cons_of_mem _ hy)
        rw [hatt, hdef]
        by_cases hy2 : y.defender = r.defender
        · have hyD : ¬ y.defender = D := by rw [hy2, h2]; exact hAD
          rw [if_pos hy2]
          refine ⟨o1, o2, ?_⟩
          show (_executeRound r dice).1.defenderHPAfter = if y.defender = D then _ else _
          rw [if_neg hyD]
        · have hyD : y.defender = D := by
            rcases inv.sides y (by simp [hy]) with ⟨-, q, -⟩ | ⟨-, q, -⟩
            · exact q
            · exact absurd (q.trans h2.symm) hy2
          rw [if_neg hy2]
          refine ⟨o1, o2, ?_⟩
          rw [o3, if_pos hyD, if_pos hyD]
      · rw [hatt, damageTaken_append]
        have : (mergeResult r (_executeRound r dice).1).defender = A := h2
        simp only [this, if_true]
        show (_executeRound r dice).1.defenderHPAfter = _
        rw [ha, hb2, inv.hpA_eq]
        exact max_sub_sub _ _ _ hd
      · rw [hdef, damageTaken_append]
        have : ¬ (mergeResult r (_executeRound r dice).1).defender = D := by
          show ¬ r.defender = D
          rw [h2]; exact hAD
        simp only [this, if_false, add_zero]
        exact inv.hpD_eq
      · rw [hatt, roundsActed_append]
        have : ¬ (mergeResult r (_executeRound r dice).1).attacker = A := by
          show ¬ r.attacker = A
          rw [h1]; exact hAD.symm
        simp only [this, if_false, add_zero]
        exact inv.usesA
      · rw [hdef, roundsActed_append]
        have : (mergeResult r (_executeRound r dice).1).attacker = D := h1
        simp only [this, if_true]
        show data.defender.weaponUsesUsed + 1 = _
        rw [inv.usesD]

/-- The results of a successful `map` with a callback that may throw. -/
theorem mapM_ok_mem {α β : Type} (f : α → Except JsError β) :
    ∀ (l : List α) (rs : List β), l.mapM f = .ok rs →
      rs.length = l.length ∧ ∀ r ∈ rs, ∃ x ∈ l, f x = .ok r := by
  intro l
  induction l with
  | nil =>
    intro rs h
    simp only [List.mapM_nil, pure, Except.pure] at h
    cases h
    simp
  | cons a rest ih =>
    intro rs h
    rw [List.mapM_cons] at h
    cases hfa : f a with
    | error e =>
      simp only [hfa, bind, Except.bind] at h
      cases h
    | ok b =>
      cases hrest : rest.mapM f with
      | error e =>
        simp only [hfa, hrest, bind, Except.bind] at h
        cases h
      | ok bs =>
        simp only [hfa, hrest, bind, Except.bind, pure, Except.pure] at h
        cases h
        obtain ⟨hlen, hmem⟩ := ih bs hrest
        refine ⟨by simp [hlen], ?_⟩
        intro r hr
        rcases List.mem_cons.1 hr with rfl | hr
        · exact ⟨a, List.mem_cons_self _ _, hfa⟩
        · obtain ⟨x, hx, hfx⟩ := hmem r hr
          exact ⟨x, List.mem_cons_of_mem _ hx, hfx⟩

/-- What a round prepared by `startCombat` looks like. -/
theorem startCombatRound_ok (attacker defender : Actor)
    (attackerWeapon defenderWeapon : Option Item) (hpA hpD : Int) (attack : CombatAction)
    (r : InteractiveRound)
    (h : startCombatRound attacker defender attackerWeapon defenderWeapon hpA hpD attack
      = .ok r) :
    r.resolved = false ∧ 0 ≤ r.damage ∧
    ((r.attacker = attacker.name ∧ r.defender = defender.name ∧ r.defenderHPBefore = hpD
        ∧ attackerWeapon.isSome = true) ∨
     (r.attacker = defender.name ∧ r.defender = attacker.name ∧ r.defenderHPBefore = hpA
        ∧ defenderWeapon.isSome = true)) := by
  cases hw : (if attack.actor.ref == attacker.ref then attackerWeapon else defenderWeapon) with
  | none =>
    simp only [startCombatRound, hw, bind, Except.bind] at h
    cases h
  | some w =>
    rw [startCombatRound_some attacker defender attackerWeapon defenderWeapon hpA hpD attack
      w hw] at h
    cases h
    refine ⟨rfl, by exact calculateDamage_nonneg _ _ w false, ?_⟩
    cases hb : (attack.actor.ref == attacker.ref)
    · right
      simp only [hb, Bool.false_eq_true, if_false] at hw ⊢
      simp [hw]
    · left
      simp only [hb, if_true] at hw ⊢
      simp [hw]

/-- The damage taken is not negative when no round has a negative damage. -/
theorem damageTaken_nonneg (name : String) (rounds : List InteractiveRound)
    (h : ∀ r ∈ rounds, 0 ≤ r.damage) : 0 ≤ damageTaken name rounds := by
  unfold damageTaken
  apply List.sum_nonneg
  intro x hx
  obtain ⟨r, hr, rfl⟩ := List.mem_map.1 hx
  exact h r (List.mem_filter.1 hr).1

/-- A click on a session whose rounds are all resolved changes nothing. -/
theorem handleRollClick_all_resolved (data : CombatData) (oa od : Option Actor)
    (h : ∀ r ∈ data.rounds, r.resolved = true) (roundIndex : Int) (dice : Dice) :
    _handleRollClick ⟨some data, oa, od⟩ roundIndex dice = (⟨some data, oa, od⟩, dice) := by
  unfold _handleRollClick
  cases hr : roundAt data.rounds roundIndex with
  | none => simp only [hr]
  | some r =>
    have hmem : r ∈ data.rounds := by
      unfold roundAt at hr
      split at hr
      · cases hr
      · exact List.get?_mem hr
    simp only [hr, h r hmem, if_true]

/-- The session data that `startCombat` returns satisfies the invariant with no round
resolved, and it has at least one round. -/
theorem startCombat_inv (host : Host) (attackerToken defenderToken : Token)
    (attackerWeapon defenderWeapon : Option Item) (session : CombatData)
    (h : startCombat host attackerToken defenderToken attackerWeapon defenderWeapon
      = .ok session)
    (hnames : attackerToken.actor.name ≠ defenderToken.actor.name)
    (hA : 0 ≤ attackerToken.actor.system.stats.hp.value)
    (hD : 0 ≤ defenderToken.actor.system.stats.hp.value)
    (hidA : ∀ w, attackerWeapon = some w → w.id ≠ "")
    (hidD : ∀ w, defenderWeapon = some w → w.id ≠ "") :
    SessionInv attackerToken.actor.name defenderToken.actor.name
      attackerToken.actor.system.stats.hp.value defenderToken.actor.system.stats.hp.value
      [] session.rounds session ∧
    session.rounds ≠ [] := by
  cases hseq : _buildCombatSequence host attackerToken.actor defenderToken.actor
      attackerToken defenderToken with
  | error e =>
    simp only [startCombat, hseq, bind, Except.bind] at h
    cases h
  | ok attacks =>
    cases hmap : attacks.mapM (startCombatRound attackerToken.actor defenderToken.actor
        attackerWeapon defenderWeapon attackerToken.actor.system.stats.hp.value
        defenderToken.actor.system.stats.hp.value) with
    | error e =>
      simp only [startCombat, hseq, hmap, bind, Except.bind] at h
      cases h
    | ok rounds =>
      simp only [startCombat, hseq, hmap, bind, Except.bind, pure, Except.pure] at h
      cases h
      obtain ⟨hlen, hmem⟩ := mapM_ok_mem _ attacks rounds hmap
      have hne := buildCombatSequence_ne_nil host _ _ _ _ attacks hseq
      have htruthy : ∀ (o : Option Item), (∀ w, o = some w → w.id ≠ "") →
          o.isSome = true → truthyId (o.map (fun w => w.id)) = true := by
        intro o ho hs
        cases o with
        | none => cases hs
        | some w => simpa [truthyId] using ho w rfl
      refine ⟨⟨rfl, rfl, ?_, ?_, ?_, ?_, ?_, rfl, rfl⟩, ?_⟩
      · intro r hr
        obtain ⟨x, -, hx⟩ := hmem r (by simpa using hr)
        obtain ⟨-, -, hs⟩ := startCombatRound_ok _ _ _ _ _ _ _ _ hx
        rcases hs with ⟨s1, s2, -, s4⟩ | ⟨s1, s2, -, s4⟩
        · exact Or.inl ⟨s1, s2, htruthy _ hidA s4⟩
        · exact Or.inr ⟨s1, s2, htruthy _ hidD s4⟩
      · intro r hr
        cases hr
      · intro r hr
        obtain ⟨x, -, hx⟩ := hmem r hr
        obtain ⟨s0, sd, hs⟩ := startCombatRound_ok _ _ _ _ _ _ _ _ hx
        refine ⟨s0, sd, ?_⟩
        rcases hs with ⟨-, s2, s3, -⟩ | ⟨-, s2, s3, -⟩
        · rw [if_pos s2, s3]
        · have : ¬ r.defender = defenderToken.actor.name := by rw [s2]; exact hnames
          rw [if_neg this, s3]
      · simp [damageTaken, hA]
      · simp [damageTaken, hD]
      · intro hnil
        apply hne
        have : rounds.length = 0 := by rw [show rounds = [] from hnil]; rfl
        rw [hlen] at this
        exact List.length_eq_zero.1 this

/-- Resolving the first `k` rounds of a session in order keeps the invariant; the actors are
written at the step that resolves the last round and at no earlier step. -/
theorem resolveInOrder_inv (A D : String) (hAD : A ≠ D) (hpA hpD : Int)
    (a d : Option Actor) (rounds0 : List InteractiveRound) (data0 : CombatData) (dice : Dice)
    (inv0 : SessionInv A D hpA hpD [] rounds0 data0) :
    ∀ k, k ≤ rounds0.length →
      ∃ done todo data dice',
        done.length = k ∧ todo.length = rounds0.length - k ∧
        SessionInv A D hpA hpD done todo data ∧
        (0 < k → data.allResolved = decide (k = rounds0.length)) ∧
        actingSides (done ++ todo) = actingSides rounds0 ∧
        resolveInOrder ⟨some data0, a, d⟩ dice k =
          (⟨some data,
            (if 0 < k ∧ k = rounds0.length then _applyFinalResults data a d else (a, d)).1,
            (if 0 < k ∧ k = rounds0.length then _applyFinalResults data a d else (a, d)).2⟩,
            dice') := by
  intro k
  induction k with
  | zero =>
    intro _
    exact ⟨[], rounds0, data0, dice, rfl, by simp, inv0, by simp, rfl,
      by simp [resolveInOrder]⟩
  | succ k ih =>
    intro hk
    obtain ⟨done, todo, data, dice1, hlen, htl, inv, -, hsides, heq⟩ := ih (by omega)
    have hlt : ¬ (0 < k ∧ k = rounds0.length) := by omega
    rw [if_neg hlt] at heq
    cases todo with
    | nil =>
      simp only [List.length_nil] at htl
      omega
    | cons r rest =>
      obtain ⟨r', todo', data', dice', hstep, hl', hall', hsides', inv'⟩ :=
        handleRollClick_step A D hAD hpA hpD done rest r data a d dice1 inv
      have hrest : rest = [] ↔ k + 1 = rounds0.length := by
        simp only [List.length_cons] at htl
        rw [← List.length_eq_zero]
        omega
      refine ⟨done ++ [r'], todo', data', dice', by simp [hlen], ?_, inv', ?_,
        hsides'.trans hsides, ?_⟩
      · simp only [List.length_cons] at htl
        omega
      · intro _
        rw [hall']
        simp only [hrest]
      · rw [hlen] at hstep
        simp only [resolveInOrder, heq, hstep]
        by_cases hr : rest = []
        · have := hrest.1 hr
          have hpos : 0 < rounds0.length := by omega
          simp [hr, this, hpos]
        · have : ¬ (k + 1 = rounds0.length) := fun h => hr (hrest.2 h)
          simp [hr, this]

/-- The HP that the finalize step writes for one side. -/
theorem finalized_hp (actor : Actor) (side : CombatantData) (taken : Int)
    (hhp : 0 ≤ actor.system.stats.hp.value ∧
      actor.system.stats.hp.value ≤ actor.system.stats.hp.max)
    (htaken : 0 ≤ taken)
    (hend : side.hpEnd = max 0 (actor.system.stats.hp.value - taken)) :
    (applyWeaponUses (actor.updateHP side.hpEnd) side).system.stats.hp.value =
      max 0 (actor.system.stats.hp.value - taken) := by
  rw [applyWeaponUses_system, updateHP_value, hend]
  split_ifs with h
  · omega
  · rfl

/-- C28: in an interactive session between two combatants with different names, whose HP
starts within `[0, max]` and whose weapons have non-empty ids, resolving the rounds in
sequence order works as follows. The session has at least one round; no actor is written
before the last round is resolved; resolving the last round marks the session as resolved
and applies the final results once to the two actors as they were at the start; who acts
against whom is as prepared by `startCombat`; the HP written for each side is
max(0, starting HP - sum of the damage of the rounds targeting that side); the use counter
of each side is the number of rounds in which that side acted; and any further click
changes nothing. -/
theorem interactive_session_totals (host : Host) (attackerToken defenderToken : Token)
    (attackerWeapon defenderWeapon : Option Item) (session : CombatData) (dice : Dice)
    (hstart : startCombat host attackerToken defenderToken attackerWeapon defenderWeapon
      = .ok session)
    (hnames : attackerToken.actor.name ≠ defenderToken.actor.name)
    (hA : 0 ≤ attackerToken.actor.system.stats.hp.value
      ∧ attackerToken.actor.system.stats.hp.value ≤ attackerToken.actor.system.stats.hp.max)
    (hD : 0 ≤ defenderToken.actor.system.stats.hp.value
      ∧ defenderToken.actor.system.stats.hp.value
          ≤ defenderToken.actor.system.stats.hp.max)
    (hidA : ∀ w, attackerWeapon = some w → w.id ≠ "")
    (hidD : ∀ w, defenderWeapon = some w → w.id ≠ "") :
    0 < session.rounds.length ∧
    (∀ k, k < session.rounds.length →
      (resolveInOrder (worldOf session attackerToken defenderToken) dice k).1.attackerActor
        = some attackerToken.actor ∧
      (resolveInOrder (worldOf session attackerToken defenderToken) dice k).1.defenderActor
        = some defenderToken.actor) ∧
    ∃ final attackerActor defenderActor dice',
      resolveInOrder (worldOf session attackerToken defenderToken) dice session.rounds.length
        = (⟨some final, some attackerActor, some defenderActor⟩, dice') ∧
      actingSides final.rounds = actingSides session.rounds ∧
      (∀ r ∈ final.rounds, r.resolved = true) ∧
      final.allResolved = true ∧
      _applyFinalResults final (some attackerToken.actor) (some defenderToken.actor)
        = (some attackerActor, some defenderActor) ∧
      attackerActor.system.stats.hp.value =
        max 0 (attackerToken.actor.system.stats.hp.value
          - damageTaken attackerToken.actor.name final.rounds) ∧
      defenderActor.system.stats.hp.value =
        max 0 (defenderToken.actor.system.stats.hp.value
          - damageTaken defenderToken.actor.name final.rounds) ∧
      final.attacker.weaponUsesUsed = roundsActed attackerToken.actor.name final.rounds ∧
      final.defender.weaponUsesUsed = roundsActed defenderToken.actor.name final.rounds ∧
      (∀ (roundIndex : Int) (dice2 : Dice),
        _handleRollClick ⟨some final, some attackerActor, some defenderActor⟩ roundIndex dice2
          = (⟨some final, some attackerActor, some defenderActor⟩, dice2)) := by
  obtain ⟨inv0, hne⟩ := startCombat_inv host attackerToken defenderToken attackerWeapon
    defenderWeapon session hstart hnames hA.1 hD.1 hidA hidD
  have hpos : 0 < session.rounds.length := List.length_pos.2 hne
  have hind := resolveInOrder_inv attackerToken.actor.name defenderToken.actor.name hnames
    attackerToken.actor.system.stats.hp.value defenderToken.actor.system.stats.hp.value
    (some attackerToken.actor) (some defenderToken.actor) session.rounds session dice inv0
  refine ⟨hpos, ?_, ?_⟩
  · intro k hk
    obtain ⟨done, todo, data, dice', -, -, -, -, -, heq⟩ := hind k (by omega)
    have hlt : ¬ (0 < k ∧ k = session.rounds.length) := by omega
    rw [if_neg hlt] at heq
    simp only [worldOf, heq]
    exact ⟨trivial, trivial⟩
  · obtain ⟨done, todo, data, dice', hlen, htl, inv, hflag, hsides, heq⟩ :=
      hind session.rounds.length (le_refl _)
    have htodo : todo = [] := by
      rw [← List.length_eq_zero]
      omega
    subst htodo
    rw [if_pos ⟨hpos, rfl⟩] at heq
    have hrounds : data.rounds = done := by rw [inv.rounds_eq]; simp
    have hdmgs : ∀ r ∈ done, 0 ≤ r.damage := fun r hr => (inv.done_resolved r hr).2
    have hres : ∀ r ∈ data.rounds, r.resolved = true := by
      rw [hrounds]; exact fun r hr => (inv.done_resolved r hr).1
    refine ⟨data,
      applyWeaponUses (attackerToken.actor.updateHP data.attacker.hpEnd) data.attacker,
      applyWeaponUses (defenderToken.actor.updateHP data.defender.hpEnd) data.defender,
      dice', heq, ?_, hres, ?_, rfl, ?_, ?_, ?_, ?_, ?_⟩
    · rw [hrounds]; simpa using hsides
    · rw [hflag hpos]; simp
    · rw [hrounds]
      exact finalized_hp _ _ _ hA (damageTaken_nonneg _ _ hdmgs) inv.hpA_eq
    · rw [hrounds]
      exact finalized_hp _ _ _ hD (damageTaken_nonneg _ _ hdmgs) inv.hpD_eq
    · rw [hrounds]; exact inv.usesA
    · rw [hrounds]; exact inv.usesD
    · intro roundIndex dice2
      exact handleRollClick_all_resolved data _ _ hres roundIndex dice2

/-- Witness for C28: Gray attacks Lukas, who counters; two rounds are resolved in order. -/
theorem interactive_session_totals_witness :
    startCombat sampleHost (tokenAt plainAttacker 0 0) (tokenAt weakLanceDefender 100 0)
      (some ironSword) (some ironLance) = .ok duelSession ∧
    duelSession.rounds.length = 2 ∧
    ∃ final attackerActor defenderActor dice',
      resolveInOrder
        (worldOf duelSession (tokenAt plainAttacker 0 0) (tokenAt weakLanceDefender 100 0))
        (constantDice 1) 2
        = (⟨some final, some attackerActor, some defenderActor⟩, dice') ∧
      final.allResolved = true ∧
      attackerActor.system.stats.hp.value = max 0 (20 - damageTaken "Gray" final.rounds) ∧
      defenderActor.system.stats.hp.value = max 0 (10 - damageTaken "Lukas" final.rounds) ∧
      final.attacker.weaponUsesUsed = roundsActed "Gray" final.rounds ∧
      final.defender.weaponUsesUsed = roundsActed "Lukas" final.rounds := by
  obtain ⟨-, -, final, attackerActor, defenderActor, dice', h1, -, -, h4, -, h6, h7, h8, h9,
      -⟩ :=
    interactive_session_totals sampleHost (tokenAt plainAttacker 0 0)
      (tokenAt weakLanceDefender 100 0) (some ironSword) (some ironLance) duelSession
      (constantDice 1) rfl (by decide) (by decide) (by decide)
      (by intro w hw; cases hw; decide) (by intro w hw; cases hw; decide)
  exact ⟨rfl, rfl, final, attackerActor, defenderActor, dice', h1, h4, h6, h7, h8, h9⟩

end Emblem
